import Mathlib

/-!
raylib 5.5, PS Vita platform layer (`src/platforms/rcore_vita.c`).

A shallow embedding of the input-event normalisation code of `rcore_vita.c`:
the scancode table, `ConvertScancodeToKey`, `UpdateTouchPointsSDL`,
`PollInputEvents` (snapshot rotation followed by the event dispatch loop),
`InitPlatform` and the accessor `WindowShouldClose`.

Conventions of the embedding

* A C array is a map from its (C `int`) index to the cell stored there; the
  declared length is a separate constant.  The cells of the program are those
  below the declared length.  A cell at or above it (or at a negative index)
  is no cell of the program: a value stored there records that the code
  stored past the end of the array, where the behaviour of the program is
  undefined (in the compiled program such a store lands in whatever lies next
  to the array).  `storesInBounds` tells the events whose handlers store
  inside the declared lengths, and a poll that drains such events writes no
  cell outside them (`PollInputEvents_stores_in_bounds`); the stores past an
  array are stated as defects of their own.  A `for` loop over `0 .. n-1` is a left fold over
  `List.range n`.
* `char` cells that the code only ever fills with `0` and `1` are `Nat`.
* A `float` is the rational number it denotes; every arithmetic result is
  rounded by `f32` (IEEE-754 binary32, round to nearest, ties to even).
* Answers of the native library (SDL2) that the code asks for while it handles
  an event travel with the event.
* The code is compiled through its SDL2 branches (`PLATFORM_DESKTOP_SDL3` is
  not defined for SDL 2).  The gesture hook (`UpdateGestures`,
  `ProcessGestureEvent`) only touches the gesture module and is left out.
-/

namespace RcoreVita

/-! ## Configuration constants (`config.h`) -/

/-- Modelled from the spec: `MAX_KEYBOARD_KEYS` of `config.h` (not among the
sources), "max supported key count (≈512)". -/
def MAX_KEYBOARD_KEYS : Nat := 512

/-- Modelled from the spec: `MAX_MOUSE_BUTTONS` of `config.h` (not among the
sources), "max mouse buttons, e.g. 8". -/
def MAX_MOUSE_BUTTONS : Nat := 8

/-- Modelled from the spec: `MAX_GAMEPADS` of `config.h` (not among the
sources), "N = max gamepads, e.g. 4". -/
def MAX_GAMEPADS : Nat := 4

/-- Modelled from the spec: `MAX_GAMEPAD_AXIS` of `config.h` (not among the
sources), "max axes, e.g. 8". -/
def MAX_GAMEPAD_AXIS : Nat := 8

/-- Modelled from the spec: `MAX_GAMEPAD_BUTTONS` of `config.h` (not among the
sources), "max buttons, e.g. 32". -/
def MAX_GAMEPAD_BUTTONS : Nat := 32

/-- Modelled from the spec: `MAX_TOUCH_POINTS` of `config.h` (not among the
sources), "max touch points, e.g. 10". -/
def MAX_TOUCH_POINTS : Nat := 10

/-- Modelled from the spec: `MAX_KEY_PRESSED_QUEUE` of `config.h` (not among
the sources), "bounded FIFO queue of keys pressed this frame (capacity ≈16)". -/
def MAX_KEY_PRESSED_QUEUE : Nat := 16

/-- Modelled from the spec: `MAX_CHAR_PRESSED_QUEUE` of `config.h` (not among
the sources), "bounded FIFO of Unicode codepoints entered this frame
(capacity ≈16)". -/
def MAX_CHAR_PRESSED_QUEUE : Nat := 16

/-- The drop-file cap, the literal `1024` of the `SDL_DROPFILE` handler. -/
def MAX_DROPPED_FILES : Nat := 1024

/-- Declared length of `platform.gamepad` (`SDL_GameController *gamepad[1]`). -/
def PLATFORM_GAMEPAD_LENGTH : Nat := 1

/-! ## Normalised identifiers (`raylib.h`)

`raylib.h` is not among the sources; the enumerators below carry the values of
the raylib 5.5 enumerations `KeyboardKey`, `GamepadButton` and `GamepadAxis`. -/

/-- A normalised key code (`KeyboardKey`). -/
abbrev KeyboardKey := Int

def KEY_NULL : KeyboardKey := 0
def KEY_APOSTROPHE : KeyboardKey := 39
def KEY_COMMA : KeyboardKey := 44
def KEY_MINUS : KeyboardKey := 45
def KEY_PERIOD : KeyboardKey := 46
def KEY_SLASH : KeyboardKey := 47
def KEY_ZERO : KeyboardKey := 48
def KEY_ONE : KeyboardKey := 49
def KEY_TWO : KeyboardKey := 50
def KEY_THREE : KeyboardKey := 51
def KEY_FOUR : KeyboardKey := 52
def KEY_FIVE : KeyboardKey := 53
def KEY_SIX : KeyboardKey := 54
def KEY_SEVEN : KeyboardKey := 55
def KEY_EIGHT : KeyboardKey := 56
def KEY_NINE : KeyboardKey := 57
def KEY_SEMICOLON : KeyboardKey := 59
def KEY_EQUAL : KeyboardKey := 61
def KEY_A : KeyboardKey := 65
def KEY_B : KeyboardKey := 66
def KEY_C : KeyboardKey := 67
def KEY_D : KeyboardKey := 68
def KEY_E : KeyboardKey := 69
def KEY_F : KeyboardKey := 70
def KEY_G : KeyboardKey := 71
def KEY_H : KeyboardKey := 72
def KEY_I : KeyboardKey := 73
def KEY_J : KeyboardKey := 74
def KEY_K : KeyboardKey := 75
def KEY_L : KeyboardKey := 76
def KEY_M : KeyboardKey := 77
def KEY_N : KeyboardKey := 78
def KEY_O : KeyboardKey := 79
def KEY_P : KeyboardKey := 80
def KEY_Q : KeyboardKey := 81
def KEY_R : KeyboardKey := 82
def KEY_S : KeyboardKey := 83
def KEY_T : KeyboardKey := 84
def KEY_U : KeyboardKey := 85
def KEY_V : KeyboardKey := 86
def KEY_W : KeyboardKey := 87
def KEY_X : KeyboardKey := 88
def KEY_Y : KeyboardKey := 89
def KEY_Z : KeyboardKey := 90
def KEY_LEFT_BRACKET : KeyboardKey := 91
def KEY_BACKSLASH : KeyboardKey := 92
def KEY_RIGHT_BRACKET : KeyboardKey := 93
def KEY_GRAVE : KeyboardKey := 96
def KEY_SPACE : KeyboardKey := 32
def KEY_ESCAPE : KeyboardKey := 256
def KEY_ENTER : KeyboardKey := 257
def KEY_TAB : KeyboardKey := 258
def KEY_BACKSPACE : KeyboardKey := 259
def KEY_INSERT : KeyboardKey := 260
def KEY_DELETE : KeyboardKey := 261
def KEY_RIGHT : KeyboardKey := 262
def KEY_LEFT : KeyboardKey := 263
def KEY_DOWN : KeyboardKey := 264
def KEY_UP : KeyboardKey := 265
def KEY_PAGE_UP : KeyboardKey := 266
def KEY_PAGE_DOWN : KeyboardKey := 267
def KEY_HOME : KeyboardKey := 268
def KEY_END : KeyboardKey := 269
def KEY_CAPS_LOCK : KeyboardKey := 280
def KEY_SCROLL_LOCK : KeyboardKey := 281
def KEY_NUM_LOCK : KeyboardKey := 282
def KEY_PRINT_SCREEN : KeyboardKey := 283
def KEY_PAUSE : KeyboardKey := 284
def KEY_F1 : KeyboardKey := 290
def KEY_F2 : KeyboardKey := 291
def KEY_F3 : KeyboardKey := 292
def KEY_F4 : KeyboardKey := 293
def KEY_F5 : KeyboardKey := 294
def KEY_F6 : KeyboardKey := 295
def KEY_F7 : KeyboardKey := 296
def KEY_F8 : KeyboardKey := 297
def KEY_F9 : KeyboardKey := 298
def KEY_F10 : KeyboardKey := 299
def KEY_F11 : KeyboardKey := 300
def KEY_F12 : KeyboardKey := 301
def KEY_LEFT_SHIFT : KeyboardKey := 340
def KEY_LEFT_CONTROL : KeyboardKey := 341
def KEY_LEFT_ALT : KeyboardKey := 342
def KEY_LEFT_SUPER : KeyboardKey := 343
def KEY_RIGHT_SHIFT : KeyboardKey := 344
def KEY_RIGHT_CONTROL : KeyboardKey := 345
def KEY_RIGHT_ALT : KeyboardKey := 346
def KEY_RIGHT_SUPER : KeyboardKey := 347
def KEY_KP_0 : KeyboardKey := 320
def KEY_KP_1 : KeyboardKey := 321
def KEY_KP_2 : KeyboardKey := 322
def KEY_KP_3 : KeyboardKey := 323
def KEY_KP_4 : KeyboardKey := 324
def KEY_KP_5 : KeyboardKey := 325
def KEY_KP_6 : KeyboardKey := 326
def KEY_KP_7 : KeyboardKey := 327
def KEY_KP_8 : KeyboardKey := 328
def KEY_KP_9 : KeyboardKey := 329
def KEY_KP_DECIMAL : KeyboardKey := 330
def KEY_KP_DIVIDE : KeyboardKey := 331
def KEY_KP_MULTIPLY : KeyboardKey := 332
def KEY_KP_SUBTRACT : KeyboardKey := 333
def KEY_KP_ADD : KeyboardKey := 334
def KEY_KP_ENTER : KeyboardKey := 335

/-- A normalised gamepad button (`GamepadButton`). -/
abbrev GamepadButton := Int

def GAMEPAD_BUTTON_UNKNOWN : GamepadButton := 0
def GAMEPAD_BUTTON_LEFT_FACE_UP : GamepadButton := 1
def GAMEPAD_BUTTON_LEFT_FACE_RIGHT : GamepadButton := 2
def GAMEPAD_BUTTON_LEFT_FACE_DOWN : GamepadButton := 3
def GAMEPAD_BUTTON_LEFT_FACE_LEFT : GamepadButton := 4
def GAMEPAD_BUTTON_RIGHT_FACE_UP : GamepadButton := 5
def GAMEPAD_BUTTON_RIGHT_FACE_RIGHT : GamepadButton := 6
def GAMEPAD_BUTTON_RIGHT_FACE_DOWN : GamepadButton := 7
def GAMEPAD_BUTTON_RIGHT_FACE_LEFT : GamepadButton := 8
def GAMEPAD_BUTTON_LEFT_TRIGGER_1 : GamepadButton := 9
def GAMEPAD_BUTTON_LEFT_TRIGGER_2 : GamepadButton := 10
def GAMEPAD_BUTTON_RIGHT_TRIGGER_1 : GamepadButton := 11
def GAMEPAD_BUTTON_RIGHT_TRIGGER_2 : GamepadButton := 12
def GAMEPAD_BUTTON_MIDDLE_LEFT : GamepadButton := 13
def GAMEPAD_BUTTON_MIDDLE : GamepadButton := 14
def GAMEPAD_BUTTON_MIDDLE_RIGHT : GamepadButton := 15
def GAMEPAD_BUTTON_LEFT_THUMB : GamepadButton := 16
def GAMEPAD_BUTTON_RIGHT_THUMB : GamepadButton := 17

/-- A normalised gamepad axis (`GamepadAxis`). -/
abbrev GamepadAxis := Int

def GAMEPAD_AXIS_LEFT_X : GamepadAxis := 0
def GAMEPAD_AXIS_LEFT_Y : GamepadAxis := 1
def GAMEPAD_AXIS_RIGHT_X : GamepadAxis := 2
def GAMEPAD_AXIS_RIGHT_Y : GamepadAxis := 3
def GAMEPAD_AXIS_LEFT_TRIGGER : GamepadAxis := 4
def GAMEPAD_AXIS_RIGHT_TRIGGER : GamepadAxis := 5

/-! ## Native identifiers (SDL 2 headers) -/

/-- `SDL_GameControllerButton` enumerators used by the button handlers. -/
def SDL_CONTROLLER_BUTTON_A : Int := 0
def SDL_CONTROLLER_BUTTON_B : Int := 1
def SDL_CONTROLLER_BUTTON_X : Int := 2
def SDL_CONTROLLER_BUTTON_Y : Int := 3
def SDL_CONTROLLER_BUTTON_BACK : Int := 4
def SDL_CONTROLLER_BUTTON_GUIDE : Int := 5
def SDL_CONTROLLER_BUTTON_START : Int := 6
def SDL_CONTROLLER_BUTTON_LEFTSTICK : Int := 7
def SDL_CONTROLLER_BUTTON_RIGHTSTICK : Int := 8
def SDL_CONTROLLER_BUTTON_LEFTSHOULDER : Int := 9
def SDL_CONTROLLER_BUTTON_RIGHTSHOULDER : Int := 10
def SDL_CONTROLLER_BUTTON_DPAD_UP : Int := 11
def SDL_CONTROLLER_BUTTON_DPAD_DOWN : Int := 12
def SDL_CONTROLLER_BUTTON_DPAD_LEFT : Int := 13
def SDL_CONTROLLER_BUTTON_DPAD_RIGHT : Int := 14

/-- `SDL_GameControllerAxis` enumerators used by the axis handler. -/
def SDL_CONTROLLER_AXIS_LEFTX : Int := 0
def SDL_CONTROLLER_AXIS_LEFTY : Int := 1
def SDL_CONTROLLER_AXIS_RIGHTX : Int := 2
def SDL_CONTROLLER_AXIS_RIGHTY : Int := 3
def SDL_CONTROLLER_AXIS_TRIGGERLEFT : Int := 4
def SDL_CONTROLLER_AXIS_TRIGGERRIGHT : Int := 5

/-! ## Device mapping table -/

def SCANCODE_MAPPED_NUM : Nat := 232

/-- The table `mapScancodeToKey`, entry by entry in source order. -/
def mapScancodeToKey : List KeyboardKey := [
  KEY_NULL,           -- SDL_SCANCODE_UNKNOWN
  0,
  0,
  0,
  KEY_A,              -- SDL_SCANCODE_A
  KEY_B,              -- SDL_SCANCODE_B
  KEY_C,              -- SDL_SCANCODE_C
  KEY_D,              -- SDL_SCANCODE_D
  KEY_E,              -- SDL_SCANCODE_E
  KEY_F,              -- SDL_SCANCODE_F
  KEY_G,              -- SDL_SCANCODE_G
  KEY_H,              -- SDL_SCANCODE_H
  KEY_I,              -- SDL_SCANCODE_I
  KEY_J,              -- SDL_SCANCODE_J
  KEY_K,              -- SDL_SCANCODE_K
  KEY_L,              -- SDL_SCANCODE_L
  KEY_M,              -- SDL_SCANCODE_M
  KEY_N,              -- SDL_SCANCODE_N
  KEY_O,              -- SDL_SCANCODE_O
  KEY_P,              -- SDL_SCANCODE_P
  KEY_Q,              -- SDL_SCANCODE_Q
  KEY_R,              -- SDL_SCANCODE_R
  KEY_S,              -- SDL_SCANCODE_S
  KEY_T,              -- SDL_SCANCODE_T
  KEY_U,              -- SDL_SCANCODE_U
  KEY_V,              -- SDL_SCANCODE_V
  KEY_W,              -- SDL_SCANCODE_W
  KEY_X,              -- SDL_SCANCODE_X
  KEY_Y,              -- SDL_SCANCODE_Y
  KEY_Z,              -- SDL_SCANCODE_Z
  KEY_ONE,            -- SDL_SCANCODE_1
  KEY_TWO,            -- SDL_SCANCODE_2
  KEY_THREE,          -- SDL_SCANCODE_3
  KEY_FOUR,           -- SDL_SCANCODE_4
  KEY_FIVE,           -- SDL_SCANCODE_5
  KEY_SIX,            -- SDL_SCANCODE_6
  KEY_SEVEN,          -- SDL_SCANCODE_7
  KEY_EIGHT,          -- SDL_SCANCODE_8
  KEY_NINE,           -- SDL_SCANCODE_9
  KEY_ZERO,           -- SDL_SCANCODE_0
  KEY_ENTER,          -- SDL_SCANCODE_RETURN
  KEY_ESCAPE,         -- SDL_SCANCODE_ESCAPE
  KEY_BACKSPACE,      -- SDL_SCANCODE_BACKSPACE
  KEY_TAB,            -- SDL_SCANCODE_TAB
  KEY_SPACE,          -- SDL_SCANCODE_SPACE
  KEY_MINUS,          -- SDL_SCANCODE_MINUS
  KEY_EQUAL,          -- SDL_SCANCODE_EQUALS
  KEY_LEFT_BRACKET,   -- SDL_SCANCODE_LEFTBRACKET
  KEY_RIGHT_BRACKET,  -- SDL_SCANCODE_RIGHTBRACKET
  KEY_BACKSLASH,      -- SDL_SCANCODE_BACKSLASH
  0,                  -- SDL_SCANCODE_NONUSHASH
  KEY_SEMICOLON,      -- SDL_SCANCODE_SEMICOLON
  KEY_APOSTROPHE,     -- SDL_SCANCODE_APOSTROPHE
  KEY_GRAVE,          -- SDL_SCANCODE_GRAVE
  KEY_COMMA,          -- SDL_SCANCODE_COMMA
  KEY_PERIOD,         -- SDL_SCANCODE_PERIOD
  KEY_SLASH,          -- SDL_SCANCODE_SLASH
  KEY_CAPS_LOCK,      -- SDL_SCANCODE_CAPSLOCK
  KEY_F1,             -- SDL_SCANCODE_F1
  KEY_F2,             -- SDL_SCANCODE_F2
  KEY_F3,             -- SDL_SCANCODE_F3
  KEY_F4,             -- SDL_SCANCODE_F4
  KEY_F5,             -- SDL_SCANCODE_F5
  KEY_F6,             -- SDL_SCANCODE_F6
  KEY_F7,             -- SDL_SCANCODE_F7
  KEY_F8,             -- SDL_SCANCODE_F8
  KEY_F9,             -- SDL_SCANCODE_F9
  KEY_F10,            -- SDL_SCANCODE_F10
  KEY_F11,            -- SDL_SCANCODE_F11
  KEY_F12,            -- SDL_SCANCODE_F12
  KEY_PRINT_SCREEN,   -- SDL_SCANCODE_PRINTSCREEN
  KEY_SCROLL_LOCK,    -- SDL_SCANCODE_SCROLLLOCK
  KEY_PAUSE,          -- SDL_SCANCODE_PAUSE
  KEY_INSERT,         -- SDL_SCANCODE_INSERT
  KEY_HOME,           -- SDL_SCANCODE_HOME
  KEY_PAGE_UP,        -- SDL_SCANCODE_PAGEUP
  KEY_DELETE,         -- SDL_SCANCODE_DELETE
  KEY_END,            -- SDL_SCANCODE_END
  KEY_PAGE_DOWN,      -- SDL_SCANCODE_PAGEDOWN
  KEY_RIGHT,          -- SDL_SCANCODE_RIGHT
  KEY_LEFT,           -- SDL_SCANCODE_LEFT
  KEY_DOWN,           -- SDL_SCANCODE_DOWN
  KEY_UP,             -- SDL_SCANCODE_UP
  KEY_NUM_LOCK,       -- SDL_SCANCODE_NUMLOCKCLEAR
  KEY_KP_DIVIDE,      -- SDL_SCANCODE_KP_DIVIDE
  KEY_KP_MULTIPLY,    -- SDL_SCANCODE_KP_MULTIPLY
  KEY_KP_SUBTRACT,    -- SDL_SCANCODE_KP_MINUS
  KEY_KP_ADD,         -- SDL_SCANCODE_KP_PLUS
  KEY_KP_ENTER,       -- SDL_SCANCODE_KP_ENTER
  KEY_KP_1,           -- SDL_SCANCODE_KP_1
  KEY_KP_2,           -- SDL_SCANCODE_KP_2
  KEY_KP_3,           -- SDL_SCANCODE_KP_3
  KEY_KP_4,           -- SDL_SCANCODE_KP_4
  KEY_KP_5,           -- SDL_SCANCODE_KP_5
  KEY_KP_6,           -- SDL_SCANCODE_KP_6
  KEY_KP_7,           -- SDL_SCANCODE_KP_7
  KEY_KP_8,           -- SDL_SCANCODE_KP_8
  KEY_KP_9,           -- SDL_SCANCODE_KP_9
  KEY_KP_0,           -- SDL_SCANCODE_KP_0
  KEY_KP_DECIMAL,     -- SDL_SCANCODE_KP_PERIOD
  0, 0, 0, 0, 0, 0, 0, 0, 0, 0,
  0, 0, 0, 0, 0, 0, 0, 0, 0, 0,
  0, 0, 0, 0, 0, 0, 0, 0, 0, 0,
  0, 0, 0, 0, 0, 0, 0, 0, 0, 0,
  0, 0, 0, 0, 0, 0, 0, 0, 0, 0,
  0, 0, 0, 0, 0, 0, 0, 0, 0, 0,
  0, 0, 0, 0, 0, 0, 0, 0, 0, 0,
  0, 0, 0, 0, 0, 0, 0, 0, 0, 0,
  0, 0, 0, 0, 0, 0, 0, 0, 0, 0,
  0, 0, 0, 0, 0, 0, 0, 0, 0, 0,
  0, 0, 0, 0, 0, 0, 0, 0, 0, 0,
  0, 0, 0, 0, 0, 0, 0, 0, 0, 0,
  0, 0, 0, 0,
  KEY_LEFT_CONTROL,   -- SDL_SCANCODE_LCTRL
  KEY_LEFT_SHIFT,     -- SDL_SCANCODE_LSHIFT
  KEY_LEFT_ALT,       -- SDL_SCANCODE_LALT
  KEY_LEFT_SUPER,     -- SDL_SCANCODE_LGUI
  KEY_RIGHT_CONTROL,  -- SDL_SCANCODE_RCTRL
  KEY_RIGHT_SHIFT,    -- SDL_SCANCODE_RSHIFT
  KEY_RIGHT_ALT,      -- SDL_SCANCODE_RALT
  KEY_RIGHT_SUPER     -- SDL_SCANCODE_RGUI
]

/-- Scancode to keycode mapping (`ConvertScancodeToKey`). -/
def ConvertScancodeToKey (sdlScancode : Int) : KeyboardKey :=
  if 0 ≤ sdlScancode ∧ sdlScancode < SCANCODE_MAPPED_NUM then
    mapScancodeToKey.getD sdlScancode.toNat KEY_NULL
  else KEY_NULL -- No equivalent key in Raylib

/-! ## Machine arithmetic -/

/-- Round a rational to the nearest integer, ties to the even neighbour. -/
def roundHalfEven (q : ℚ) : Int :=
  if q - ⌊q⌋ < 1 / 2 then ⌊q⌋
  else if 1 / 2 < q - ⌊q⌋ then ⌊q⌋ + 1
  else if ⌊q⌋ % 2 = 0 then ⌊q⌋ else ⌊q⌋ + 1

/-- Binary exponent used to round `q` to binary32: the exponent of the binade
of `|q|`, not below the subnormal exponent `-126`. -/
def f32Exponent (q : ℚ) : Int := max (Int.log 2 |q|) (-126)

/-- IEEE-754 binary32 rounding of the exact result `q` (round to nearest, ties
to even, 24 significant bits, gradual underflow).  Overflow to infinity is
outside the model. -/
def f32 (q : ℚ) : ℚ :=
  if q = 0 then 0
  else (roundHalfEven (q / 2 ^ (f32Exponent q - 23)) : ℚ) * 2 ^ (f32Exponent q - 23)

/-- The `float` literal `0.1f`. -/
def f32_0_1 : ℚ := f32 (1 / 10)

/-- Conversion of a C `int` to `unsigned int`. -/
def toUnsigned (v : Int) : Nat := (v % 4294967296).toNat

/-- Conversion of a 64-bit integer to C `int` (32 bits, two's complement): the
value is kept modulo `2^32`. -/
def narrowToInt (v : Int) : Int := (v + 2147483648) % 4294967296 - 2147483648

/-- A NUL-terminated string: its characters, the terminator left out. -/
abbrev CString := List Nat

/-- The C library call `strncpy(dst, src, n)`: the first `n` cells of `dst`
receive the characters of `src`, padded with NUL. -/
def strncpy (dst : Int → Nat) (src : CString) (n : Nat) : Int → Nat :=
  fun i => if 0 ≤ i ∧ i < n then src.getD i.toNat 0 else dst i

/-- The C library call `memset(dst, c, n)`. -/
def memset (dst : Int → Nat) (c : Nat) (n : Nat) : Int → Nat :=
  fun i => if 0 ≤ i ∧ i < n then c else dst i

/-- Store `v` in cell `[i][j]` of a two-dimensional array. -/
def update2 {α : Type} (m : Int → Int → α) (i j : Int) (v : α) : Int → Int → α :=
  Function.update m i (Function.update (m i) j v)

/-- The loop `for (int i = lo; i < hi; i++) body`. -/
def forRange {σ : Type} (lo hi : Int) (body : Int → σ → σ) (s : σ) : σ :=
  (List.range (hi - lo).toNat).foldl (fun acc (k : Nat) => body (lo + (k : Int)) acc) s

/-! ## Data model -/

structure Vector2 where
  x : ℚ
  y : ℚ

/-- The type `Size` of `rcore.c` (`unsigned int width, height`). -/
structure Size where
  width : Nat
  height : Nat

/-- Modelled from the spec: the `Window` section of `CoreData` (declared in
`rcore.c`, not among the sources) — "`shouldClose` boolean, `ready` boolean,
screen/display/render/framebuffer dimensions, `resizedLastFrame` boolean,
drop-file path list and count"; `flags` holds the configuration flags. -/
structure WindowData where
  flags : Nat
  ready : Bool
  shouldClose : Bool
  resizedLastFrame : Bool
  display : Size
  screen : Size
  render : Size
  currentFbo : Size
  dropFilepaths : Int → Option CString
  dropFileCount : Nat

/-- Modelled from the spec: the `Input.Keyboard` section of `CoreData` — "two
parallel fixed-size boolean arrays (`current`, `previous`) indexed by
normalized key code; a bounded FIFO queue of keys pressed this frame; a bounded
FIFO of Unicode codepoints entered this frame; a per-key repeat flag array",
and the designated exit key. -/
structure KeyboardData where
  exitKey : Int
  currentKeyState : Int → Nat
  previousKeyState : Int → Nat
  keyRepeatInFrame : Int → Nat
  keyPressedQueue : Int → Int
  keyPressedQueueCount : Int
  charPressedQueue : Int → Int
  charPressedQueueCount : Int

/-- Modelled from the spec: the `Input.Mouse` section of `CoreData` —
"`current`/`previous` boolean arrays for buttons; `currentPosition`/
`previousPosition`; `currentWheelMove`; a `cursorHidden`/`cursorOnScreen`
boolean set".  The two button arrays have `MAX_MOUSE_BUTTONS` cells, the
indices `0 .. MAX_MOUSE_BUTTONS-1`. -/
structure MouseData where
  currentPosition : Vector2
  previousPosition : Vector2
  currentWheelMove : Vector2
  cursorHidden : Bool
  cursorOnScreen : Bool
  currentButtonState : Int → Nat
  previousButtonState : Int → Nat

/-- Modelled from the spec: the `Input.Touch` section of `CoreData` — "parallel
`current`/`previous` boolean arrays indexed by touch slot; a `pointId` array; a
`position` array; a `pointCount` integer".  The four arrays are fixed-size
arrays of `MAX_TOUCH_POINTS` cells, the indices `0 .. MAX_TOUCH_POINTS-1`;
`pointId` is an array of C `int`. -/
structure TouchData where
  pointCount : Int
  pointId : Int → Int
  position : Int → Vector2
  currentTouchState : Int → Nat
  previousTouchState : Int → Nat

/-- Modelled from the spec: the `Input.Gamepad` section of `CoreData` —
"per-slot `ready` boolean, `name` string, `axisCount` integer, `current`/
`previous` boolean button arrays, `axisState` float array, and a single global
`lastButtonPressed` value".  Every per-slot array has `MAX_GAMEPADS` rows, the
slots `0 .. MAX_GAMEPADS-1`; a row of buttons has `MAX_GAMEPAD_BUTTONS` cells,
a row of axes `MAX_GAMEPAD_AXIS`, a name `GAMEPAD_NAME_LENGTH`. -/
structure GamepadData where
  lastButtonPressed : Int
  axisCount : Int → Int
  ready : Int → Bool
  name : Int → Int → Nat
  currentButtonState : Int → Int → Nat
  previousButtonState : Int → Int → Nat
  axisState : Int → Int → ℚ

structure InputData where
  Keyboard : KeyboardData
  Mouse : MouseData
  Touch : TouchData
  Gamepad : GamepadData

/-- The global `CORE` (sections used by the platform layer). -/
structure CoreData where
  Window : WindowData
  Input : InputData

/-- What the native library knows about an open controller handle. -/
structure SDL_GameController where
  instanceId : Int
  numAxes : Int

/-- The struct `PlatformData`; a pointer is `none` when it is `NULL`.  The
array `gamepad` is declared with `PLATFORM_GAMEPAD_LENGTH` entries, that is
with the single entry `gamepad[0]`, and is followed in the struct by `cursor`
and `cursorRelative`. -/
structure PlatformData where
  window : Option Nat
  glContext : Option Nat
  gamepad : Int → Option SDL_GameController
  cursor : Option Nat
  cursorRelative : Bool

/-- The two globals of the module, `CORE` and `platform`. -/
structure Globals where
  CORE : CoreData
  platform : PlatformData

/-! ## Native events

One constructor per `case` of the dispatch `switch`; the fields are the event
fields the handler reads, followed by the answers of the native calls it makes. -/

/-- Window sub-events told apart by the inner `switch`. -/
inductive SDL_WindowEventID
  | RESIZED
  | SIZE_CHANGED
  | ENTER
  | LEAVE
  | OTHER

/-- A finger as reported by `SDL_GetTouchFinger`; `id` is an `SDL_FingerID`, a
64-bit integer. -/
structure SDL_Finger where
  id : Int
  x : ℚ
  y : ℚ

/-- A finger event, with the answers of `SDL_GetNumTouchFingers(touchId)` and
`SDL_GetTouchFinger(touchId, i)`. -/
structure SDL_TouchFingerEvent where
  numTouchFingers : Int
  touchFinger : Int → SDL_Finger

inductive SDL_Event
  | QUIT
  | DROPFILE (file : CString)
  | WINDOWEVENT (event : SDL_WindowEventID) (data1 data2 : Int)
  | KEYDOWN (scancode : Int) (rep : Bool)
  | KEYUP (scancode : Int)
  | TEXTINPUT (text : List Int)
  | MOUSEBUTTONDOWN (button : Int)
  | MOUSEBUTTONUP (button : Int)
  | MOUSEWHEEL (x y : Int)
  | MOUSEMOTION (x y xrel yrel : Int)
  | FINGERDOWN (tfinger : SDL_TouchFingerEvent)
  | FINGERUP (tfinger : SDL_TouchFingerEvent)
  | FINGERMOTION (tfinger : SDL_TouchFingerEvent)
  | JOYDEVICEADDED (which : Int) (opened : Option SDL_GameController) (nameForIndex : CString)
  | JOYDEVICEREMOVED (which : Int) (reopened : Option SDL_GameController)
  | CONTROLLERBUTTONDOWN (which : Int) (button : Int)
  | CONTROLLERBUTTONUP (which : Int) (button : Int)
  | CONTROLLERAXISMOTION (which : Int) (axis : Int) (value : Int)
  | OTHER

/-- The native call `SDL_JoystickInstanceID(SDL_GameControllerGetJoystick(c))`:
the instance id of an open controller, `-1` for `NULL`. -/
def SDL_JoystickInstanceID (c : Option SDL_GameController) : Int :=
  match c with
  | some h => h.instanceId
  | none => -1

/-- Modelled from the spec: `GetCodepointNext` of `rtext.c` (not among the
sources), which "decodes the incoming text fragment into Unicode codepoints":
it returns the first codepoint of the text (the terminator `0` when the text
is empty).  The text of a `TEXTINPUT` event is given by the codepoints its
UTF-8 bytes encode. -/
def GetCodepointNext (text : List Int) : Int := text.headD 0

/-- Modelled from the spec: `SetupViewport` of `rcore.c` (not among the
sources), the viewport hook of a resize, which "updates screen/render/
framebuffer dimensions": it stores the new render size. -/
def SetupViewport (width height : Int) (g : Globals) : Globals :=
  { g with CORE.Window.render := ⟨toUnsigned width, toUnsigned height⟩ }

/-! ## Accessors -/

/-- Check if application should close (`WindowShouldClose`). -/
def WindowShouldClose (g : Globals) : Bool :=
  if g.CORE.Window.ready then g.CORE.Window.shouldClose else true

/-! ## Cursor -/

/-- Enables cursor (unlock cursor), `EnableCursor`. -/
def EnableCursor (g : Globals) : Globals :=
  { g with
    platform.cursorRelative := false,
    CORE.Input.Mouse.cursorHidden := false }

/-- Disables cursor (lock cursor), `DisableCursor`. -/
def DisableCursor (g : Globals) : Globals :=
  { g with
    platform.cursorRelative := true,
    CORE.Input.Mouse.cursorHidden := true }

/-! ## Touch re-synchronisation -/

/-- The two loops of `UpdateTouchPointsSDL` (SDL2 branch), which read
`CORE.Window.screen` and write `CORE.Input.Touch`.  The 64-bit finger id is
narrowed to the `int` cell of `pointId`. -/
def syncTouchPoints (event : SDL_TouchFingerEvent) (screen : Size) (t : TouchData) :
    TouchData :=
  let t1 : TouchData := { t with pointCount := event.numTouchFingers }
  let t2 : TouchData := forRange 0 t1.pointCount
    (fun i a =>
      { a with
        pointId := Function.update a.pointId i (narrowToInt (event.touchFinger i).id),
        position :=
          Function.update a.position i
            ⟨f32 ((event.touchFinger i).x * f32 screen.width),
             f32 ((event.touchFinger i).y * f32 screen.height)⟩,
        currentTouchState := Function.update a.currentTouchState i 1 })
    t1
  forRange t2.pointCount MAX_TOUCH_POINTS
    (fun i a => { a with currentTouchState := Function.update a.currentTouchState i 0 })
    t2

/-- The function `UpdateTouchPointsSDL`. -/
def UpdateTouchPointsSDL (event : SDL_TouchFingerEvent) (g : Globals) : Globals :=
  { g with CORE.Input.Touch := syncTouchPoints event g.CORE.Window.screen g.CORE.Input.Touch }

/-! ## Event handlers (the `case`s of the dispatch `switch`) -/

/-- Handler `case SDL_QUIT`. -/
def onQuit (g : Globals) : Globals :=
  { g with CORE.Window.shouldClose := true }

/-- Handler `case SDL_DROPFILE`.  On the first file of a batch a fresh array of
1024 empty slots is reserved. -/
def onDropFile (file : CString) (g : Globals) : Globals :=
  if g.CORE.Window.dropFileCount = 0 then
    { g with
      CORE.Window.dropFilepaths :=
        Function.update (fun _ => none) (g.CORE.Window.dropFileCount : Int) (some file),
      CORE.Window.dropFileCount := g.CORE.Window.dropFileCount + 1 }
  else if g.CORE.Window.dropFileCount < 1024 then
    { g with
      CORE.Window.dropFilepaths :=
        Function.update g.CORE.Window.dropFilepaths (g.CORE.Window.dropFileCount : Int) (some file),
      CORE.Window.dropFileCount := g.CORE.Window.dropFileCount + 1 }
  else g

/-- Handler `case SDL_WINDOWEVENT`. -/
def onWindowEvent (event : SDL_WindowEventID) (data1 data2 : Int) (g : Globals) : Globals :=
  match event with
  | .RESIZED | .SIZE_CHANGED =>
    let g1 := SetupViewport data1 data2 g
    { g1 with
      CORE.Window.screen := ⟨toUnsigned data1, toUnsigned data2⟩,
      CORE.Window.currentFbo := ⟨toUnsigned data1, toUnsigned data2⟩,
      CORE.Window.resizedLastFrame := true }
  | .ENTER => { g with CORE.Input.Mouse.cursorOnScreen := true }
  | .LEAVE => { g with CORE.Input.Mouse.cursorOnScreen := false }
  | .OTHER => g

/-- Handler `case SDL_KEYDOWN`. -/
def onKeyDown (scancode : Int) (rep : Bool) (g : Globals) : Globals :=
  let key := ConvertScancodeToKey scancode
  let g1 : Globals :=
    if key ≠ KEY_NULL then
      -- If key was up, add it to the key pressed queue
      let g0 : Globals :=
        if g.CORE.Input.Keyboard.currentKeyState key = 0
            ∧ g.CORE.Input.Keyboard.keyPressedQueueCount < MAX_KEY_PRESSED_QUEUE then
          { g with
            CORE.Input.Keyboard.keyPressedQueue :=
              Function.update g.CORE.Input.Keyboard.keyPressedQueue
                g.CORE.Input.Keyboard.keyPressedQueueCount key,
            CORE.Input.Keyboard.keyPressedQueueCount :=
              g.CORE.Input.Keyboard.keyPressedQueueCount + 1 }
        else g
      { g0 with CORE.Input.Keyboard.currentKeyState :=
          Function.update g0.CORE.Input.Keyboard.currentKeyState key 1 }
    else g
  let g2 : Globals :=
    if rep then
      { g1 with CORE.Input.Keyboard.keyRepeatInFrame :=
          Function.update g1.CORE.Input.Keyboard.keyRepeatInFrame key 1 }
    else g1
  if g2.CORE.Input.Keyboard.currentKeyState g2.CORE.Input.Keyboard.exitKey ≠ 0 then
    { g2 with CORE.Window.shouldClose := true }
  else g2

/-- Handler `case SDL_KEYUP`. -/
def onKeyUp (scancode : Int) (g : Globals) : Globals :=
  let key := ConvertScancodeToKey scancode
  if key ≠ KEY_NULL then
    { g with CORE.Input.Keyboard.currentKeyState :=
        Function.update g.CORE.Input.Keyboard.currentKeyState key 0 }
  else g

/-- Handler `case SDL_TEXTINPUT`. -/
def onTextInput (text : List Int) (g : Globals) : Globals :=
  -- Check if there is space available in the queue
  if g.CORE.Input.Keyboard.charPressedQueueCount < MAX_CHAR_PRESSED_QUEUE then
    { g with
      CORE.Input.Keyboard.charPressedQueue :=
        Function.update g.CORE.Input.Keyboard.charPressedQueue
          g.CORE.Input.Keyboard.charPressedQueueCount (GetCodepointNext text),
      CORE.Input.Keyboard.charPressedQueueCount :=
        g.CORE.Input.Keyboard.charPressedQueueCount + 1 }
  else g

/-- The index computed at the head of both mouse-button handlers from the
zero-based native index `btn = event.button.button - 1`:
`if (btn == 2) btn = 1; else if (btn == 1) btn = 2;`. -/
def remapMouseButton (btn : Int) : Int :=
  if btn = 2 then 1 else if btn = 1 then 2 else btn

/-- Handler `case SDL_MOUSEBUTTONDOWN`. -/
def onMouseButtonDown (button : Int) (g : Globals) : Globals :=
  let btn := remapMouseButton (button - 1)
  { g with
    CORE.Input.Mouse.currentButtonState :=
      Function.update g.CORE.Input.Mouse.currentButtonState btn 1,
    CORE.Input.Touch.currentTouchState :=
      Function.update g.CORE.Input.Touch.currentTouchState btn 1 }

/-- Handler `case SDL_MOUSEBUTTONUP`. -/
def onMouseButtonUp (button : Int) (g : Globals) : Globals :=
  let btn := remapMouseButton (button - 1)
  { g with
    CORE.Input.Mouse.currentButtonState :=
      Function.update g.CORE.Input.Mouse.currentButtonState btn 0,
    CORE.Input.Touch.currentTouchState :=
      Function.update g.CORE.Input.Touch.currentTouchState btn 0 }

/-- Handler `case SDL_MOUSEWHEEL`. -/
def onMouseWheel (x y : Int) (g : Globals) : Globals :=
  { g with CORE.Input.Mouse.currentWheelMove := ⟨f32 x, f32 y⟩ }

/-- Handler `case SDL_MOUSEMOTION`. -/
def onMouseMotion (x y xrel yrel : Int) (g : Globals) : Globals :=
  if g.platform.cursorRelative then
    { g with
      CORE.Input.Mouse.currentPosition := ⟨f32 xrel, f32 yrel⟩,
      CORE.Input.Mouse.previousPosition := ⟨0, 0⟩ }
  else
    { g with CORE.Input.Mouse.currentPosition := ⟨f32 x, f32 y⟩ }

/-- Handler `case SDL_JOYDEVICEADDED`; `opened` is the answer of
`SDL_GameControllerOpen(jid)` and `nameForIndex` that of
`SDL_GameControllerNameForIndex(jid)`. -/
def onJoyDeviceAdded (jid : Int) (opened : Option SDL_GameController)
    (nameForIndex : CString) (g : Globals) : Globals :=
  if g.CORE.Input.Gamepad.ready jid = false ∧ jid < MAX_GAMEPADS then
    let g1 : Globals := { g with platform.gamepad := Function.update g.platform.gamepad jid opened }
    match g1.platform.gamepad jid with
    | some h =>
      { g1 with
        CORE.Input.Gamepad.ready := Function.update g1.CORE.Input.Gamepad.ready jid true,
        CORE.Input.Gamepad.axisCount :=
          Function.update g1.CORE.Input.Gamepad.axisCount jid h.numAxes,
        CORE.Input.Gamepad.axisState :=
          update2 (update2 g1.CORE.Input.Gamepad.axisState jid GAMEPAD_AXIS_LEFT_TRIGGER (-1))
            jid GAMEPAD_AXIS_RIGHT_TRIGGER (-1),
        CORE.Input.Gamepad.name :=
          Function.update g1.CORE.Input.Gamepad.name jid
            (Function.update (strncpy (g1.CORE.Input.Gamepad.name jid) nameForIndex 63) 63 0) }
    | none => g1
  else g

/-- Handler `case SDL_JOYDEVICEREMOVED`; `reopened` is the answer of
`SDL_GameControllerOpen(0)`. -/
def onJoyDeviceRemoved (jid : Int) (reopened : Option SDL_GameController)
    (g : Globals) : Globals :=
  if jid = SDL_JoystickInstanceID (g.platform.gamepad jid) then
    { g with
      platform.gamepad := Function.update g.platform.gamepad jid reopened,
      CORE.Input.Gamepad.ready := Function.update g.CORE.Input.Gamepad.ready jid false,
      CORE.Input.Gamepad.name :=
        Function.update g.CORE.Input.Gamepad.name jid
          (memset (g.CORE.Input.Gamepad.name jid) 0 64) }
  else g

/-- The `switch (event.jbutton.button)` of `case SDL_CONTROLLERBUTTONDOWN`,
starting from `int button = -1`. -/
def buttonDownSwitch (button : Int) : Int :=
  if button = SDL_CONTROLLER_BUTTON_Y then GAMEPAD_BUTTON_RIGHT_FACE_UP
  else if button = SDL_CONTROLLER_BUTTON_B then GAMEPAD_BUTTON_RIGHT_FACE_RIGHT
  else if button = SDL_CONTROLLER_BUTTON_A then GAMEPAD_BUTTON_RIGHT_FACE_DOWN
  else if button = SDL_CONTROLLER_BUTTON_X then GAMEPAD_BUTTON_RIGHT_FACE_LEFT
  else if button = SDL_CONTROLLER_BUTTON_LEFTSHOULDER then GAMEPAD_BUTTON_LEFT_TRIGGER_1
  else if button = SDL_CONTROLLER_BUTTON_RIGHTSHOULDER then GAMEPAD_BUTTON_RIGHT_TRIGGER_1
  else if button = SDL_CONTROLLER_BUTTON_BACK then GAMEPAD_BUTTON_MIDDLE_LEFT
  else if button = SDL_CONTROLLER_BUTTON_GUIDE then GAMEPAD_BUTTON_MIDDLE
  else if button = SDL_CONTROLLER_BUTTON_START then GAMEPAD_BUTTON_MIDDLE_RIGHT
  else if button = SDL_CONTROLLER_BUTTON_DPAD_UP then GAMEPAD_BUTTON_LEFT_FACE_UP
  else if button = SDL_CONTROLLER_BUTTON_DPAD_RIGHT then GAMEPAD_BUTTON_LEFT_FACE_RIGHT
  else if button = SDL_CONTROLLER_BUTTON_DPAD_DOWN then GAMEPAD_BUTTON_LEFT_FACE_DOWN
  else if button = SDL_CONTROLLER_BUTTON_DPAD_LEFT then GAMEPAD_BUTTON_LEFT_FACE_LEFT
  else if button = SDL_CONTROLLER_BUTTON_LEFTSTICK then GAMEPAD_BUTTON_LEFT_THUMB
  else if button = SDL_CONTROLLER_BUTTON_RIGHTSTICK then GAMEPAD_BUTTON_RIGHT_THUMB
  else -1

/-- The `switch (event.jbutton.button)` of `case SDL_CONTROLLERBUTTONUP`,
starting from `int button = -1`. -/
def buttonUpSwitch (button : Int) : Int :=
  if button = SDL_CONTROLLER_BUTTON_Y then GAMEPAD_BUTTON_RIGHT_FACE_UP
  else if button = SDL_CONTROLLER_BUTTON_B then GAMEPAD_BUTTON_RIGHT_FACE_RIGHT
  else if button = SDL_CONTROLLER_BUTTON_A then GAMEPAD_BUTTON_RIGHT_FACE_DOWN
  else if button = SDL_CONTROLLER_BUTTON_X then GAMEPAD_BUTTON_RIGHT_FACE_LEFT
  else if button = SDL_CONTROLLER_BUTTON_LEFTSHOULDER then GAMEPAD_BUTTON_LEFT_TRIGGER_1
  else if button = SDL_CONTROLLER_BUTTON_RIGHTSHOULDER then GAMEPAD_BUTTON_RIGHT_TRIGGER_1
  else if button = SDL_CONTROLLER_BUTTON_BACK then GAMEPAD_BUTTON_MIDDLE_LEFT
  else if button = SDL_CONTROLLER_BUTTON_GUIDE then GAMEPAD_BUTTON_MIDDLE
  else if button = SDL_CONTROLLER_BUTTON_START then GAMEPAD_BUTTON_MIDDLE_RIGHT
  else if button = SDL_CONTROLLER_BUTTON_DPAD_UP then GAMEPAD_BUTTON_LEFT_FACE_UP
  else if button = SDL_CONTROLLER_BUTTON_DPAD_RIGHT then GAMEPAD_BUTTON_LEFT_FACE_RIGHT
  else if button = SDL_CONTROLLER_BUTTON_DPAD_DOWN then GAMEPAD_BUTTON_LEFT_FACE_DOWN
  else if button = SDL_CONTROLLER_BUTTON_DPAD_LEFT then GAMEPAD_BUTTON_LEFT_FACE_LEFT
  else if button = SDL_CONTROLLER_BUTTON_LEFTSTICK then GAMEPAD_BUTTON_LEFT_THUMB
  else if button = SDL_CONTROLLER_BUTTON_RIGHTSTICK then GAMEPAD_BUTTON_RIGHT_THUMB
  else -1

/-- Handler `case SDL_CONTROLLERBUTTONDOWN`. -/
def onControllerButtonDown (which : Int) (nativeButton : Int) (g : Globals) : Globals :=
  let button := buttonDownSwitch nativeButton
  if button ≥ 0 then
    { g with
      CORE.Input.Gamepad.currentButtonState :=
        update2 g.CORE.Input.Gamepad.currentButtonState which button 1,
      CORE.Input.Gamepad.lastButtonPressed := button }
  else g

/-- Handler `case SDL_CONTROLLERBUTTONUP`. -/
def onControllerButtonUp (which : Int) (nativeButton : Int) (g : Globals) : Globals :=
  let button := buttonUpSwitch nativeButton
  if button ≥ 0 then
    { g with
      CORE.Input.Gamepad.currentButtonState :=
        update2 g.CORE.Input.Gamepad.currentButtonState which button 0,
      CORE.Input.Gamepad.lastButtonPressed :=
        if g.CORE.Input.Gamepad.lastButtonPressed = button then 0
        else g.CORE.Input.Gamepad.lastButtonPressed }
  else g

/-- The `switch (event.jaxis.axis)` of `case SDL_CONTROLLERAXISMOTION`,
starting from `int axis = -1`. -/
def axisSwitch (axis : Int) : Int :=
  if axis = SDL_CONTROLLER_AXIS_LEFTX then GAMEPAD_AXIS_LEFT_X
  else if axis = SDL_CONTROLLER_AXIS_LEFTY then GAMEPAD_AXIS_LEFT_Y
  else if axis = SDL_CONTROLLER_AXIS_RIGHTX then GAMEPAD_AXIS_RIGHT_X
  else if axis = SDL_CONTROLLER_AXIS_RIGHTY then GAMEPAD_AXIS_RIGHT_Y
  else if axis = SDL_CONTROLLER_AXIS_TRIGGERLEFT then GAMEPAD_AXIS_LEFT_TRIGGER
  else if axis = SDL_CONTROLLER_AXIS_TRIGGERRIGHT then GAMEPAD_AXIS_RIGHT_TRIGGER
  else -1

/-- The normalised axis value `event.jaxis.value/(float)32767`. -/
def axisValue (raw : Int) : ℚ := f32 (f32 raw / 32767)

/-- Handler `case SDL_CONTROLLERAXISMOTION`. -/
def onControllerAxisMotion (which : Int) (nativeAxis : Int) (raw : Int) (g : Globals) : Globals :=
  let axis := axisSwitch nativeAxis
  if axis ≥ 0 then
    -- SDL axis value range is -32768 to 32767, we normalize it to RayLib's -1.0 to 1.0f range
    let value := axisValue raw
    let g1 : Globals :=
      { g with CORE.Input.Gamepad.axisState :=
          update2 g.CORE.Input.Gamepad.axisState which axis value }
    -- Register button state for triggers in addition to their axes
    if axis = GAMEPAD_AXIS_LEFT_TRIGGER ∨ axis = GAMEPAD_AXIS_RIGHT_TRIGGER then
      let button : Int :=
        if axis = GAMEPAD_AXIS_LEFT_TRIGGER then GAMEPAD_BUTTON_LEFT_TRIGGER_2
        else GAMEPAD_BUTTON_RIGHT_TRIGGER_2
      let pressed : Nat := if value > f32_0_1 then 1 else 0
      { g1 with
        CORE.Input.Gamepad.currentButtonState :=
          update2 g1.CORE.Input.Gamepad.currentButtonState which button pressed,
        CORE.Input.Gamepad.lastButtonPressed :=
          if pressed ≠ 0 then button
          else if g1.CORE.Input.Gamepad.lastButtonPressed = button then 0
          else g1.CORE.Input.Gamepad.lastButtonPressed }
    else g1
  else g

/-! ## The polling entry point -/

/-- The dispatch `switch (event.type)` of the polling loop. -/
def processEvent (g : Globals) (event : SDL_Event) : Globals :=
  match event with
  | .QUIT => onQuit g
  | .DROPFILE file => onDropFile file g
  | .WINDOWEVENT event data1 data2 => onWindowEvent event data1 data2 g
  | .KEYDOWN scancode rep => onKeyDown scancode rep g
  | .KEYUP scancode => onKeyUp scancode g
  | .TEXTINPUT text => onTextInput text g
  | .MOUSEBUTTONDOWN button => onMouseButtonDown button g
  | .MOUSEBUTTONUP button => onMouseButtonUp button g
  | .MOUSEWHEEL x y => onMouseWheel x y g
  | .MOUSEMOTION x y xrel yrel => onMouseMotion x y xrel yrel g
  | .FINGERDOWN tfinger => UpdateTouchPointsSDL tfinger g
  | .FINGERUP tfinger => UpdateTouchPointsSDL tfinger g
  | .FINGERMOTION tfinger => UpdateTouchPointsSDL tfinger g
  | .JOYDEVICEADDED which opened nameForIndex => onJoyDeviceAdded which opened nameForIndex g
  | .JOYDEVICEREMOVED which reopened => onJoyDeviceRemoved which reopened g
  | .CONTROLLERBUTTONDOWN which button => onControllerButtonDown which button g
  | .CONTROLLERBUTTONUP which button => onControllerButtonUp which button g
  | .CONTROLLERAXISMOTION which axis value => onControllerAxisMotion which axis value g
  | .OTHER => g

/-- The loop "Reset last gamepad button/axis registered state" of
`PollInputEvents`; `numJoysticks` is the answer of `SDL_NumJoysticks()`. -/
def registerPreviousGamepadButtons (numJoysticks : Int) (p : GamepadData) : GamepadData :=
  forRange 0 (min numJoysticks MAX_GAMEPADS)
    (fun i a =>
      -- Check if gamepad is available
      if a.ready i then
        -- Register previous gamepad button states
        forRange 0 MAX_GAMEPAD_BUTTONS
          (fun k b =>
            { b with previousButtonState :=
                update2 b.previousButtonState i k (b.currentButtonState i k) })
          a
      else a)
    p

/-- The loop "Register previous touch states" of `PollInputEvents`. -/
def registerPreviousTouchStates (t : TouchData) : TouchData :=
  forRange 0 MAX_TOUCH_POINTS
    (fun i a =>
      { a with previousTouchState :=
          Function.update a.previousTouchState i (a.currentTouchState i) })
    t

/-- The loop "Register previous keys states" of `PollInputEvents`. -/
def registerPreviousKeyStates (kb : KeyboardData) : KeyboardData :=
  forRange 0 MAX_KEYBOARD_KEYS
    (fun i a =>
      { a with
        previousKeyState := Function.update a.previousKeyState i (a.currentKeyState i),
        keyRepeatInFrame := Function.update a.keyRepeatInFrame i 0 })
    kb

/-- The loop "Register previous mouse states" of `PollInputEvents`. -/
def registerPreviousMouseButtons (m : MouseData) : MouseData :=
  forRange 0 MAX_MOUSE_BUTTONS
    (fun i a =>
      { a with previousButtonState :=
          Function.update a.previousButtonState i (a.currentButtonState i) })
    m

/-- The statements of `PollInputEvents` that precede the polling loop: reset of
the per-frame fields and registration of the previous states. -/
def registerPrevious (numJoysticks : Int) (g : Globals) : Globals :=
  -- Reset keys/chars pressed registered
  let g : Globals := { g with CORE.Input.Keyboard.keyPressedQueueCount := 0 }
  let g : Globals := { g with CORE.Input.Keyboard.charPressedQueueCount := 0 }
  -- Reset mouse wheel
  let g : Globals := { g with CORE.Input.Mouse.currentWheelMove := ⟨0, 0⟩ }
  -- Register previous mouse position
  let g : Globals :=
    if g.platform.cursorRelative then { g with CORE.Input.Mouse.currentPosition := ⟨0, 0⟩ }
    else { g with CORE.Input.Mouse.previousPosition := g.CORE.Input.Mouse.currentPosition }
  let g : Globals :=
    { g with CORE.Input.Gamepad := registerPreviousGamepadButtons numJoysticks g.CORE.Input.Gamepad }
  let g : Globals :=
    { g with CORE.Input.Touch := registerPreviousTouchStates g.CORE.Input.Touch }
  let g : Globals :=
    { g with CORE.Input.Keyboard := registerPreviousKeyStates g.CORE.Input.Keyboard }
  let g : Globals :=
    { g with CORE.Input.Mouse := registerPreviousMouseButtons g.CORE.Input.Mouse }
  { g with CORE.Window.resizedLastFrame := false }

/-- Register all input events (`PollInputEvents`): `queue` lists the events
that `SDL_PollEvent` hands out, in order, until the native queue is empty. -/
def PollInputEvents (numJoysticks : Int) (queue : List SDL_Event) (g : Globals) : Globals :=
  queue.foldl processEvent (registerPrevious numJoysticks g)

/-! ## Stores inside the declared arrays -/

/-- Whether the handler of an event keeps every store (and the read of the
native handle that the detach handler passes on) inside the declared length of
the array it indexes with a value taken from the event:
* mouse buttons: the remapped index `event.button.button - 1` indexes
  `Mouse.currentButtonState` and `Touch.currentTouchState`;
* finger events: the reported finger count bounds the first loop of
  `UpdateTouchPointsSDL` over `pointId`, `position` and `currentTouchState`,
  and starts the second one;
* attach: the device index passes the guard `jid < MAX_GAMEPADS` and then
  indexes `platform.gamepad` and the per-slot arrays (an index that fails the
  guard stores nothing);
* detach: the identifier indexes `platform.gamepad`, `ready` and `name`;
* controller buttons and axes: the identifier indexes the rows of
  `currentButtonState` and `axisState` when the button or axis is mapped.
The other handlers index with values they have tested or computed
themselves. -/
def storesInBounds : SDL_Event → Bool
  | .MOUSEBUTTONDOWN button | .MOUSEBUTTONUP button =>
    decide (0 ≤ remapMouseButton (button - 1)
      ∧ remapMouseButton (button - 1) < MAX_MOUSE_BUTTONS
      ∧ remapMouseButton (button - 1) < MAX_TOUCH_POINTS)
  | .FINGERDOWN tfinger | .FINGERUP tfinger | .FINGERMOTION tfinger =>
    decide (0 ≤ tfinger.numTouchFingers ∧ tfinger.numTouchFingers ≤ MAX_TOUCH_POINTS)
  | .JOYDEVICEADDED which _ _ =>
    decide ((0 ≤ which ∧ which < PLATFORM_GAMEPAD_LENGTH) ∨ (MAX_GAMEPADS : Int) ≤ which)
  | .JOYDEVICEREMOVED which _ => decide (0 ≤ which ∧ which < PLATFORM_GAMEPAD_LENGTH)
  | .CONTROLLERBUTTONDOWN which button =>
    decide (buttonDownSwitch button < 0 ∨ (0 ≤ which ∧ which < MAX_GAMEPADS))
  | .CONTROLLERBUTTONUP which button =>
    decide (buttonUpSwitch button < 0 ∨ (0 ≤ which ∧ which < MAX_GAMEPADS))
  | .CONTROLLERAXISMOTION which axis _ =>
    decide (axisSwitch axis < 0 ∨ (0 ≤ which ∧ which < MAX_GAMEPADS))
  | _ => true

/-! ## Queries of the specification -/

/-- Key `k` is down. -/
def keyDown (g : Globals) (k : KeyboardKey) : Bool :=
  g.CORE.Input.Keyboard.currentKeyState k != 0

/-- Pressed this frame: `current[k] && !previous[k]`. -/
def keyPressed (g : Globals) (k : KeyboardKey) : Bool :=
  g.CORE.Input.Keyboard.currentKeyState k != 0 && !(g.CORE.Input.Keyboard.previousKeyState k != 0)

/-- Released this frame: `previous[k] && !current[k]`. -/
def keyReleased (g : Globals) (k : KeyboardKey) : Bool :=
  g.CORE.Input.Keyboard.previousKeyState k != 0 && !(g.CORE.Input.Keyboard.currentKeyState k != 0)

/-! ## Platform initialisation -/

/-- The answers of the native calls made by `InitPlatform`: the result of
`SDL_Init`, the pointers returned by `SDL_CreateWindow` and
`SDL_GL_CreateContext`, and, for the gamepad enumeration, `SDL_NumJoysticks()`,
`SDL_GameControllerOpen(i)` and `SDL_GameControllerNameForIndex(i)`. -/
structure InitAnswers where
  initResult : Int
  createdWindow : Option Nat
  createdContext : Option Nat
  numJoysticks : Int
  controllerOpen : Int → Option SDL_GameController
  controllerNameForIndex : Int → CString

/-- The loop "Initialize gamepads" of `InitPlatform`. -/
def initGamepads (n : InitAnswers) (g : Globals) : Globals :=
  forRange 0 (min n.numJoysticks MAX_GAMEPADS)
    (fun i a =>
      let a1 : Globals :=
        { a with platform.gamepad := Function.update a.platform.gamepad i (n.controllerOpen i) }
      match a1.platform.gamepad i with
      | some h =>
        { a1 with
          CORE.Input.Gamepad.ready := Function.update a1.CORE.Input.Gamepad.ready i true,
          CORE.Input.Gamepad.axisCount :=
            Function.update a1.CORE.Input.Gamepad.axisCount i h.numAxes,
          CORE.Input.Gamepad.axisState :=
            update2 (update2 a1.CORE.Input.Gamepad.axisState i GAMEPAD_AXIS_LEFT_TRIGGER (-1))
              i GAMEPAD_AXIS_RIGHT_TRIGGER (-1),
          CORE.Input.Gamepad.name :=
            Function.update a1.CORE.Input.Gamepad.name i
              (Function.update
                (strncpy (a1.CORE.Input.Gamepad.name i) (n.controllerNameForIndex i) 63) 63 0) }
      | none => a1)
    g

/-- Initialize platform: graphics, inputs and more (`InitPlatform`); the result
is the returned `int` and the module state.  The timing and storage fields
written last (`CORE.Time.previous`, `CORE.Storage.basePath`) lie outside the
window and input sections and are left out. -/
def InitPlatform (n : InitAnswers) (g : Globals) : Int × Globals :=
  if n.initResult < 0 then (-1, g)
  else
    -- Init window
    let g : Globals := { g with platform.window := n.createdWindow }
    -- Init OpenGL context
    let g : Globals := { g with platform.glContext := n.createdContext }
    -- Check window and glContext have been initialized successfully
    if g.platform.window ≠ none ∧ g.platform.glContext ≠ none then
      let g : Globals := { g with CORE.Window.ready := true }
      let g : Globals := { g with CORE.Window.display := ⟨960, 544⟩ }
      let g : Globals := { g with CORE.Window.render := g.CORE.Window.screen }
      let g : Globals := { g with CORE.Window.currentFbo := g.CORE.Window.render }
      -- Initialize gamepads
      (0, initGamepads n g)
    else (-1, g)

/-! ## Concrete states -/

/-- The zero-filled module state (`static PlatformData platform = { 0 }` and
the zero-initialised `CORE`). -/
def zeroGlobals : Globals where
  CORE := {
    Window := {
      flags := 0, ready := false, shouldClose := false, resizedLastFrame := false,
      display := ⟨0, 0⟩, screen := ⟨0, 0⟩, render := ⟨0, 0⟩, currentFbo := ⟨0, 0⟩,
      dropFilepaths := fun _ => none, dropFileCount := 0 }
    Input := {
      Keyboard := {
        exitKey := 0, currentKeyState := fun _ => 0, previousKeyState := fun _ => 0,
        keyRepeatInFrame := fun _ => 0, keyPressedQueue := fun _ => 0,
        keyPressedQueueCount := 0, charPressedQueue := fun _ => 0,
        charPressedQueueCount := 0 }
      Mouse := {
        currentPosition := ⟨0, 0⟩, previousPosition := ⟨0, 0⟩, currentWheelMove := ⟨0, 0⟩,
        cursorHidden := false, cursorOnScreen := false,
        currentButtonState := fun _ => 0, previousButtonState := fun _ => 0 }
      Touch := {
        pointCount := 0, pointId := fun _ => 0, position := fun _ => ⟨0, 0⟩,
        currentTouchState := fun _ => 0, previousTouchState := fun _ => 0 }
      Gamepad := {
        lastButtonPressed := 0, axisCount := fun _ => 0, ready := fun _ => false,
        name := fun _ _ => 0, currentButtonState := fun _ _ => 0,
        previousButtonState := fun _ _ => 0, axisState := fun _ _ => 0 } } }
  platform := {
    window := none, glContext := none, gamepad := fun _ => none, cursor := none,
    cursorRelative := false }

/-- The state after a frame in which a controller is attached to slot 0, its
button A goes down, and the controller is detached again: button
`GAMEPAD_BUTTON_RIGHT_FACE_DOWN` of slot 0 is recorded as held and the slot is
not ready. -/
def detachedWhilePressed : Globals :=
  PollInputEvents 1
    [.JOYDEVICEADDED 0 (some ⟨0, 6⟩) [80, 97, 100],
     .CONTROLLERBUTTONDOWN 0 SDL_CONTROLLER_BUTTON_A,
     .JOYDEVICEREMOVED 0 none]
    zeroGlobals

/-- A state whose drop list is full: 1024 stored paths. -/
def fullDropList : Globals :=
  { zeroGlobals with
    CORE.Window.dropFilepaths := fun i => if 0 ≤ i ∧ i < 1024 then some [102] else none,
    CORE.Window.dropFileCount := 1024 }

/-- A state in which the exit key is `KEY_Q` and key `Q` is recorded as down
while `shouldClose` is still false (the exit key was rebound to a key that is
being held). -/
def exitKeyHeld : Globals :=
  { zeroGlobals with
    CORE.Input.Keyboard.exitKey := KEY_Q,
    CORE.Input.Keyboard.currentKeyState := Function.update (fun _ => 0) KEY_Q 1 }

/-- The zero-filled state with the Vita screen size, 960 x 544. -/
def vitaScreen : Globals :=
  { zeroGlobals with CORE.Window.screen := ⟨960, 544⟩ }

/-- A finger event while two fingers, ids 7 and 8, are on the panel. -/
def twoFingers : SDL_TouchFingerEvent where
  numTouchFingers := 2
  touchFinger := fun i => if i = 0 then ⟨7, 1 / 4, 1 / 4⟩ else ⟨8, 1 / 2, 1 / 2⟩

/-- A finger event while finger 7 alone is on the panel. -/
def oneFinger : SDL_TouchFingerEvent where
  numTouchFingers := 1
  touchFinger := fun _ => ⟨7, 1 / 4, 1 / 4⟩

/-- Native answers of a successful `InitPlatform` with one controller
(instance id 0, 6 axes, name "PSV") connected. -/
def oneControllerInit : InitAnswers where
  initResult := 0
  createdWindow := some 1
  createdContext := some 2
  numJoysticks := 1
  controllerOpen := fun i => if i = 0 then some ⟨0, 6⟩ else none
  controllerNameForIndex := fun _ => [80, 83, 86]

/-- A state in which both per-frame queues are full: sixteen keys (`A` to `P`)
went down and sixteen characters (`a` to `p`) were typed in the frame. -/
def fullQueues : Globals :=
  { zeroGlobals with
    CORE.Input.Keyboard.currentKeyState := fun k => if 65 ≤ k ∧ k < 81 then 1 else 0,
    CORE.Input.Keyboard.keyPressedQueue := fun i => if 0 ≤ i ∧ i < 16 then 65 + i else 0,
    CORE.Input.Keyboard.keyPressedQueueCount := 16,
    CORE.Input.Keyboard.charPressedQueue := fun i => if 0 ≤ i ∧ i < 16 then 97 + i else 0,
    CORE.Input.Keyboard.charPressedQueueCount := 16 }

/-- The state after two fingers (ids 7 and 8) touch the 960 x 544 panel and
finger 8 is lifted again: finger 7 alone remains. -/
def afterLift : Globals :=
  processEvent (processEvent vitaScreen (.FINGERDOWN twoFingers)) (.FINGERUP oneFinger)

/-- The state of an application that saw the mouse at (100, 200) in one frame,
polled an idle frame, and then locked the cursor: relative mode is on and
`previousPosition` still holds the last absolute position. -/
def lockedAfterMove : Globals :=
  DisableCursor
    (PollInputEvents 0 [] (PollInputEvents 0 [.MOUSEMOTION 100 200 100 200] zeroGlobals))

/-- A finger event for which the native query reports eleven fingers, ids 0 to
10, all in the middle of the panel. -/
def elevenFingers : SDL_TouchFingerEvent where
  numTouchFingers := 11
  touchFinger := fun i => ⟨i, 1 / 2, 1 / 2⟩

/-- Native answers of a successful `InitPlatform` with two controllers
(instance ids 0 and 1, 6 axes each, name "PSV") connected. -/
def twoControllersInit : InitAnswers where
  initResult := 0
  createdWindow := some 1
  createdContext := some 2
  numJoysticks := 2
  controllerOpen := fun i => some ⟨i, 6⟩
  controllerNameForIndex := fun _ => [80, 83, 86]

/-! ## Loops -/

theorem forRange_nil {σ : Type} (lo hi : Int) (body : Int → σ → σ) (s : σ) (h : hi ≤ lo) :
    forRange lo hi body s = s := by
  have h0 : (hi - lo).toNat = 0 := by omega
  simp [forRange, h0]

theorem forRange_succ {σ : Type} (lo : Int) (n : Nat) (body : Int → σ → σ) (s : σ) :
    forRange lo (lo + ((n : Int) + 1)) body s
      = body (lo + n) (forRange lo (lo + n) body s) := by
  have h1 : (lo + ((n : Int) + 1) - lo).toNat = n + 1 := by omega
  have h2 : (lo + (n : Int) - lo).toNat = n := by omega
  simp only [forRange, h1, h2, List.range_succ, List.foldl_append, List.foldl_cons,
    List.foldl_nil]

theorem forRange_eq_add {σ : Type} (lo hi : Int) (body : Int → σ → σ) (s : σ) (h : lo ≤ hi) :
    forRange lo hi body s = forRange lo (lo + ((hi - lo).toNat : Nat)) body s := by
  have : lo + (((hi - lo).toNat : Nat) : Int) = hi := by omega
  rw [this]

/-- A property kept by every iteration holds after the loop. -/
theorem forRange_invariant {σ : Type} (P : σ → Prop) (lo hi : Int) (body : Int → σ → σ)
    (s : σ) (h0 : P s) (hstep : ∀ i a, P a → P (body i a)) :
    P (forRange lo hi body s) := by
  unfold forRange
  generalize List.range (hi - lo).toNat = l
  induction l using List.reverseRecOn with
  | nil => exact h0
  | append_singleton l a ih =>
    simp only [List.foldl_append, List.foldl_cons, List.foldl_nil]
    exact hstep _ _ ih

/-- A loop whose iteration `i` rewrites cell `i` of an array (seen through
`get`) from the old content of that cell leaves, in every cell of the range,
the rewritten content, and every other cell alone. -/
theorem forRange_get {σ α : Type} (get : σ → Int → α) (v : Int → α → α) (Inv : σ → Prop)
    (lo hi : Int) (body : Int → σ → σ) (s : σ) (h0 : Inv s)
    (hInv : ∀ i a, Inv a → Inv (body i a))
    (hget : ∀ i a, Inv a → get (body i a) = Function.update (get a) i (v i (get a i)))
    (j : Int) :
    get (forRange lo hi body s) j = if lo ≤ j ∧ j < hi then v j (get s j) else get s j := by
  by_cases hle : lo ≤ hi
  · rw [forRange_eq_add lo hi body s hle]
    have key : ∀ n : Nat, Inv (forRange lo (lo + n) body s) ∧
        ∀ j, get (forRange lo (lo + n) body s) j
          = if lo ≤ j ∧ j < lo + n then v j (get s j) else get s j := by
      intro n
      induction n with
      | zero =>
        have e0 : forRange lo (lo + ((0 : Nat) : Int)) body s = s :=
          forRange_nil _ _ _ _ (by omega)
        refine ⟨by rw [e0]; exact h0, fun j => ?_⟩
        have : ¬ (lo ≤ j ∧ j < lo + ((0 : Nat) : Int)) := by omega
        rw [e0, if_neg this]
      | succ n ih =>
        obtain ⟨hI, hG⟩ := ih
        have es : forRange lo (lo + ((n + 1 : Nat) : Int)) body s
            = body (lo + n) (forRange lo (lo + n) body s) := by
          have := forRange_succ lo n body s
          push_cast
          exact this
        refine ⟨by rw [es]; exact hInv _ _ hI, fun j => ?_⟩
        rw [es, hget _ _ hI, Function.update_apply, hG, hG]
        by_cases hj : j = lo + n
        · subst hj
          have h1 : ¬ (lo ≤ lo + (n : Int) ∧ lo + (n : Int) < lo + n) := by omega
          have h2 : lo ≤ lo + (n : Int) ∧ lo + (n : Int) < lo + ((n + 1 : Nat) : Int) := by omega
          rw [if_pos rfl, if_neg h1, if_pos h2]
        · by_cases hr : lo ≤ j ∧ j < lo + (n : Int)
          · have h2 : lo ≤ j ∧ j < lo + ((n + 1 : Nat) : Int) := by omega
            rw [if_neg hj, if_pos hr, if_pos h2]
          · have h2 : ¬ (lo ≤ j ∧ j < lo + ((n + 1 : Nat) : Int)) := by omega
            rw [if_neg hj, if_neg hr, if_neg h2]
    have := (key (hi - lo).toNat).2 j
    have e : lo + (((hi - lo).toNat : Nat) : Int) = hi := by omega
    rw [e] at this ⊢
    exact this
  · have h1 : ¬ (lo ≤ j ∧ j < hi) := by omega
    rw [forRange_nil lo hi body s (by omega), if_neg h1]

/-! ## Registration of the previous states -/

theorem registerPreviousKeyStates_frame (kb : KeyboardData) :
    (registerPreviousKeyStates kb).exitKey = kb.exitKey
    ∧ (registerPreviousKeyStates kb).currentKeyState = kb.currentKeyState
    ∧ (registerPreviousKeyStates kb).keyPressedQueue = kb.keyPressedQueue
    ∧ (registerPreviousKeyStates kb).keyPressedQueueCount = kb.keyPressedQueueCount
    ∧ (registerPreviousKeyStates kb).charPressedQueue = kb.charPressedQueue
    ∧ (registerPreviousKeyStates kb).charPressedQueueCount = kb.charPressedQueueCount := by
  unfold registerPreviousKeyStates
  apply forRange_invariant
    (fun a : KeyboardData => a.exitKey = kb.exitKey
      ∧ a.currentKeyState = kb.currentKeyState
      ∧ a.keyPressedQueue = kb.keyPressedQueue
      ∧ a.keyPressedQueueCount = kb.keyPressedQueueCount
      ∧ a.charPressedQueue = kb.charPressedQueue
      ∧ a.charPressedQueueCount = kb.charPressedQueueCount)
  · exact ⟨rfl, rfl, rfl, rfl, rfl, rfl⟩
  · intro i a h
    exact h

theorem registerPreviousKeyStates_previous (kb : KeyboardData) (j : Int) :
    (registerPreviousKeyStates kb).previousKeyState j
      = if 0 ≤ j ∧ j < MAX_KEYBOARD_KEYS then kb.currentKeyState j
        else kb.previousKeyState j := by
  unfold registerPreviousKeyStates
  refine forRange_get (fun a : KeyboardData => a.previousKeyState)
    (fun i _ => kb.currentKeyState i)
    (fun a : KeyboardData => a.currentKeyState = kb.currentKeyState) _ _ _ _ ?_ ?_ ?_ j
  · rfl
  · exact fun _ _ h => h
  · intro i a h
    simp only [h]

theorem registerPreviousKeyStates_repeat (kb : KeyboardData) (j : Int) :
    (registerPreviousKeyStates kb).keyRepeatInFrame j
      = if 0 ≤ j ∧ j < MAX_KEYBOARD_KEYS then 0 else kb.keyRepeatInFrame j := by
  unfold registerPreviousKeyStates
  refine forRange_get (fun a : KeyboardData => a.keyRepeatInFrame)
    (fun _ _ => 0) (fun _ => True) _ _ _ _ ?_ ?_ ?_ j
  · trivial
  · exact fun _ _ h => h
  · exact fun i a _ => rfl

theorem registerPreviousMouseButtons_frame (m : MouseData) :
    (registerPreviousMouseButtons m).currentPosition = m.currentPosition
    ∧ (registerPreviousMouseButtons m).previousPosition = m.previousPosition
    ∧ (registerPreviousMouseButtons m).currentWheelMove = m.currentWheelMove
    ∧ (registerPreviousMouseButtons m).cursorHidden = m.cursorHidden
    ∧ (registerPreviousMouseButtons m).cursorOnScreen = m.cursorOnScreen
    ∧ (registerPreviousMouseButtons m).currentButtonState = m.currentButtonState := by
  unfold registerPreviousMouseButtons
  apply forRange_invariant
    (fun a : MouseData => a.currentPosition = m.currentPosition
      ∧ a.previousPosition = m.previousPosition
      ∧ a.currentWheelMove = m.currentWheelMove
      ∧ a.cursorHidden = m.cursorHidden
      ∧ a.cursorOnScreen = m.cursorOnScreen
      ∧ a.currentButtonState = m.currentButtonState)
  · exact ⟨rfl, rfl, rfl, rfl, rfl, rfl⟩
  · intro i a h
    exact h

theorem registerPreviousMouseButtons_previous (m : MouseData) (j : Int) :
    (registerPreviousMouseButtons m).previousButtonState j
      = if 0 ≤ j ∧ j < MAX_MOUSE_BUTTONS then m.currentButtonState j
        else m.previousButtonState j := by
  unfold registerPreviousMouseButtons
  refine forRange_get (fun a : MouseData => a.previousButtonState)
    (fun i _ => m.currentButtonState i)
    (fun a : MouseData => a.currentButtonState = m.currentButtonState) _ _ _ _ ?_ ?_ ?_ j
  · rfl
  · exact fun _ _ h => h
  · intro i a h
    simp only [h]

theorem registerPreviousTouchStates_frame (t : TouchData) :
    (registerPreviousTouchStates t).pointCount = t.pointCount
    ∧ (registerPreviousTouchStates t).pointId = t.pointId
    ∧ (registerPreviousTouchStates t).position = t.position
    ∧ (registerPreviousTouchStates t).currentTouchState = t.currentTouchState := by
  unfold registerPreviousTouchStates
  apply forRange_invariant
    (fun a : TouchData => a.pointCount = t.pointCount
      ∧ a.pointId = t.pointId
      ∧ a.position = t.position
      ∧ a.currentTouchState = t.currentTouchState)
  · exact ⟨rfl, rfl, rfl, rfl⟩
  · intro i a h
    exact h

theorem registerPreviousTouchStates_previous (t : TouchData) (j : Int) :
    (registerPreviousTouchStates t).previousTouchState j
      = if 0 ≤ j ∧ j < MAX_TOUCH_POINTS then t.currentTouchState j
        else t.previousTouchState j := by
  unfold registerPreviousTouchStates
  refine forRange_get (fun a : TouchData => a.previousTouchState)
    (fun i _ => t.currentTouchState i)
    (fun a : TouchData => a.currentTouchState = t.currentTouchState) _ _ _ _ ?_ ?_ ?_ j
  · rfl
  · exact fun _ _ h => h
  · intro i a h
    simp only [h]

/-! ## What the handlers leave alone -/

theorem syncTouchPoints_previousTouchState (event : SDL_TouchFingerEvent) (screen : Size)
    (t : TouchData) :
    (syncTouchPoints event screen t).previousTouchState = t.previousTouchState := by
  unfold syncTouchPoints
  apply forRange_invariant (fun a : TouchData => a.previousTouchState = t.previousTouchState)
  · apply forRange_invariant (fun a : TouchData => a.previousTouchState = t.previousTouchState)
    · rfl
    · exact fun _ _ h => h
  · exact fun _ _ h => h

/-- No event handler writes one of the four `previous` arrays of keyboard,
mouse buttons, touch points and gamepad buttons. -/
theorem processEvent_previous (g : Globals) (event : SDL_Event) :
    (processEvent g event).CORE.Input.Keyboard.previousKeyState
        = g.CORE.Input.Keyboard.previousKeyState
    ∧ (processEvent g event).CORE.Input.Mouse.previousButtonState
        = g.CORE.Input.Mouse.previousButtonState
    ∧ (processEvent g event).CORE.Input.Touch.previousTouchState
        = g.CORE.Input.Touch.previousTouchState
    ∧ (processEvent g event).CORE.Input.Gamepad.previousButtonState
        = g.CORE.Input.Gamepad.previousButtonState := by
  cases event with
  | QUIT => exact ⟨rfl, rfl, rfl, rfl⟩
  | DROPFILE file =>
    simp only [processEvent, onDropFile]
    split_ifs <;> exact ⟨rfl, rfl, rfl, rfl⟩
  | WINDOWEVENT event data1 data2 => cases event <;> exact ⟨rfl, rfl, rfl, rfl⟩
  | KEYDOWN scancode rep =>
    simp only [processEvent, onKeyDown]
    split_ifs <;> exact ⟨rfl, rfl, rfl, rfl⟩
  | KEYUP scancode =>
    simp only [processEvent, onKeyUp]
    split_ifs <;> exact ⟨rfl, rfl, rfl, rfl⟩
  | TEXTINPUT text =>
    simp only [processEvent, onTextInput]
    split_ifs <;> exact ⟨rfl, rfl, rfl, rfl⟩
  | MOUSEBUTTONDOWN button => exact ⟨rfl, rfl, rfl, rfl⟩
  | MOUSEBUTTONUP button => exact ⟨rfl, rfl, rfl, rfl⟩
  | MOUSEWHEEL x y => exact ⟨rfl, rfl, rfl, rfl⟩
  | MOUSEMOTION x y xrel yrel =>
    simp only [processEvent, onMouseMotion]
    split_ifs <;> exact ⟨rfl, rfl, rfl, rfl⟩
  | FINGERDOWN tfinger => exact ⟨rfl, rfl, syncTouchPoints_previousTouchState _ _ _, rfl⟩
  | FINGERUP tfinger => exact ⟨rfl, rfl, syncTouchPoints_previousTouchState _ _ _, rfl⟩
  | FINGERMOTION tfinger => exact ⟨rfl, rfl, syncTouchPoints_previousTouchState _ _ _, rfl⟩
  | JOYDEVICEADDED which opened nameForIndex =>
    simp only [processEvent, onJoyDeviceAdded]
    split_ifs
    · cases opened <;> simp [Function.update_same]
    · exact ⟨rfl, rfl, rfl, rfl⟩
  | JOYDEVICEREMOVED which reopened =>
    simp only [processEvent, onJoyDeviceRemoved]
    split_ifs <;> exact ⟨rfl, rfl, rfl, rfl⟩
  | CONTROLLERBUTTONDOWN which button =>
    simp only [processEvent, onControllerButtonDown]
    split_ifs <;> exact ⟨rfl, rfl, rfl, rfl⟩
  | CONTROLLERBUTTONUP which button =>
    simp only [processEvent, onControllerButtonUp]
    split_ifs <;> exact ⟨rfl, rfl, rfl, rfl⟩
  | CONTROLLERAXISMOTION which axis value =>
    simp only [processEvent, onControllerAxisMotion]
    split_ifs <;> exact ⟨rfl, rfl, rfl, rfl⟩
  | OTHER => exact ⟨rfl, rfl, rfl, rfl⟩

theorem foldl_processEvent_previous (queue : List SDL_Event) (g : Globals) :
    (queue.foldl processEvent g).CORE.Input.Keyboard.previousKeyState
        = g.CORE.Input.Keyboard.previousKeyState
    ∧ (queue.foldl processEvent g).CORE.Input.Mouse.previousButtonState
        = g.CORE.Input.Mouse.previousButtonState
    ∧ (queue.foldl processEvent g).CORE.Input.Touch.previousTouchState
        = g.CORE.Input.Touch.previousTouchState
    ∧ (queue.foldl processEvent g).CORE.Input.Gamepad.previousButtonState
        = g.CORE.Input.Gamepad.previousButtonState := by
  induction queue generalizing g with
  | nil => exact ⟨rfl, rfl, rfl, rfl⟩
  | cons e es ih =>
    obtain ⟨h1, h2, h3, h4⟩ := ih (processEvent g e)
    obtain ⟨k1, k2, k3, k4⟩ := processEvent_previous g e
    exact ⟨h1.trans k1, h2.trans k2, h3.trans k3, h4.trans k4⟩

theorem registerPrevious_Keyboard (numJoysticks : Int) (g : Globals) :
    (registerPrevious numJoysticks g).CORE.Input.Keyboard
      = registerPreviousKeyStates
          { g.CORE.Input.Keyboard with keyPressedQueueCount := 0, charPressedQueueCount := 0 } := by
  unfold registerPrevious
  cases h : g.platform.cursorRelative <;> simp [h]

theorem registerPrevious_Touch (numJoysticks : Int) (g : Globals) :
    (registerPrevious numJoysticks g).CORE.Input.Touch
      = registerPreviousTouchStates g.CORE.Input.Touch := by
  unfold registerPrevious
  cases h : g.platform.cursorRelative <;> simp [h]

theorem registerPrevious_Mouse (numJoysticks : Int) (g : Globals) :
    (registerPrevious numJoysticks g).CORE.Input.Mouse
      = registerPreviousMouseButtons
          (if g.platform.cursorRelative then
            { g.CORE.Input.Mouse with currentWheelMove := ⟨0, 0⟩, currentPosition := ⟨0, 0⟩ }
          else
            { g.CORE.Input.Mouse with
              currentWheelMove := ⟨0, 0⟩, previousPosition := g.CORE.Input.Mouse.currentPosition }) := by
  unfold registerPrevious
  cases h : g.platform.cursorRelative <;> simp [h]

theorem registerPrevious_Gamepad (numJoysticks : Int) (g : Globals) :
    (registerPrevious numJoysticks g).CORE.Input.Gamepad
      = registerPreviousGamepadButtons numJoysticks g.CORE.Input.Gamepad := by
  unfold registerPrevious
  cases h : g.platform.cursorRelative <;> simp [h]

/-! ## Gamepad button registration -/

/-- The inner loop over the buttons of slot `i`. -/
theorem registerButtons_inner (i : Int) (a : GamepadData) :
    let r := forRange 0 MAX_GAMEPAD_BUTTONS
      (fun k (b : GamepadData) =>
        { b with previousButtonState :=
            update2 b.previousButtonState i k (b.currentButtonState i k) }) a
    (r.lastButtonPressed = a.lastButtonPressed ∧ r.axisCount = a.axisCount ∧ r.ready = a.ready
      ∧ r.name = a.name ∧ r.currentButtonState = a.currentButtonState
      ∧ r.axisState = a.axisState)
    ∧ (∀ i', i' ≠ i → r.previousButtonState i' = a.previousButtonState i')
    ∧ ∀ k, r.previousButtonState i k
        = if 0 ≤ k ∧ k < MAX_GAMEPAD_BUTTONS then a.currentButtonState i k
          else a.previousButtonState i k := by
  intro r
  refine ⟨?_, ?_, ?_⟩
  · apply forRange_invariant
      (fun b : GamepadData => b.lastButtonPressed = a.lastButtonPressed
        ∧ b.axisCount = a.axisCount ∧ b.ready = a.ready ∧ b.name = a.name
        ∧ b.currentButtonState = a.currentButtonState ∧ b.axisState = a.axisState)
    · exact ⟨rfl, rfl, rfl, rfl, rfl, rfl⟩
    · exact fun _ _ h => h
  · apply forRange_invariant
      (fun b : GamepadData => ∀ i', i' ≠ i → b.previousButtonState i' = a.previousButtonState i')
    · exact fun _ _ => rfl
    · intro k b h i' hi'
      simp only [update2, Function.update_noteq hi']
      exact h i' hi'
  · intro k
    refine forRange_get (fun b : GamepadData => b.previousButtonState i)
      (fun k _ => a.currentButtonState i k)
      (fun b : GamepadData => b.currentButtonState = a.currentButtonState) _ _ _ _ ?_ ?_ ?_ k
    · rfl
    · exact fun _ _ h => h
    · intro k b h
      simp only [update2, Function.update_same, h]

theorem registerPreviousGamepadButtons_frame (numJoysticks : Int) (p : GamepadData) :
    (registerPreviousGamepadButtons numJoysticks p).lastButtonPressed = p.lastButtonPressed
    ∧ (registerPreviousGamepadButtons numJoysticks p).axisCount = p.axisCount
    ∧ (registerPreviousGamepadButtons numJoysticks p).ready = p.ready
    ∧ (registerPreviousGamepadButtons numJoysticks p).name = p.name
    ∧ (registerPreviousGamepadButtons numJoysticks p).currentButtonState = p.currentButtonState
    ∧ (registerPreviousGamepadButtons numJoysticks p).axisState = p.axisState := by
  unfold registerPreviousGamepadButtons
  apply forRange_invariant
    (fun b : GamepadData => b.lastButtonPressed = p.lastButtonPressed
      ∧ b.axisCount = p.axisCount ∧ b.ready = p.ready ∧ b.name = p.name
      ∧ b.currentButtonState = p.currentButtonState ∧ b.axisState = p.axisState)
  · exact ⟨rfl, rfl, rfl, rfl, rfl, rfl⟩
  · intro i a h
    by_cases hr : a.ready i = true
    · simp only [hr, if_true]
      obtain ⟨⟨h1, h2, h3, h4, h5, h6⟩, -, -⟩ := registerButtons_inner i a
      obtain ⟨k1, k2, k3, k4, k5, k6⟩ := h
      exact ⟨h1.trans k1, h2.trans k2, h3.trans k3, h4.trans k4, h5.trans k5, h6.trans k6⟩
    · simp only [hr]
      exact h

/-- Closed form of the gamepad registration loop: the row of slot `j` is
rewritten exactly when `j` is below both `SDL_NumJoysticks()` and
`MAX_GAMEPADS` and the slot is ready. -/
theorem registerPreviousGamepadButtons_previous (numJoysticks : Int) (p : GamepadData)
    (j k : Int) :
    (registerPreviousGamepadButtons numJoysticks p).previousButtonState j k
      = if (0 ≤ j ∧ j < min numJoysticks MAX_GAMEPADS) ∧ p.ready j = true
            ∧ 0 ≤ k ∧ k < MAX_GAMEPAD_BUTTONS
        then p.currentButtonState j k else p.previousButtonState j k := by
  have h := forRange_get (fun a : GamepadData => a.previousButtonState)
    (fun i row => if p.ready i = true then
        (fun k => if 0 ≤ k ∧ k < MAX_GAMEPAD_BUTTONS then p.currentButtonState i k else row k)
      else row)
    (fun a : GamepadData => a.ready = p.ready ∧ a.currentButtonState = p.currentButtonState)
    0 (min numJoysticks MAX_GAMEPADS)
    (fun i a =>
      if a.ready i then
        forRange 0 MAX_GAMEPAD_BUTTONS
          (fun k (b : GamepadData) =>
            { b with previousButtonState :=
                update2 b.previousButtonState i k (b.currentButtonState i k) })
          a
      else a) p ⟨rfl, rfl⟩ ?_ ?_ j
  · have h' := congrFun h k
    unfold registerPreviousGamepadButtons
    rw [h']
    by_cases h1 : 0 ≤ j ∧ j < min numJoysticks MAX_GAMEPADS
    · by_cases h2 : p.ready j = true
      · by_cases h3 : 0 ≤ k ∧ k < MAX_GAMEPAD_BUTTONS
        · simp only [eq_true h1, eq_true h2, eq_true h3, true_and, and_true, if_true]
        · simp only [eq_true h1, eq_true h2, eq_false h3, true_and, and_false, if_true,
            if_false]
      · simp only [eq_true h1, eq_false h2, true_and, false_and, and_false, if_true, if_false]
    · simp only [eq_false h1, false_and, if_false]
  · intro i a ha
    by_cases hr : a.ready i = true
    · simp only [hr, if_true]
      obtain ⟨⟨-, -, h3, -, h5, -⟩, -, -⟩ := registerButtons_inner i a
      exact ⟨h3.trans ha.1, h5.trans ha.2⟩
    · simp only [hr]
      exact ha
  · intro i a ha
    have hri : a.ready i = p.ready i := congrFun ha.1 i
    by_cases hr : a.ready i = true
    · obtain ⟨-, hrow, hcell⟩ := registerButtons_inner i a
      simp only [hr, if_true, ← hri]
      funext i'
      by_cases hi : i' = i
      · subst hi
        rw [Function.update_same]
        funext k
        rw [hcell k, ha.2]
      · rw [Function.update_noteq hi]
        exact hrow i' hi
    · simp only [hr, ← hri]
      funext i'
      by_cases hi : i' = i
      · subst hi
        rw [Function.update_same]
        simp
      · rw [Function.update_noteq hi]
        simp

/-! ## Claims -/

/-- C4, as stated, fails: after a frame in which the controller of slot 0 is
attached, pressed on button A and detached, `currentButtonState[0][7]` is 1 and
the slot is not ready; the next poll, with one joystick reported and an empty
queue, leaves `previousButtonState[0][7]` at 0. -/
theorem gamepad_previous_not_registered_when_not_ready :
    detachedWhilePressed.CORE.Input.Gamepad.ready 0 = false
    ∧ detachedWhilePressed.CORE.Input.Gamepad.currentButtonState 0
        GAMEPAD_BUTTON_RIGHT_FACE_DOWN = 1
    ∧ (PollInputEvents 1 [] detachedWhilePressed).CORE.Input.Gamepad.previousButtonState 0
        GAMEPAD_BUTTON_RIGHT_FACE_DOWN = 0 := by
  decide

/-! ## Keyboard -/

set_option maxRecDepth 100000 in
theorem mapScancodeToKey_range : ∀ k ∈ mapScancodeToKey, 0 ≤ k ∧ k < 348 := by
  decide

/-- Every key code `ConvertScancodeToKey` returns indexes the keyboard arrays
within their declared length. -/
theorem ConvertScancodeToKey_range (sc : Int) :
    0 ≤ ConvertScancodeToKey sc ∧ ConvertScancodeToKey sc < MAX_KEYBOARD_KEYS := by
  unfold ConvertScancodeToKey
  split_ifs with h
  · have hlen : sc.toNat < mapScancodeToKey.length := by
      have hl : mapScancodeToKey.length = 232 := rfl
      have h2 : sc < 232 := h.2
      rw [hl]
      omega
    rw [List.getD_eq_getElem _ _ hlen]
    have := mapScancodeToKey_range _ (List.getElem_mem hlen)
    exact ⟨this.1, lt_trans this.2 (by decide)⟩
  · exact ⟨by decide, by decide⟩

theorem onKeyDown_currentKeyState (sc : Int) (rep : Bool) (g : Globals) :
    (onKeyDown sc rep g).CORE.Input.Keyboard.currentKeyState
      = if ConvertScancodeToKey sc ≠ KEY_NULL then
          Function.update g.CORE.Input.Keyboard.currentKeyState (ConvertScancodeToKey sc) 1
        else g.CORE.Input.Keyboard.currentKeyState := by
  simp only [onKeyDown]
  split_ifs <;> rfl

theorem onKeyUp_currentKeyState (sc : Int) (g : Globals) :
    (onKeyUp sc g).CORE.Input.Keyboard.currentKeyState
      = if ConvertScancodeToKey sc ≠ KEY_NULL then
          Function.update g.CORE.Input.Keyboard.currentKeyState (ConvertScancodeToKey sc) 0
        else g.CORE.Input.Keyboard.currentKeyState := by
  simp only [onKeyUp]
  split_ifs <;> rfl

/-- Only key-down and key-up events write `currentKeyState`. -/
theorem processEvent_currentKeyState (g : Globals) (event : SDL_Event)
    (hdown : ∀ sc rep, event ≠ .KEYDOWN sc rep) (hup : ∀ sc, event ≠ .KEYUP sc) :
    (processEvent g event).CORE.Input.Keyboard.currentKeyState
      = g.CORE.Input.Keyboard.currentKeyState := by
  cases event with
  | QUIT => rfl
  | DROPFILE file =>
    simp only [processEvent, onDropFile]
    split_ifs <;> rfl
  | WINDOWEVENT event data1 data2 => cases event <;> rfl
  | KEYDOWN scancode rep => exact absurd rfl (hdown scancode rep)
  | KEYUP scancode => exact absurd rfl (hup scancode)
  | TEXTINPUT text =>
    simp only [processEvent, onTextInput]
    split_ifs <;> rfl
  | MOUSEBUTTONDOWN button => rfl
  | MOUSEBUTTONUP button => rfl
  | MOUSEWHEEL x y => rfl
  | MOUSEMOTION x y xrel yrel =>
    simp only [processEvent, onMouseMotion]
    split_ifs <;> rfl
  | FINGERDOWN tfinger => rfl
  | FINGERUP tfinger => rfl
  | FINGERMOTION tfinger => rfl
  | JOYDEVICEADDED which opened nameForIndex =>
    simp only [processEvent, onJoyDeviceAdded]
    split_ifs
    · cases opened <;> simp [Function.update_same]
    · rfl
  | JOYDEVICEREMOVED which reopened =>
    simp only [processEvent, onJoyDeviceRemoved]
    split_ifs <;> rfl
  | CONTROLLERBUTTONDOWN which button =>
    simp only [processEvent, onControllerButtonDown]
    split_ifs <;> rfl
  | CONTROLLERBUTTONUP which button =>
    simp only [processEvent, onControllerButtonUp]
    split_ifs <;> rfl
  | CONTROLLERAXISMOTION which axis value =>
    simp only [processEvent, onControllerAxisMotion]
    split_ifs <;> rfl
  | OTHER => rfl

/-- A key that is down stays down across an event that is not a key-up of
that key. -/
theorem processEvent_keeps_down (g : Globals) (event : SDL_Event) (K : KeyboardKey)
    (hK : g.CORE.Input.Keyboard.currentKeyState K ≠ 0)
    (he : ∀ sc, event = .KEYUP sc → ConvertScancodeToKey sc ≠ K) :
    (processEvent g event).CORE.Input.Keyboard.currentKeyState K ≠ 0 := by
  by_cases hd : ∃ sc rep, event = .KEYDOWN sc rep
  · obtain ⟨sc, rep, rfl⟩ := hd
    show (onKeyDown sc rep g).CORE.Input.Keyboard.currentKeyState K ≠ 0
    rw [onKeyDown_currentKeyState]
    split_ifs with h
    · rw [Function.update_apply]
      split_ifs
      · exact one_ne_zero
      · exact hK
    · exact hK
  · by_cases hu : ∃ sc, event = .KEYUP sc
    · obtain ⟨sc, rfl⟩ := hu
      show (onKeyUp sc g).CORE.Input.Keyboard.currentKeyState K ≠ 0
      rw [onKeyUp_currentKeyState]
      split_ifs with h
      · rw [Function.update_noteq (fun hh => he sc rfl hh.symm)]
        exact hK
      · exact hK
    · rw [processEvent_currentKeyState g event (fun sc rep hh => hd ⟨sc, rep, hh⟩)
        (fun sc hh => hu ⟨sc, hh⟩)]
      exact hK

theorem foldl_processEvent_keeps_down (queue : List SDL_Event) (g : Globals) (K : KeyboardKey)
    (hK : g.CORE.Input.Keyboard.currentKeyState K ≠ 0)
    (hq : ∀ sc, SDL_Event.KEYUP sc ∈ queue → ConvertScancodeToKey sc ≠ K) :
    (queue.foldl processEvent g).CORE.Input.Keyboard.currentKeyState K ≠ 0 := by
  induction queue generalizing g with
  | nil => exact hK
  | cons e es ih =>
    refine ih (processEvent g e) ?_ (fun sc hsc => hq sc (List.mem_cons_of_mem _ hsc))
    exact processEvent_keeps_down g e K hK
      (fun sc hh => hq sc (by rw [hh]; exact List.mem_cons_self _ _))

theorem registerPrevious_currentKeyState (numJoysticks : Int) (g : Globals) :
    (registerPrevious numJoysticks g).CORE.Input.Keyboard.currentKeyState
      = g.CORE.Input.Keyboard.currentKeyState := by
  rw [registerPrevious_Keyboard]
  exact (registerPreviousKeyStates_frame _).2.1

/-- After a poll the `previous` state of an in-range key is its `current`
state from before the poll. -/
theorem PollInputEvents_previousKeyState (numJoysticks : Int) (queue : List SDL_Event)
    (g : Globals) (K : Int) (h0 : 0 ≤ K) (h1 : K < MAX_KEYBOARD_KEYS) :
    (PollInputEvents numJoysticks queue g).CORE.Input.Keyboard.previousKeyState K
      = g.CORE.Input.Keyboard.currentKeyState K := by
  unfold PollInputEvents
  rw [(foldl_processEvent_previous queue (registerPrevious numJoysticks g)).1,
    registerPrevious_Keyboard, registerPreviousKeyStates_previous, if_pos ⟨h0, h1⟩]

/-- C2, as stated, fails: key `A` is up before the frame and the frame's queue
holds a key-down for its scancode followed by the key-up, so `A` receives a
key-down event in the frame; after the poll `pressed(A)` is false. -/
theorem pressed_missed_when_released_in_same_frame :
    zeroGlobals.CORE.Input.Keyboard.currentKeyState KEY_A = 0
    ∧ ConvertScancodeToKey 4 = KEY_A
    ∧ keyPressed (PollInputEvents 1 [.KEYDOWN 4 false, .KEYUP 4] zeroGlobals) KEY_A = false := by
  decide

/-- C2, amended: for every mapped key `K` that is up at the end of frame N-1
and receives in frame N a key-down event that no key-up event for `K` follows
within that frame, `pressed(K)` (`current[K] && !previous[K]`) is true after
the poll of frame N, and false after the poll of frame N+1 when `K` stays held
(no key-up for `K` in frame N+1, with or without auto-repeat key-down events
for `K`); the second half holds for every queue `next` of frame N+1. -/
theorem pressed_exactly_on_first_frame (numJoysticks numJoysticks' : Int) (g : Globals)
    (before after next : List SDL_Event) (sc : Int) (rep : Bool)
    (hmapped : ConvertScancodeToKey sc ≠ KEY_NULL)
    (hup : g.CORE.Input.Keyboard.currentKeyState (ConvertScancodeToKey sc) = 0)
    (hafter : ∀ sc', SDL_Event.KEYUP sc' ∈ after →
      ConvertScancodeToKey sc' ≠ ConvertScancodeToKey sc) :
    keyPressed (PollInputEvents numJoysticks (before ++ .KEYDOWN sc rep :: after) g)
        (ConvertScancodeToKey sc) = true
    ∧ keyPressed
        (PollInputEvents numJoysticks' next
          (PollInputEvents numJoysticks (before ++ .KEYDOWN sc rep :: after) g))
        (ConvertScancodeToKey sc) = false := by
  obtain ⟨h0, h1⟩ := ConvertScancodeToKey_range sc
  have hdown : (PollInputEvents numJoysticks (before ++ .KEYDOWN sc rep :: after)
      g).CORE.Input.Keyboard.currentKeyState (ConvertScancodeToKey sc) ≠ 0 := by
    unfold PollInputEvents
    rw [List.foldl_append, List.foldl_cons]
    apply foldl_processEvent_keeps_down _ _ _ _ hafter
    show (onKeyDown sc rep _).CORE.Input.Keyboard.currentKeyState _ ≠ 0
    rw [onKeyDown_currentKeyState, if_pos hmapped, Function.update_same]
    exact one_ne_zero
  constructor
  · simp only [keyPressed, PollInputEvents_previousKeyState _ _ _ _ h0 h1, hup]
    simpa using hdown
  · simp only [keyPressed, PollInputEvents_previousKeyState _ _ _ _ h0 h1]
    simp [hdown]

/-- Witness of C2 (amended): key `A` from the zero-filled state, the key-down
alone in frame N and an auto-repeat key-down in frame N+1. -/
theorem pressed_exactly_on_first_frame_witness :
    keyPressed (PollInputEvents 1 ([] ++ .KEYDOWN 4 false :: []) zeroGlobals)
        (ConvertScancodeToKey 4) = true
    ∧ keyPressed
        (PollInputEvents 1 [.KEYDOWN 4 true]
          (PollInputEvents 1 ([] ++ .KEYDOWN 4 false :: []) zeroGlobals))
        (ConvertScancodeToKey 4) = false :=
  pressed_exactly_on_first_frame 1 1 zeroGlobals [] [] [.KEYDOWN 4 true] 4 false
    (by decide) (by decide) (by simp)

/-- C3: end to end, from any state in which key `A` is up, scancode 4 being
the one mapped to `KEY_A`: a poll that drains one key-down event for scancode
4 yields `pressed(A)` and `down(A)`; a following poll that drains one key-up
event for the same scancode yields `released(A)` (`previous[A] && !current[A]`)
and `down(A) = false`. -/
theorem key_A_down_then_up (numJoysticks numJoysticks' : Int) (rep : Bool) (g : Globals)
    (hup : g.CORE.Input.Keyboard.currentKeyState KEY_A = 0) :
    ConvertScancodeToKey 4 = KEY_A
    ∧ keyPressed (PollInputEvents numJoysticks [.KEYDOWN 4 rep] g) KEY_A = true
    ∧ keyDown (PollInputEvents numJoysticks [.KEYDOWN 4 rep] g) KEY_A = true
    ∧ keyReleased
        (PollInputEvents numJoysticks' [.KEYUP 4]
          (PollInputEvents numJoysticks [.KEYDOWN 4 rep] g)) KEY_A = true
    ∧ keyDown
        (PollInputEvents numJoysticks' [.KEYUP 4]
          (PollInputEvents numJoysticks [.KEYDOWN 4 rep] g)) KEY_A = false := by
  have hA : ConvertScancodeToKey 4 = KEY_A := by decide
  have hne : ConvertScancodeToKey 4 ≠ KEY_NULL := by decide
  have h0 : (0 : Int) ≤ KEY_A := by decide
  have h1 : KEY_A < (MAX_KEYBOARD_KEYS : Int) := by decide
  have hcur1 : (PollInputEvents numJoysticks [.KEYDOWN 4 rep]
      g).CORE.Input.Keyboard.currentKeyState KEY_A = 1 := by
    show (onKeyDown 4 rep _).CORE.Input.Keyboard.currentKeyState KEY_A = 1
    rw [onKeyDown_currentKeyState, if_pos hne, hA, Function.update_same]
  have hcur2 : (PollInputEvents numJoysticks' [.KEYUP 4]
      (PollInputEvents numJoysticks [.KEYDOWN 4 rep]
        g)).CORE.Input.Keyboard.currentKeyState KEY_A = 0 := by
    show (onKeyUp 4 _).CORE.Input.Keyboard.currentKeyState KEY_A = 0
    rw [onKeyUp_currentKeyState, if_pos hne, hA, Function.update_same]
  refine ⟨hA, ?_, ?_, ?_, ?_⟩
  · simp only [keyPressed, PollInputEvents_previousKeyState _ _ _ _ h0 h1, hup, hcur1]
    decide
  · simp only [keyDown, hcur1]
    decide
  · simp only [keyReleased, PollInputEvents_previousKeyState _ _ _ _ h0 h1, hcur1, hcur2]
    decide
  · simp only [keyDown, hcur2]
    decide

/-- Witness of C3: the zero-filled state, in which key `A` is up. -/
theorem key_A_down_then_up_witness :
    zeroGlobals.CORE.Input.Keyboard.currentKeyState KEY_A = 0
    ∧ ConvertScancodeToKey 4 = KEY_A
    ∧ keyPressed (PollInputEvents 1 [.KEYDOWN 4 false] zeroGlobals) KEY_A = true
    ∧ keyDown (PollInputEvents 1 [.KEYDOWN 4 false] zeroGlobals) KEY_A = true
    ∧ keyReleased
        (PollInputEvents 1 [.KEYUP 4] (PollInputEvents 1 [.KEYDOWN 4 false] zeroGlobals))
        KEY_A = true
    ∧ keyDown
        (PollInputEvents 1 [.KEYUP 4] (PollInputEvents 1 [.KEYDOWN 4 false] zeroGlobals))
        KEY_A = false :=
  ⟨rfl, key_A_down_then_up 1 1 false zeroGlobals rfl⟩

/-! ## Binary32 rounding -/

theorem roundHalfEven_error (x : ℚ) : |(roundHalfEven x : ℚ) - x| ≤ 1 / 2 := by
  have h0 : (⌊x⌋ : ℚ) ≤ x := Int.floor_le x
  have h1 : x < (⌊x⌋ : ℚ) + 1 := Int.lt_floor_add_one x
  unfold roundHalfEven
  rw [abs_le]
  split_ifs with a b c
  · constructor <;> linarith
  · push_cast; constructor <;> linarith
  · constructor <;> linarith
  · push_cast; constructor <;> linarith

theorem f32_error (q : ℚ) (hq : (2 : ℚ) ^ (-126 : Int) ≤ |q|) :
    |f32 q - q| ≤ |q| / 2 ^ 24 := by
  have hpos : 0 < |q| := lt_of_lt_of_le (by positivity) hq
  have hq0 : q ≠ 0 := abs_pos.mp hpos
  have he : f32Exponent q = Int.log 2 |q| := by
    unfold f32Exponent
    apply max_eq_left
    have h1 := Int.log_mono_right (b := 2) (by positivity) hq
    have h2 : Int.log 2 ((2 : ℚ) ^ (-126 : Int)) = -126 := by
      have := Int.log_zpow (R := ℚ) (b := 2) (by norm_num) (-126)
      exact_mod_cast this
    rwa [h2] at h1
  have hlog : (2 : ℚ) ^ (Int.log 2 |q|) ≤ |q| := Int.zpow_log_le_self (by norm_num) hpos
  unfold f32
  rw [if_neg hq0, he]
  set e := Int.log 2 |q| with hedef
  have hu : (0 : ℚ) < 2 ^ (e - 23) := by positivity
  have hr := roundHalfEven_error (q / 2 ^ (e - 23))
  have key : (roundHalfEven (q / 2 ^ (e - 23)) : ℚ) * 2 ^ (e - 23) - q
      = ((roundHalfEven (q / 2 ^ (e - 23)) : ℚ) - q / 2 ^ (e - 23)) * 2 ^ (e - 23) := by
    field_simp
  rw [key, abs_mul, abs_of_pos hu]
  have h24 : (2 : ℚ) ^ (e - 23) = 2 ^ e / 2 ^ 23 := by
    rw [zpow_sub₀ (by norm_num : (2 : ℚ) ≠ 0)]
    norm_num
  calc |(roundHalfEven (q / 2 ^ (e - 23)) : ℚ) - q / 2 ^ (e - 23)| * 2 ^ (e - 23)
      ≤ 1 / 2 * 2 ^ (e - 23) := by gcongr
    _ = 2 ^ e / 2 ^ 24 := by rw [h24]; ring
    _ ≤ |q| / 2 ^ 24 := by gcongr

theorem f32_zero : f32 0 = 0 := by simp [f32]


theorem f32_0_1_bounds : (1 / 10 : ℚ) - 1 / 10 / 2 ^ 24 ≤ f32_0_1 ∧ f32_0_1 ≤ 1 / 10 + 1 / 10 / 2 ^ 24 := by
  have h := f32_error (1 / 10) (by rw [abs_of_pos (by norm_num)]; norm_num)
  rw [abs_le, abs_of_pos (by norm_num : (0 : ℚ) < 1 / 10)] at h
  unfold f32_0_1
  constructor <;> linarith [h.1, h.2]

theorem f32_of_pos (q : ℚ) (hq : 2 ^ (-126 : Int) ≤ q) : q - q / 2 ^ 24 ≤ f32 q ∧ f32 q ≤ q + q / 2 ^ 24 := by
  have hpos : 0 < q := lt_of_lt_of_le (by positivity) hq
  have h := f32_error q (by rwa [abs_of_pos hpos])
  rw [abs_le, abs_of_pos hpos] at h
  constructor <;> linarith [h.1, h.2]

theorem f32_of_neg (q : ℚ) (hq : q ≤ - 2 ^ (-126 : Int)) : f32 q ≤ q - q / 2 ^ 24 := by
  have hneg : q < 0 := lt_of_le_of_lt hq (by norm_num)
  have h := f32_error q (by rw [abs_of_neg hneg]; linarith)
  rw [abs_le, abs_of_neg hneg] at h
  linarith [h.1, h.2]

theorem axisValue_pressed_iff (raw : Int) : axisValue raw > f32_0_1 ↔ (raw : ℚ) / 32767 > 1 / 10 := by
  obtain ⟨hl, hu⟩ := f32_0_1_bounds
  unfold axisValue
  rcases lt_trichotomy raw 0 with hneg | hz | hpos
  · -- negative raw value: the normalised value is negative
    have h1 : (raw : ℚ) ≤ -1 := by exact_mod_cast (by omega : raw ≤ -1)
    have a1 := f32_of_neg (raw : ℚ) (by norm_num at *; linarith)
    have a2 : f32 (raw : ℚ) ≤ -(1/2) := by
      have : (raw : ℚ) - raw / 2 ^ 24 ≤ -(1/2) := by norm_num at *; linarith
      linarith
    have a3 := f32_of_neg (f32 (raw : ℚ) / 32767) (by norm_num at *; linarith)
    have a4 : f32 (f32 (raw : ℚ) / 32767) ≤ 0 := by
      norm_num at *; linarith
    constructor
    · intro h; exfalso; norm_num at *; linarith
    · intro h; exfalso
      have : (raw : ℚ) / 32767 < 0 :=
        div_neg_of_neg_of_pos (by linarith) (by norm_num)
      linarith
  · subst hz
    constructor
    · intro h; exfalso; simp [f32_zero] at h; norm_num at *; linarith
    · intro h; norm_num at h
  · by_cases hbig : 3277 ≤ raw
    · have h1 : (3277 : ℚ) ≤ raw := by exact_mod_cast hbig
      obtain ⟨b1, -⟩ := f32_of_pos (raw : ℚ) (by norm_num at *; linarith)
      have b2 : (3276 : ℚ) ≤ f32 raw := by norm_num at *; linarith
      obtain ⟨b3, -⟩ := f32_of_pos (f32 (raw : ℚ) / 32767) (by norm_num at *; linarith)
      constructor
      · intro _
        rw [gt_iff_lt, lt_div_iff₀ (by norm_num)]
        norm_num; linarith
      · intro _
        norm_num at *; linarith
    · have h1 : (raw : ℚ) ≤ 3276 := by exact_mod_cast (by omega : raw ≤ 3276)
      have h0 : (1 : ℚ) ≤ raw := by exact_mod_cast (by omega : 1 ≤ raw)
      obtain ⟨c0, c1⟩ := f32_of_pos (raw : ℚ) (by norm_num at *; linarith)
      have c2 : (1/2 : ℚ) ≤ f32 raw := by norm_num at *; linarith
      obtain ⟨-, c3⟩ := f32_of_pos (f32 (raw : ℚ) / 32767) (by norm_num at *; linarith)
      constructor
      · intro h; exfalso; norm_num at *; linarith
      · intro h; exfalso
        rw [gt_iff_lt, lt_div_iff₀ (by norm_num)] at h
        norm_num at h; linarith

/-! ## Mouse buttons -/

/-- C5: the index remapping applied by both mouse-button handlers to the
zero-based native index sends 0 to 0, 1 to 2 and 2 to 1, leaves every other
index unchanged and is an involution; the button-down handler stores 1, and
the button-up handler 0, in `Mouse.currentButtonState` at the remapped index of
`event.button.button - 1`. -/
theorem remapMouseButton_involution :
    remapMouseButton 0 = 0 ∧ remapMouseButton 1 = 2 ∧ remapMouseButton 2 = 1
    ∧ (∀ btn : Int, remapMouseButton btn = if btn = 1 then 2 else if btn = 2 then 1 else btn)
    ∧ (∀ btn : Int, remapMouseButton (remapMouseButton btn) = btn)
    ∧ (∀ (button : Int) (g : Globals),
        (processEvent g (.MOUSEBUTTONDOWN button)).CORE.Input.Mouse.currentButtonState
          = Function.update g.CORE.Input.Mouse.currentButtonState
              (remapMouseButton (button - 1)) 1)
    ∧ (∀ (button : Int) (g : Globals),
        (processEvent g (.MOUSEBUTTONUP button)).CORE.Input.Mouse.currentButtonState
          = Function.update g.CORE.Input.Mouse.currentButtonState
              (remapMouseButton (button - 1)) 0) := by
  refine ⟨by decide, by decide, by decide, ?_, ?_, fun _ _ => rfl, fun _ _ => rfl⟩
  · intro btn
    unfold remapMouseButton
    split_ifs <;> omega
  · intro btn
    unfold remapMouseButton
    split_ifs <;> omega

/-! ## Gamepad buttons and axes -/

/-- What an axis-motion event on a trigger axis does to the button states and
to `lastButtonPressed`. -/
theorem onControllerAxisMotion_trigger (which nativeAxis raw : Int) (g : Globals)
    (button : Int)
    (h : (nativeAxis = SDL_CONTROLLER_AXIS_TRIGGERLEFT ∧ button = GAMEPAD_BUTTON_LEFT_TRIGGER_2)
      ∨ (nativeAxis = SDL_CONTROLLER_AXIS_TRIGGERRIGHT
          ∧ button = GAMEPAD_BUTTON_RIGHT_TRIGGER_2)) :
    (onControllerAxisMotion which nativeAxis raw g).CORE.Input.Gamepad.currentButtonState
        = update2 g.CORE.Input.Gamepad.currentButtonState which button
            (if (raw : ℚ) / 32767 > 1 / 10 then 1 else 0)
    ∧ (onControllerAxisMotion which nativeAxis raw g).CORE.Input.Gamepad.lastButtonPressed
        = if (raw : ℚ) / 32767 > 1 / 10 then button
          else if g.CORE.Input.Gamepad.lastButtonPressed = button then GAMEPAD_BUTTON_UNKNOWN
          else g.CORE.Input.Gamepad.lastButtonPressed := by
  have hp := axisValue_pressed_iff raw
  rcases h with ⟨rfl, rfl⟩ | ⟨rfl, rfl⟩
  · have hax : axisSwitch SDL_CONTROLLER_AXIS_TRIGGERLEFT = GAMEPAD_AXIS_LEFT_TRIGGER := by
      decide
    have h0 : GAMEPAD_AXIS_LEFT_TRIGGER ≥ 0 := by decide
    simp only [onControllerAxisMotion, hax, h0, if_true, true_or, hp]
    by_cases hr : (raw : ℚ) / 32767 > 1 / 10
    · simp only [if_pos hr, one_ne_zero, ne_eq, not_false_eq_true, and_self, if_true]
    · simp only [if_neg hr, ne_eq, not_true_eq_false, if_false, GAMEPAD_BUTTON_UNKNOWN,
        and_self]
  · have hax : axisSwitch SDL_CONTROLLER_AXIS_TRIGGERRIGHT = GAMEPAD_AXIS_RIGHT_TRIGGER := by
      decide
    have h0 : GAMEPAD_AXIS_RIGHT_TRIGGER ≥ 0 := by decide
    have h1 : ¬ GAMEPAD_AXIS_RIGHT_TRIGGER = GAMEPAD_AXIS_LEFT_TRIGGER := by decide
    simp only [onControllerAxisMotion, hax, h0, h1, if_true, if_false, or_true, hp]
    by_cases hr : (raw : ℚ) / 32767 > 1 / 10
    · simp only [if_pos hr, one_ne_zero, ne_eq, not_false_eq_true, and_self, if_true]
    · simp only [if_neg hr, ne_eq, not_true_eq_false, if_false, GAMEPAD_BUTTON_UNKNOWN,
        and_self]

/-- An axis-motion event on one of the four stick axes writes no button state. -/
theorem onControllerAxisMotion_stick (which nativeAxis raw : Int) (g : Globals)
    (h : nativeAxis = SDL_CONTROLLER_AXIS_LEFTX ∨ nativeAxis = SDL_CONTROLLER_AXIS_LEFTY
      ∨ nativeAxis = SDL_CONTROLLER_AXIS_RIGHTX ∨ nativeAxis = SDL_CONTROLLER_AXIS_RIGHTY) :
    (onControllerAxisMotion which nativeAxis raw g).CORE.Input.Gamepad.currentButtonState
        = g.CORE.Input.Gamepad.currentButtonState
    ∧ (onControllerAxisMotion which nativeAxis raw g).CORE.Input.Gamepad.previousButtonState
        = g.CORE.Input.Gamepad.previousButtonState
    ∧ (onControllerAxisMotion which nativeAxis raw g).CORE.Input.Gamepad.lastButtonPressed
        = g.CORE.Input.Gamepad.lastButtonPressed := by
  rcases h with rfl | rfl | rfl | rfl
  · have hax : axisSwitch SDL_CONTROLLER_AXIS_LEFTX = GAMEPAD_AXIS_LEFT_X := by decide
    have h0 : GAMEPAD_AXIS_LEFT_X ≥ 0 := by decide
    have h1 : ¬ (GAMEPAD_AXIS_LEFT_X = GAMEPAD_AXIS_LEFT_TRIGGER
        ∨ GAMEPAD_AXIS_LEFT_X = GAMEPAD_AXIS_RIGHT_TRIGGER) := by decide
    simp only [onControllerAxisMotion, hax, h0, h1, if_true, if_false, and_self]
  · have hax : axisSwitch SDL_CONTROLLER_AXIS_LEFTY = GAMEPAD_AXIS_LEFT_Y := by decide
    have h0 : GAMEPAD_AXIS_LEFT_Y ≥ 0 := by decide
    have h1 : ¬ (GAMEPAD_AXIS_LEFT_Y = GAMEPAD_AXIS_LEFT_TRIGGER
        ∨ GAMEPAD_AXIS_LEFT_Y = GAMEPAD_AXIS_RIGHT_TRIGGER) := by decide
    simp only [onControllerAxisMotion, hax, h0, h1, if_true, if_false, and_self]
  · have hax : axisSwitch SDL_CONTROLLER_AXIS_RIGHTX = GAMEPAD_AXIS_RIGHT_X := by decide
    have h0 : GAMEPAD_AXIS_RIGHT_X ≥ 0 := by decide
    have h1 : ¬ (GAMEPAD_AXIS_RIGHT_X = GAMEPAD_AXIS_LEFT_TRIGGER
        ∨ GAMEPAD_AXIS_RIGHT_X = GAMEPAD_AXIS_RIGHT_TRIGGER) := by decide
    simp only [onControllerAxisMotion, hax, h0, h1, if_true, if_false, and_self]
  · have hax : axisSwitch SDL_CONTROLLER_AXIS_RIGHTY = GAMEPAD_AXIS_RIGHT_Y := by decide
    have h0 : GAMEPAD_AXIS_RIGHT_Y ≥ 0 := by decide
    have h1 : ¬ (GAMEPAD_AXIS_RIGHT_Y = GAMEPAD_AXIS_LEFT_TRIGGER
        ∨ GAMEPAD_AXIS_RIGHT_Y = GAMEPAD_AXIS_RIGHT_TRIGGER) := by decide
    simp only [onControllerAxisMotion, hax, h0, h1, if_true, if_false, and_self]

/-- C6: for an axis-motion event on a trigger axis with raw value `r`, the
virtual trigger button (`LEFT_TRIGGER_2` for the left trigger, `RIGHT_TRIGGER_2`
for the right) of the event's slot is set to 1 exactly when `r/32767 > 0.1` and
to 0 otherwise — raw 1638 (normalised 0.05) gives no press, raw 4915
(normalised 0.15) a press, raw 3276 (just below the threshold) a release — and
an axis-motion event on one of the four stick axes changes no button state. -/
theorem trigger_button_follows_threshold (which raw : Int) (g : Globals) :
    (processEvent g (.CONTROLLERAXISMOTION which SDL_CONTROLLER_AXIS_TRIGGERLEFT
        raw)).CORE.Input.Gamepad.currentButtonState
      = update2 g.CORE.Input.Gamepad.currentButtonState which GAMEPAD_BUTTON_LEFT_TRIGGER_2
          (if (raw : ℚ) / 32767 > 1 / 10 then 1 else 0)
    ∧ (processEvent g (.CONTROLLERAXISMOTION which SDL_CONTROLLER_AXIS_TRIGGERRIGHT
        raw)).CORE.Input.Gamepad.currentButtonState
      = update2 g.CORE.Input.Gamepad.currentButtonState which GAMEPAD_BUTTON_RIGHT_TRIGGER_2
          (if (raw : ℚ) / 32767 > 1 / 10 then 1 else 0)
    ∧ (processEvent g (.CONTROLLERAXISMOTION which SDL_CONTROLLER_AXIS_TRIGGERLEFT
        1638)).CORE.Input.Gamepad.currentButtonState which GAMEPAD_BUTTON_LEFT_TRIGGER_2 = 0
    ∧ (processEvent g (.CONTROLLERAXISMOTION which SDL_CONTROLLER_AXIS_TRIGGERLEFT
        4915)).CORE.Input.Gamepad.currentButtonState which GAMEPAD_BUTTON_LEFT_TRIGGER_2 = 1
    ∧ (processEvent
        (processEvent g (.CONTROLLERAXISMOTION which SDL_CONTROLLER_AXIS_TRIGGERLEFT 4915))
        (.CONTROLLERAXISMOTION which SDL_CONTROLLER_AXIS_TRIGGERLEFT
          3276)).CORE.Input.Gamepad.currentButtonState which GAMEPAD_BUTTON_LEFT_TRIGGER_2 = 0
    ∧ (processEvent g (.CONTROLLERAXISMOTION which SDL_CONTROLLER_AXIS_LEFTX
        raw)).CORE.Input.Gamepad.currentButtonState = g.CORE.Input.Gamepad.currentButtonState
    ∧ (processEvent g (.CONTROLLERAXISMOTION which SDL_CONTROLLER_AXIS_LEFTY
        raw)).CORE.Input.Gamepad.currentButtonState = g.CORE.Input.Gamepad.currentButtonState
    ∧ (processEvent g (.CONTROLLERAXISMOTION which SDL_CONTROLLER_AXIS_RIGHTX
        raw)).CORE.Input.Gamepad.currentButtonState = g.CORE.Input.Gamepad.currentButtonState
    ∧ (processEvent g (.CONTROLLERAXISMOTION which SDL_CONTROLLER_AXIS_RIGHTY
        raw)).CORE.Input.Gamepad.currentButtonState
      = g.CORE.Input.Gamepad.currentButtonState := by
  have left := fun r g' => (onControllerAxisMotion_trigger which
    SDL_CONTROLLER_AXIS_TRIGGERLEFT r g' GAMEPAD_BUTTON_LEFT_TRIGGER_2 (Or.inl ⟨rfl, rfl⟩)).1
  have right := (onControllerAxisMotion_trigger which SDL_CONTROLLER_AXIS_TRIGGERRIGHT raw g
    GAMEPAD_BUTTON_RIGHT_TRIGGER_2 (Or.inr ⟨rfl, rfl⟩)).1
  refine ⟨left raw g, right, ?_, ?_, ?_, ?_, ?_, ?_, ?_⟩
  · show (onControllerAxisMotion which _ 1638 g).CORE.Input.Gamepad.currentButtonState _ _ = 0
    rw [left 1638 g]
    simp only [update2, Function.update_same]
    norm_num
  · show (onControllerAxisMotion which _ 4915 g).CORE.Input.Gamepad.currentButtonState _ _ = 1
    rw [left 4915 g]
    simp only [update2, Function.update_same]
    norm_num
  · show (onControllerAxisMotion which _ 3276 _).CORE.Input.Gamepad.currentButtonState _ _ = 0
    rw [left 3276 _]
    simp only [update2, Function.update_same]
    norm_num
  · exact (onControllerAxisMotion_stick which _ raw g (Or.inl rfl)).1
  · exact (onControllerAxisMotion_stick which _ raw g (Or.inr (Or.inl rfl))).1
  · exact (onControllerAxisMotion_stick which _ raw g (Or.inr (Or.inr (Or.inl rfl)))).1
  · exact (onControllerAxisMotion_stick which _ raw g (Or.inr (Or.inr (Or.inr rfl)))).1

/-- C7: on a controller button-up event for a mapped button `b`, and on a
trigger axis event that yields a release of trigger button `b`,
`lastButtonPressed` becomes 0 (`GAMEPAD_BUTTON_UNKNOWN`) if it was equal to `b`
before the event and is left unchanged otherwise; on a mapped button-down and
on a trigger press `lastButtonPressed` becomes `b`.  Unmapped native buttons
leave it unchanged. -/
theorem lastButtonPressed_tracking (which nativeButton raw : Int) (g : Globals) :
    (processEvent g (.CONTROLLERBUTTONUP which nativeButton)).CORE.Input.Gamepad.lastButtonPressed
      = (if 0 ≤ buttonUpSwitch nativeButton then
          if g.CORE.Input.Gamepad.lastButtonPressed = buttonUpSwitch nativeButton then
            GAMEPAD_BUTTON_UNKNOWN
          else g.CORE.Input.Gamepad.lastButtonPressed
        else g.CORE.Input.Gamepad.lastButtonPressed)
    ∧ (processEvent g
        (.CONTROLLERBUTTONDOWN which nativeButton)).CORE.Input.Gamepad.lastButtonPressed
      = (if 0 ≤ buttonDownSwitch nativeButton then buttonDownSwitch nativeButton
        else g.CORE.Input.Gamepad.lastButtonPressed)
    ∧ (processEvent g (.CONTROLLERAXISMOTION which SDL_CONTROLLER_AXIS_TRIGGERLEFT
        raw)).CORE.Input.Gamepad.lastButtonPressed
      = (if (raw : ℚ) / 32767 > 1 / 10 then GAMEPAD_BUTTON_LEFT_TRIGGER_2
        else if g.CORE.Input.Gamepad.lastButtonPressed = GAMEPAD_BUTTON_LEFT_TRIGGER_2 then
          GAMEPAD_BUTTON_UNKNOWN
        else g.CORE.Input.Gamepad.lastButtonPressed)
    ∧ (processEvent g (.CONTROLLERAXISMOTION which SDL_CONTROLLER_AXIS_TRIGGERRIGHT
        raw)).CORE.Input.Gamepad.lastButtonPressed
      = (if (raw : ℚ) / 32767 > 1 / 10 then GAMEPAD_BUTTON_RIGHT_TRIGGER_2
        else if g.CORE.Input.Gamepad.lastButtonPressed = GAMEPAD_BUTTON_RIGHT_TRIGGER_2 then
          GAMEPAD_BUTTON_UNKNOWN
        else g.CORE.Input.Gamepad.lastButtonPressed) := by
  refine ⟨?_, ?_, ?_, ?_⟩
  · simp only [processEvent, onControllerButtonUp, GAMEPAD_BUTTON_UNKNOWN, ge_iff_le]
    split_ifs <;> rfl
  · simp only [processEvent, onControllerButtonDown, ge_iff_le]
    split_ifs <;> rfl
  · exact (onControllerAxisMotion_trigger which SDL_CONTROLLER_AXIS_TRIGGERLEFT raw g
      GAMEPAD_BUTTON_LEFT_TRIGGER_2 (Or.inl ⟨rfl, rfl⟩)).2
  · exact (onControllerAxisMotion_trigger which SDL_CONTROLLER_AXIS_TRIGGERRIGHT raw g
      GAMEPAD_BUTTON_RIGHT_TRIGGER_2 (Or.inr ⟨rfl, rfl⟩)).2

/-! ## Dropped files -/

theorem onDropFile_below_cap (g : Globals) (file : CString)
    (h : g.CORE.Window.dropFileCount < 1024) :
    (onDropFile file g).CORE.Window.dropFileCount = g.CORE.Window.dropFileCount + 1
    ∧ (onDropFile file g).CORE.Window.dropFilepaths (g.CORE.Window.dropFileCount : Int)
        = some file
    ∧ ∀ i : Nat, i < g.CORE.Window.dropFileCount →
        (onDropFile file g).CORE.Window.dropFilepaths (i : Int)
          = g.CORE.Window.dropFilepaths (i : Int) := by
  unfold onDropFile
  by_cases h0 : g.CORE.Window.dropFileCount = 0
  · rw [if_pos h0]
    refine ⟨rfl, by simp, fun i hi => ?_⟩
    omega
  · rw [if_neg h0, if_pos h]
    refine ⟨rfl, by simp, fun i hi => ?_⟩
    have : (i : Int) ≠ (g.CORE.Window.dropFileCount : Int) := by omega
    simp [Function.update_noteq this]

theorem onDropFile_at_cap (g : Globals) (file : CString)
    (h : 1024 ≤ g.CORE.Window.dropFileCount) : onDropFile file g = g := by
  unfold onDropFile
  rw [if_neg (by omega), if_neg (by omega)]

/-- A batch of drop-file events processed from an empty drop list. -/
theorem foldl_dropFile (files : List CString) (g : Globals)
    (h0 : g.CORE.Window.dropFileCount = 0) :
    ((files.map SDL_Event.DROPFILE).foldl processEvent g).CORE.Window.dropFileCount
        = min files.length 1024
    ∧ ∀ i : Nat, i < min files.length 1024 →
        ((files.map SDL_Event.DROPFILE).foldl processEvent g).CORE.Window.dropFilepaths (i : Int)
          = files[i]? := by
  induction files using List.reverseRecOn with
  | nil => exact ⟨by simpa using h0, fun i hi => by simp at hi⟩
  | append_singleton l f ih =>
    obtain ⟨hc, hp⟩ := ih
    rw [List.map_append, List.foldl_append]
    simp only [List.map_cons, List.map_nil, List.foldl_cons, List.foldl_nil, processEvent,
      List.length_append, List.length_singleton]
    generalize (l.map SDL_Event.DROPFILE).foldl processEvent g = g1 at hc hp
    by_cases hl : l.length < 1024
    · have hc' : g1.CORE.Window.dropFileCount = l.length := by rw [hc]; omega
      obtain ⟨k1, k2, k3⟩ := onDropFile_below_cap g1 f (by omega)
      refine ⟨by rw [k1, hc']; omega, fun i hi => ?_⟩
      by_cases hil : i = l.length
      · subst hil
        rw [← hc', k2]
        simp [hc']
      · have hi' : i < l.length := by omega
        rw [k3 i (by omega), hp i (by omega), List.getElem?_append_left hi']
    · have hc' : g1.CORE.Window.dropFileCount = 1024 := by rw [hc]; omega
      rw [onDropFile_at_cap g1 f (by omega)]
      refine ⟨by rw [hc']; omega, fun i hi => ?_⟩
      have hi' : i < l.length := by omega
      rw [hp i (by omega), List.getElem?_append_left hi']

/-- C8: a drop-file event received while `dropFileCount < 1024` stores its path
at index `dropFileCount`, increments `dropFileCount` by one and keeps the paths
stored below that index; a drop-file event received while
`dropFileCount = 1024` leaves the whole state, hence `dropFileCount` and the
1024 stored paths, unchanged; so, starting from an empty drop list, after a
batch of drop-file events `dropFileCount` is the number of events capped at
1024 and slot `i` below it holds the path of the `i`-th event. -/
theorem dropFile_capped_at_1024 (g : Globals) (file : CString) (files : List CString) :
    (g.CORE.Window.dropFileCount < MAX_DROPPED_FILES →
      (processEvent g (.DROPFILE file)).CORE.Window.dropFileCount
          = g.CORE.Window.dropFileCount + 1
      ∧ (processEvent g (.DROPFILE file)).CORE.Window.dropFilepaths
          (g.CORE.Window.dropFileCount : Int) = some file
      ∧ ∀ i : Nat, i < g.CORE.Window.dropFileCount →
          (processEvent g (.DROPFILE file)).CORE.Window.dropFilepaths (i : Int)
            = g.CORE.Window.dropFilepaths (i : Int))
    ∧ (g.CORE.Window.dropFileCount = MAX_DROPPED_FILES →
      processEvent g (.DROPFILE file) = g)
    ∧ (g.CORE.Window.dropFileCount = 0 →
      ((files.map SDL_Event.DROPFILE).foldl processEvent g).CORE.Window.dropFileCount
          = min files.length MAX_DROPPED_FILES
      ∧ ∀ i : Nat, i < min files.length MAX_DROPPED_FILES →
          ((files.map SDL_Event.DROPFILE).foldl processEvent g).CORE.Window.dropFilepaths
            (i : Int) = files[i]?) := by
  refine ⟨fun h => onDropFile_below_cap g file h, fun h => ?_, fun h => foldl_dropFile files g h⟩
  exact onDropFile_at_cap g file (by rw [h]; decide)

/-- Witness of C8: one file, then a batch of two files, dropped on the
zero-filled state, and one file dropped on a full drop list. -/
theorem dropFile_capped_at_1024_witness :
    (zeroGlobals.CORE.Window.dropFileCount < MAX_DROPPED_FILES
      ∧ (processEvent zeroGlobals (.DROPFILE [97])).CORE.Window.dropFileCount
          = zeroGlobals.CORE.Window.dropFileCount + 1
      ∧ (processEvent zeroGlobals (.DROPFILE [97])).CORE.Window.dropFilepaths
          (zeroGlobals.CORE.Window.dropFileCount : Int) = some [97])
    ∧ (fullDropList.CORE.Window.dropFileCount = MAX_DROPPED_FILES
      ∧ processEvent fullDropList (.DROPFILE [97]) = fullDropList)
    ∧ (zeroGlobals.CORE.Window.dropFileCount = 0
      ∧ (([[97], [98]].map SDL_Event.DROPFILE).foldl processEvent
          zeroGlobals).CORE.Window.dropFileCount = min [[97], [98]].length MAX_DROPPED_FILES) :=
  ⟨⟨by decide,
      ((dropFile_capped_at_1024 zeroGlobals [97] []).1 (by decide)).1,
      ((dropFile_capped_at_1024 zeroGlobals [97] []).1 (by decide)).2.1⟩,
    ⟨rfl, (dropFile_capped_at_1024 fullDropList [97] []).2.1 rfl⟩,
    ⟨rfl, ((dropFile_capped_at_1024 zeroGlobals [97] [[97], [98]]).2.2 rfl).1⟩⟩

/-! ## Gamepad lifecycle -/

/-- C10: for every state and every device index `j`, after a controller-attach
event `Gamepad.ready[j]` is true exactly when it was true before the event or
(`j < MAX_GAMEPADS` and the native open of device `j` succeeded); when the slot
was already ready, the index is not below `MAX_GAMEPADS`, or the open fails, the
ready flags, names, axis counts and axis states are unchanged; when the index
is negative, those of every slot `0 .. MAX_GAMEPADS-1` are unchanged as well. -/
theorem attach_ready_iff (g : Globals) (j : Int) (opened : Option SDL_GameController)
    (nameForIndex : CString) :
    ((processEvent g (.JOYDEVICEADDED j opened nameForIndex)).CORE.Input.Gamepad.ready j = true
      ↔ (g.CORE.Input.Gamepad.ready j = true ∨ (j < MAX_GAMEPADS ∧ opened.isSome = true)))
    ∧ ((g.CORE.Input.Gamepad.ready j = true ∨ ¬ j < MAX_GAMEPADS ∨ opened = none) →
      (processEvent g (.JOYDEVICEADDED j opened nameForIndex)).CORE.Input.Gamepad.ready
          = g.CORE.Input.Gamepad.ready
      ∧ (processEvent g (.JOYDEVICEADDED j opened nameForIndex)).CORE.Input.Gamepad.name
          = g.CORE.Input.Gamepad.name
      ∧ (processEvent g (.JOYDEVICEADDED j opened nameForIndex)).CORE.Input.Gamepad.axisCount
          = g.CORE.Input.Gamepad.axisCount
      ∧ (processEvent g (.JOYDEVICEADDED j opened nameForIndex)).CORE.Input.Gamepad.axisState
          = g.CORE.Input.Gamepad.axisState)
    ∧ (j < 0 → ∀ s : Fin MAX_GAMEPADS,
      (processEvent g (.JOYDEVICEADDED j opened nameForIndex)).CORE.Input.Gamepad.ready
          (s : Nat) = g.CORE.Input.Gamepad.ready (s : Nat)
      ∧ (processEvent g (.JOYDEVICEADDED j opened nameForIndex)).CORE.Input.Gamepad.name
          (s : Nat) = g.CORE.Input.Gamepad.name (s : Nat)
      ∧ (processEvent g (.JOYDEVICEADDED j opened nameForIndex)).CORE.Input.Gamepad.axisCount
          (s : Nat) = g.CORE.Input.Gamepad.axisCount (s : Nat)
      ∧ (processEvent g (.JOYDEVICEADDED j opened nameForIndex)).CORE.Input.Gamepad.axisState
          (s : Nat) = g.CORE.Input.Gamepad.axisState (s : Nat)) := by
  simp only [processEvent, onJoyDeviceAdded, Function.update_same]
  by_cases hg : g.CORE.Input.Gamepad.ready j = false ∧ j < MAX_GAMEPADS
  · rw [if_pos hg]
    have hr : ¬ g.CORE.Input.Gamepad.ready j = true := by simp [hg.1]
    cases opened with
    | none =>
      refine ⟨?_, fun _ => ⟨rfl, rfl, rfl, rfl⟩, fun _ _ => ⟨rfl, rfl, rfl, rfl⟩⟩
      simp [hg.1]
    | some h =>
      refine ⟨?_, fun hh => ?_, fun hneg s => ?_⟩
      · simp [hg.2]
      · rcases hh with h1 | h1 | h1
        · exact absurd h1 hr
        · exact absurd hg.2 h1
        · exact absurd h1 (by simp)
      · have hs : ((s : Nat) : Int) ≠ j := by omega
        simp only [update2, Function.update_noteq hs, and_self]
  · rw [if_neg hg]
    refine ⟨?_, fun _ => ⟨rfl, rfl, rfl, rfl⟩, fun _ _ => ⟨rfl, rfl, rfl, rfl⟩⟩
    constructor
    · exact fun h => Or.inl h
    · rintro (h | ⟨h1, -⟩)
      · exact h
      · by_contra hn
        exact hg ⟨by simpa using hn, h1⟩

/-- Witness of C10: an attach of device 0 whose native open fails. -/
theorem attach_ready_iff_witness :
    (processEvent zeroGlobals (.JOYDEVICEADDED 0 none [80, 97, 100])).CORE.Input.Gamepad.ready
        = zeroGlobals.CORE.Input.Gamepad.ready
    ∧ (processEvent zeroGlobals (.JOYDEVICEADDED 0 none [80, 97, 100])).CORE.Input.Gamepad.name
        = zeroGlobals.CORE.Input.Gamepad.name
    ∧ (processEvent zeroGlobals
        (.JOYDEVICEADDED 0 none [80, 97, 100])).CORE.Input.Gamepad.axisCount
        = zeroGlobals.CORE.Input.Gamepad.axisCount
    ∧ (processEvent zeroGlobals
        (.JOYDEVICEADDED 0 none [80, 97, 100])).CORE.Input.Gamepad.axisState
        = zeroGlobals.CORE.Input.Gamepad.axisState :=
  (attach_ready_iff zeroGlobals 0 none [80, 97, 100]).2.1 (Or.inr (Or.inr rfl))

/-! ## Opening a gamepad slot -/

/-- The gamepad section after an attach event whose open succeeds. -/
theorem onJoyDeviceAdded_opened (g : Globals) (j : Int) (h : SDL_GameController)
    (nameForIndex : CString) (hr : g.CORE.Input.Gamepad.ready j = false)
    (hj : j < MAX_GAMEPADS) :
    (onJoyDeviceAdded j (some h) nameForIndex g).CORE.Input.Gamepad
      = { g.CORE.Input.Gamepad with
          ready := Function.update g.CORE.Input.Gamepad.ready j true,
          axisCount := Function.update g.CORE.Input.Gamepad.axisCount j h.numAxes,
          axisState :=
            update2 (update2 g.CORE.Input.Gamepad.axisState j GAMEPAD_AXIS_LEFT_TRIGGER (-1))
              j GAMEPAD_AXIS_RIGHT_TRIGGER (-1),
          name :=
            Function.update g.CORE.Input.Gamepad.name j
              (Function.update (strncpy (g.CORE.Input.Gamepad.name j) nameForIndex 63) 63 0) } := by
  unfold onJoyDeviceAdded
  rw [if_pos ⟨hr, hj⟩]
  simp only [Function.update_same]

/-- The trigger cells written when a slot is opened, and the other cells. -/
theorem trigger_cells (m : Int → Int → ℚ) (j : Int) :
    update2 (update2 m j GAMEPAD_AXIS_LEFT_TRIGGER (-1)) j GAMEPAD_AXIS_RIGHT_TRIGGER (-1) j
        GAMEPAD_AXIS_LEFT_TRIGGER = -1
    ∧ update2 (update2 m j GAMEPAD_AXIS_LEFT_TRIGGER (-1)) j GAMEPAD_AXIS_RIGHT_TRIGGER (-1) j
        GAMEPAD_AXIS_RIGHT_TRIGGER = -1
    ∧ (∀ a : Int, a ≠ GAMEPAD_AXIS_LEFT_TRIGGER → a ≠ GAMEPAD_AXIS_RIGHT_TRIGGER →
        update2 (update2 m j GAMEPAD_AXIS_LEFT_TRIGGER (-1)) j GAMEPAD_AXIS_RIGHT_TRIGGER (-1) j a
          = m j a)
    ∧ ∀ s : Int, s ≠ j →
        update2 (update2 m j GAMEPAD_AXIS_LEFT_TRIGGER (-1)) j GAMEPAD_AXIS_RIGHT_TRIGGER (-1) s
          = m s := by
  have hne : GAMEPAD_AXIS_LEFT_TRIGGER ≠ GAMEPAD_AXIS_RIGHT_TRIGGER := by decide
  refine ⟨?_, ?_, fun a h1 h2 => ?_, fun s hs => ?_⟩
  · simp [update2, Function.update_apply, hne]
  · simp [update2, Function.update_apply]
  · simp [update2, Function.update_apply, h1, h2]
  · simp [update2, Function.update_apply, hs]

theorem initGamepads_frame (n : InitAnswers) (g : Globals) :
    (initGamepads n g).CORE.Window = g.CORE.Window
    ∧ (initGamepads n g).CORE.Input.Keyboard = g.CORE.Input.Keyboard
    ∧ (initGamepads n g).CORE.Input.Mouse = g.CORE.Input.Mouse
    ∧ (initGamepads n g).CORE.Input.Touch = g.CORE.Input.Touch
    ∧ (initGamepads n g).CORE.Input.Gamepad.lastButtonPressed
        = g.CORE.Input.Gamepad.lastButtonPressed
    ∧ (initGamepads n g).CORE.Input.Gamepad.currentButtonState
        = g.CORE.Input.Gamepad.currentButtonState
    ∧ (initGamepads n g).CORE.Input.Gamepad.previousButtonState
        = g.CORE.Input.Gamepad.previousButtonState := by
  unfold initGamepads
  apply forRange_invariant
    (fun a : Globals => a.CORE.Window = g.CORE.Window
      ∧ a.CORE.Input.Keyboard = g.CORE.Input.Keyboard
      ∧ a.CORE.Input.Mouse = g.CORE.Input.Mouse
      ∧ a.CORE.Input.Touch = g.CORE.Input.Touch
      ∧ a.CORE.Input.Gamepad.lastButtonPressed = g.CORE.Input.Gamepad.lastButtonPressed
      ∧ a.CORE.Input.Gamepad.currentButtonState = g.CORE.Input.Gamepad.currentButtonState
      ∧ a.CORE.Input.Gamepad.previousButtonState = g.CORE.Input.Gamepad.previousButtonState)
  · exact ⟨rfl, rfl, rfl, rfl, rfl, rfl, rfl⟩
  · intro i a h
    simp only [Function.update_same]
    cases n.controllerOpen i <;> exact h

/-- Closed form of the gamepad enumeration loop of `InitPlatform`: a slot is
rewritten exactly when its index is below both `SDL_NumJoysticks()` and
`MAX_GAMEPADS` and its open succeeds. -/
theorem initGamepads_slots (n : InitAnswers) (g : Globals) (j : Int) :
    (initGamepads n g).CORE.Input.Gamepad.ready j
        = (if 0 ≤ j ∧ j < min n.numJoysticks MAX_GAMEPADS then
            (match n.controllerOpen j with
              | some _ => true
              | none => g.CORE.Input.Gamepad.ready j)
          else g.CORE.Input.Gamepad.ready j)
    ∧ (initGamepads n g).CORE.Input.Gamepad.axisCount j
        = (if 0 ≤ j ∧ j < min n.numJoysticks MAX_GAMEPADS then
            (match n.controllerOpen j with
              | some h => h.numAxes
              | none => g.CORE.Input.Gamepad.axisCount j)
          else g.CORE.Input.Gamepad.axisCount j)
    ∧ (initGamepads n g).CORE.Input.Gamepad.axisState j
        = (if 0 ≤ j ∧ j < min n.numJoysticks MAX_GAMEPADS then
            (match n.controllerOpen j with
              | some _ =>
                update2
                  (update2 g.CORE.Input.Gamepad.axisState j GAMEPAD_AXIS_LEFT_TRIGGER (-1))
                  j GAMEPAD_AXIS_RIGHT_TRIGGER (-1) j
              | none => g.CORE.Input.Gamepad.axisState j)
          else g.CORE.Input.Gamepad.axisState j)
    ∧ (initGamepads n g).CORE.Input.Gamepad.name j
        = (if 0 ≤ j ∧ j < min n.numJoysticks MAX_GAMEPADS then
            (match n.controllerOpen j with
              | some _ =>
                Function.update
                  (strncpy (g.CORE.Input.Gamepad.name j) (n.controllerNameForIndex j) 63) 63 0
              | none => g.CORE.Input.Gamepad.name j)
          else g.CORE.Input.Gamepad.name j) := by
  unfold initGamepads
  refine ⟨?_, ?_, ?_, ?_⟩
  · refine forRange_get (fun a : Globals => a.CORE.Input.Gamepad.ready)
      (fun i old => match n.controllerOpen i with
        | some _ => true
        | none => old) (fun _ => True) _ _ _ _ trivial (fun _ _ _ => trivial) ?_ j
    intro i a _
    simp only [Function.update_same]
    cases n.controllerOpen i <;> simp
  · refine forRange_get (fun a : Globals => a.CORE.Input.Gamepad.axisCount)
      (fun i old => match n.controllerOpen i with
        | some h => h.numAxes
        | none => old) (fun _ => True) _ _ _ _ trivial (fun _ _ _ => trivial) ?_ j
    intro i a _
    simp only [Function.update_same]
    cases n.controllerOpen i <;> simp
  · refine forRange_get (fun a : Globals => a.CORE.Input.Gamepad.axisState)
      (fun i old => match n.controllerOpen i with
        | some _ =>
          Function.update (Function.update old GAMEPAD_AXIS_LEFT_TRIGGER (-1))
            GAMEPAD_AXIS_RIGHT_TRIGGER (-1)
        | none => old) (fun _ => True) _ _ _ _ trivial (fun _ _ _ => trivial) ?_ j
      |>.trans ?_
    · intro i a _
      simp only [Function.update_same]
      cases n.controllerOpen i <;> simp [update2]
    · cases n.controllerOpen j <;> simp [update2]
  · refine forRange_get (fun a : Globals => a.CORE.Input.Gamepad.name)
      (fun i old => match n.controllerOpen i with
        | some _ => Function.update (strncpy old (n.controllerNameForIndex i) 63) 63 0
        | none => old) (fun _ => True) _ _ _ _ trivial (fun _ _ _ => trivial) ?_ j
    intro i a _
    simp only [Function.update_same]
    cases n.controllerOpen i <;> simp

theorem InitPlatform_success (n : InitAnswers) (g : Globals) (h0 : 0 ≤ n.initResult)
    (hw : n.createdWindow ≠ none) (hc : n.createdContext ≠ none) :
    InitPlatform n g
      = (0, initGamepads n
          { g with
            platform.window := n.createdWindow,
            platform.glContext := n.createdContext,
            CORE.Window.ready := true,
            CORE.Window.display := ⟨960, 544⟩,
            CORE.Window.render := g.CORE.Window.screen,
            CORE.Window.currentFbo := g.CORE.Window.screen }) := by
  unfold InitPlatform
  rw [if_neg (by omega), if_pos ⟨hw, hc⟩]

/-- The cells of a name field after `strncpy(name, s, 63); name[63] = '\0'`. -/
theorem name_cells (old : Int → Nat) (s : CString) :
    (∀ i : Nat, i < min s.length 63 →
      Function.update (strncpy old s 63) 63 0 (i : Int) = s.getD i 0)
    ∧ Function.update (strncpy old s 63) 63 0 ((min s.length 63 : Nat) : Int) = 0
    ∧ (List.range (min s.length 63)).map
        (fun i : Nat => Function.update (strncpy old s 63) 63 0 (i : Int)) = s.take 63 := by
  have cell : ∀ i : Nat, i < 63 →
      Function.update (strncpy old s 63) 63 0 (i : Int) = s.getD i 0 := by
    intro i hi
    have h1 : (i : Int) ≠ 63 := by omega
    have h2 : (0 : Int) ≤ (i : Int) ∧ (i : Int) < ((63 : Nat) : Int) := by omega
    rw [Function.update_noteq h1]
    simp only [strncpy, if_pos h2, Int.toNat_ofNat]
  refine ⟨fun i hi => cell i (by omega), ?_, ?_⟩
  · by_cases hl : s.length < 63
    · rw [min_eq_left (by omega), cell _ hl]
      simp
    · rw [min_eq_right (by omega)]
      simp
  · apply List.ext_getElem
    · simp [min_comm]
    · intro i h1 h2
      simp only [List.length_map, List.length_range] at h1
      rw [List.getElem_map, List.getElem_range, cell i (by omega), List.getElem_take]
      exact List.getD_eq_getElem _ _ (by omega)

/-- C11: whenever a gamepad slot is opened successfully — by a
controller-attach event (slot not yet ready, index below `MAX_GAMEPADS`, open
succeeds) or by the enumeration loop of a successful `InitPlatform` — its
`axisState` for `GAMEPAD_AXIS_LEFT_TRIGGER` and `GAMEPAD_AXIS_RIGHT_TRIGGER` is
-1.0, its `axisCount` is the native axis count, its other axis values are
unchanged, and ready flag, name, axis count, axis values and button states of
every other slot are unchanged (in `InitPlatform`: of every slot whose open is
not attempted or fails). -/
theorem opened_slot_triggers_released :
    (∀ (g : Globals) (j : Int) (h : SDL_GameController) (nameForIndex : CString),
      g.CORE.Input.Gamepad.ready j = false → j < MAX_GAMEPADS →
      (processEvent g (.JOYDEVICEADDED j (some h) nameForIndex)).CORE.Input.Gamepad.axisState j
          GAMEPAD_AXIS_LEFT_TRIGGER = -1
      ∧ (processEvent g (.JOYDEVICEADDED j (some h) nameForIndex)).CORE.Input.Gamepad.axisState j
          GAMEPAD_AXIS_RIGHT_TRIGGER = -1
      ∧ (processEvent g (.JOYDEVICEADDED j (some h) nameForIndex)).CORE.Input.Gamepad.axisCount j
          = h.numAxes
      ∧ (∀ a : Int, a ≠ GAMEPAD_AXIS_LEFT_TRIGGER → a ≠ GAMEPAD_AXIS_RIGHT_TRIGGER →
          (processEvent g (.JOYDEVICEADDED j (some h) nameForIndex)).CORE.Input.Gamepad.axisState
            j a = g.CORE.Input.Gamepad.axisState j a)
      ∧ ∀ s : Int, s ≠ j →
          (processEvent g (.JOYDEVICEADDED j (some h) nameForIndex)).CORE.Input.Gamepad.ready s
            = g.CORE.Input.Gamepad.ready s
          ∧ (processEvent g (.JOYDEVICEADDED j (some h) nameForIndex)).CORE.Input.Gamepad.name s
            = g.CORE.Input.Gamepad.name s
          ∧ (processEvent g
              (.JOYDEVICEADDED j (some h) nameForIndex)).CORE.Input.Gamepad.axisCount s
            = g.CORE.Input.Gamepad.axisCount s
          ∧ (processEvent g
              (.JOYDEVICEADDED j (some h) nameForIndex)).CORE.Input.Gamepad.axisState s
            = g.CORE.Input.Gamepad.axisState s
          ∧ (processEvent g
              (.JOYDEVICEADDED j (some h) nameForIndex)).CORE.Input.Gamepad.currentButtonState s
            = g.CORE.Input.Gamepad.currentButtonState s
          ∧ (processEvent g
              (.JOYDEVICEADDED j (some h) nameForIndex)).CORE.Input.Gamepad.previousButtonState s
            = g.CORE.Input.Gamepad.previousButtonState s)
    ∧ (∀ (n : InitAnswers) (g : Globals) (j : Int) (h : SDL_GameController),
      0 ≤ n.initResult → n.createdWindow ≠ none → n.createdContext ≠ none →
      0 ≤ j → j < min n.numJoysticks MAX_GAMEPADS → n.controllerOpen j = some h →
      (InitPlatform n g).2.CORE.Input.Gamepad.axisState j GAMEPAD_AXIS_LEFT_TRIGGER = -1
      ∧ (InitPlatform n g).2.CORE.Input.Gamepad.axisState j GAMEPAD_AXIS_RIGHT_TRIGGER = -1
      ∧ (InitPlatform n g).2.CORE.Input.Gamepad.axisCount j = h.numAxes
      ∧ ∀ a : Int, a ≠ GAMEPAD_AXIS_LEFT_TRIGGER → a ≠ GAMEPAD_AXIS_RIGHT_TRIGGER →
          (InitPlatform n g).2.CORE.Input.Gamepad.axisState j a
            = g.CORE.Input.Gamepad.axisState j a)
    ∧ (∀ (n : InitAnswers) (g : Globals) (s : Int),
      0 ≤ n.initResult → n.createdWindow ≠ none → n.createdContext ≠ none →
      (¬ (0 ≤ s ∧ s < min n.numJoysticks MAX_GAMEPADS) ∨ n.controllerOpen s = none) →
      (InitPlatform n g).2.CORE.Input.Gamepad.ready s = g.CORE.Input.Gamepad.ready s
      ∧ (InitPlatform n g).2.CORE.Input.Gamepad.name s = g.CORE.Input.Gamepad.name s
      ∧ (InitPlatform n g).2.CORE.Input.Gamepad.axisCount s = g.CORE.Input.Gamepad.axisCount s
      ∧ (InitPlatform n g).2.CORE.Input.Gamepad.axisState s = g.CORE.Input.Gamepad.axisState s
      ∧ (InitPlatform n g).2.CORE.Input.Gamepad.currentButtonState s
          = g.CORE.Input.Gamepad.currentButtonState s
      ∧ (InitPlatform n g).2.CORE.Input.Gamepad.previousButtonState s
          = g.CORE.Input.Gamepad.previousButtonState s) := by
  refine ⟨fun g j h nameForIndex hr hj => ?_, fun n g j h h0 hw hc hj0 hj1 ho => ?_,
    fun n g s h0 hw hc hs => ?_⟩
  · have e : processEvent g (.JOYDEVICEADDED j (some h) nameForIndex)
        = onJoyDeviceAdded j (some h) nameForIndex g := rfl
    rw [e, onJoyDeviceAdded_opened g j h nameForIndex hr hj]
    obtain ⟨t1, t2, t3, t4⟩ := trigger_cells g.CORE.Input.Gamepad.axisState j
    refine ⟨t1, t2, by simp, t3, fun s hs => ⟨?_, ?_, ?_, t4 s hs, rfl, rfl⟩⟩
    · simp [Function.update_noteq hs]
    · simp [Function.update_noteq hs]
    · simp [Function.update_noteq hs]
  · rw [InitPlatform_success n g h0 hw hc]
    obtain ⟨-, k2, k3, -⟩ := initGamepads_slots n
      { g with
        platform.window := n.createdWindow,
        platform.glContext := n.createdContext,
        CORE.Window.ready := true,
        CORE.Window.display := ⟨960, 544⟩,
        CORE.Window.render := g.CORE.Window.screen,
        CORE.Window.currentFbo := g.CORE.Window.screen } j
    obtain ⟨t1, t2, t3, -⟩ := trigger_cells g.CORE.Input.Gamepad.axisState j
    simp only [if_pos (And.intro hj0 hj1), ho] at k2 k3
    refine ⟨?_, ?_, k2, fun a h1 h2 => ?_⟩
    · rw [k3]; exact t1
    · rw [k3]; exact t2
    · rw [k3]; exact t3 a h1 h2
  · rw [InitPlatform_success n g h0 hw hc]
    obtain ⟨k1, k2, k3, k4⟩ := initGamepads_slots n
      { g with
        platform.window := n.createdWindow,
        platform.glContext := n.createdContext,
        CORE.Window.ready := true,
        CORE.Window.display := ⟨960, 544⟩,
        CORE.Window.render := g.CORE.Window.screen,
        CORE.Window.currentFbo := g.CORE.Window.screen } s
    obtain ⟨-, -, -, -, -, f6, f7⟩ := initGamepads_frame n
      { g with
        platform.window := n.createdWindow,
        platform.glContext := n.createdContext,
        CORE.Window.ready := true,
        CORE.Window.display := ⟨960, 544⟩,
        CORE.Window.render := g.CORE.Window.screen,
        CORE.Window.currentFbo := g.CORE.Window.screen }
    refine ⟨?_, ?_, ?_, ?_, congrFun f6 s, congrFun f7 s⟩
    · rw [k1]; rcases hs with hs | hs
      · rw [if_neg hs]
      · simp only [hs, ite_self]
    · rw [k4]; rcases hs with hs | hs
      · rw [if_neg hs]
      · simp only [hs, ite_self]
    · rw [k2]; rcases hs with hs | hs
      · rw [if_neg hs]
      · simp only [hs, ite_self]
    · rw [k3]; rcases hs with hs | hs
      · rw [if_neg hs]
      · simp only [hs, ite_self]

/-- Witness of C11: an attach of device 0 on the zero-filled state, and a
successful `InitPlatform` with one controller connected (slot 0 opened, slot 1
not attempted). -/
theorem opened_slot_triggers_released_witness :
    (processEvent zeroGlobals
        (.JOYDEVICEADDED 0 (some ⟨0, 6⟩) [80, 83, 86])).CORE.Input.Gamepad.axisState 0
        GAMEPAD_AXIS_LEFT_TRIGGER = -1
    ∧ (InitPlatform oneControllerInit zeroGlobals).2.CORE.Input.Gamepad.axisState 0
        GAMEPAD_AXIS_LEFT_TRIGGER = -1
    ∧ (InitPlatform oneControllerInit zeroGlobals).2.CORE.Input.Gamepad.ready 1
        = zeroGlobals.CORE.Input.Gamepad.ready 1 :=
  ⟨(opened_slot_triggers_released.1 zeroGlobals 0 ⟨0, 6⟩ [80, 83, 86] rfl (by decide)).1,
    (opened_slot_triggers_released.2.1 oneControllerInit zeroGlobals 0 ⟨0, 6⟩ (by decide)
      (by decide) (by decide) (by decide) (by decide) rfl).1,
    (opened_slot_triggers_released.2.2 oneControllerInit zeroGlobals 1 (by decide) (by decide)
      (by decide) (Or.inr rfl)).1⟩

/-- C12: after a successful attach of slot `j` (by a controller-attach event
or by the enumeration loop of a successful `InitPlatform`) with native device
name `s` of any length, the name field of slot `j` holds the first
`min(length(s), 63)` characters of `s`, followed by a terminator at index
`min(length(s), 63)`, which is at most 63: the stored characters are `s` itself
when `length(s) <= 63` and the 63-character prefix of `s` otherwise. -/
theorem attached_name_truncated_at_63 :
    (∀ (g : Globals) (j : Int) (h : SDL_GameController) (s : CString),
      g.CORE.Input.Gamepad.ready j = false → j < MAX_GAMEPADS →
      (∀ i : Nat, i < min s.length 63 →
        (processEvent g (.JOYDEVICEADDED j (some h) s)).CORE.Input.Gamepad.name j (i : Int)
          = s.getD i 0)
      ∧ (processEvent g (.JOYDEVICEADDED j (some h) s)).CORE.Input.Gamepad.name j
          ((min s.length 63 : Nat) : Int) = 0
      ∧ (List.range (min s.length 63)).map
          (fun i : Nat =>
            (processEvent g (.JOYDEVICEADDED j (some h) s)).CORE.Input.Gamepad.name j (i : Int))
          = s.take 63)
    ∧ (∀ (n : InitAnswers) (g : Globals) (j : Int) (h : SDL_GameController),
      0 ≤ n.initResult → n.createdWindow ≠ none → n.createdContext ≠ none →
      0 ≤ j → j < min n.numJoysticks MAX_GAMEPADS → n.controllerOpen j = some h →
      (∀ i : Nat, i < min (n.controllerNameForIndex j).length 63 →
        (InitPlatform n g).2.CORE.Input.Gamepad.name j (i : Int)
          = (n.controllerNameForIndex j).getD i 0)
      ∧ (InitPlatform n g).2.CORE.Input.Gamepad.name j
          ((min (n.controllerNameForIndex j).length 63 : Nat) : Int) = 0
      ∧ (List.range (min (n.controllerNameForIndex j).length 63)).map
          (fun i : Nat => (InitPlatform n g).2.CORE.Input.Gamepad.name j (i : Int))
          = (n.controllerNameForIndex j).take 63) := by
  refine ⟨fun g j h s hr hj => ?_, fun n g j h h0 hw hc hj0 hj1 ho => ?_⟩
  · have e : processEvent g (.JOYDEVICEADDED j (some h) s) = onJoyDeviceAdded j (some h) s g :=
      rfl
    rw [e, onJoyDeviceAdded_opened g j h s hr hj]
    simp only [Function.update_same]
    exact name_cells (g.CORE.Input.Gamepad.name j) s
  · rw [InitPlatform_success n g h0 hw hc]
    obtain ⟨-, -, -, k4⟩ := initGamepads_slots n
      { g with
        platform.window := n.createdWindow,
        platform.glContext := n.createdContext,
        CORE.Window.ready := true,
        CORE.Window.display := ⟨960, 544⟩,
        CORE.Window.render := g.CORE.Window.screen,
        CORE.Window.currentFbo := g.CORE.Window.screen } j
    simp only [if_pos (And.intro hj0 hj1), ho] at k4
    rw [k4]
    exact name_cells (g.CORE.Input.Gamepad.name j) (n.controllerNameForIndex j)

/-- Witness of C12: the three-character name "PSV" attached to slot 0 of the
zero-filled state by an event and by `InitPlatform`. -/
theorem attached_name_truncated_at_63_witness :
    (List.range (min [80, 83, 86].length 63)).map
        (fun i : Nat =>
          (processEvent zeroGlobals
            (.JOYDEVICEADDED 0 (some ⟨0, 6⟩) [80, 83, 86])).CORE.Input.Gamepad.name 0 (i : Int))
        = [80, 83, 86].take 63
    ∧ (List.range (min (oneControllerInit.controllerNameForIndex 0).length 63)).map
        (fun i : Nat =>
          (InitPlatform oneControllerInit zeroGlobals).2.CORE.Input.Gamepad.name 0 (i : Int))
        = (oneControllerInit.controllerNameForIndex 0).take 63 :=
  ⟨(attached_name_truncated_at_63.1 zeroGlobals 0 ⟨0, 6⟩ [80, 83, 86] rfl (by decide)).2.2,
    (attached_name_truncated_at_63.2 oneControllerInit zeroGlobals 0 ⟨0, 6⟩ (by decide) (by decide)
      (by decide) (by decide) (by decide) rfl).2.2⟩

/-! ## Keyboard queues -/

/-- Only key-down, key-up and text-input events write the keyboard section. -/
theorem processEvent_Keyboard (g : Globals) (event : SDL_Event)
    (hdown : ∀ sc rep, event ≠ .KEYDOWN sc rep) (hup : ∀ sc, event ≠ .KEYUP sc)
    (htext : ∀ text, event ≠ .TEXTINPUT text) :
    (processEvent g event).CORE.Input.Keyboard = g.CORE.Input.Keyboard := by
  cases event with
  | QUIT => rfl
  | DROPFILE file =>
    simp only [processEvent, onDropFile]
    split_ifs <;> rfl
  | WINDOWEVENT event data1 data2 => cases event <;> rfl
  | KEYDOWN scancode rep => exact absurd rfl (hdown scancode rep)
  | KEYUP scancode => exact absurd rfl (hup scancode)
  | TEXTINPUT text => exact absurd rfl (htext text)
  | MOUSEBUTTONDOWN button => rfl
  | MOUSEBUTTONUP button => rfl
  | MOUSEWHEEL x y => rfl
  | MOUSEMOTION x y xrel yrel =>
    simp only [processEvent, onMouseMotion]
    split_ifs <;> rfl
  | FINGERDOWN tfinger => rfl
  | FINGERUP tfinger => rfl
  | FINGERMOTION tfinger => rfl
  | JOYDEVICEADDED which opened nameForIndex =>
    simp only [processEvent, onJoyDeviceAdded]
    split_ifs
    · cases opened <;> simp [Function.update_same]
    · rfl
  | JOYDEVICEREMOVED which reopened =>
    simp only [processEvent, onJoyDeviceRemoved]
    split_ifs <;> rfl
  | CONTROLLERBUTTONDOWN which button =>
    simp only [processEvent, onControllerButtonDown]
    split_ifs <;> rfl
  | CONTROLLERBUTTONUP which button =>
    simp only [processEvent, onControllerButtonUp]
    split_ifs <;> rfl
  | CONTROLLERAXISMOTION which axis value =>
    simp only [processEvent, onControllerAxisMotion]
    split_ifs <;> rfl
  | OTHER => rfl

/-- No event takes a queue count beyond the capacity of its queue. -/
theorem processEvent_queue_counts (g : Globals) (event : SDL_Event) :
    (g.CORE.Input.Keyboard.keyPressedQueueCount ≤ MAX_KEY_PRESSED_QUEUE →
      (processEvent g event).CORE.Input.Keyboard.keyPressedQueueCount ≤ MAX_KEY_PRESSED_QUEUE)
    ∧ (g.CORE.Input.Keyboard.charPressedQueueCount ≤ MAX_CHAR_PRESSED_QUEUE →
      (processEvent g event).CORE.Input.Keyboard.charPressedQueueCount
        ≤ MAX_CHAR_PRESSED_QUEUE) := by
  by_cases hd : ∃ sc rep, event = .KEYDOWN sc rep
  · obtain ⟨sc, rep, rfl⟩ := hd
    simp only [processEvent, onKeyDown]
    constructor
    · intro h
      split_ifs <;> first | exact h | (show _ + 1 ≤ _; omega)
    · intro h
      split_ifs <;> exact h
  · by_cases hu : ∃ sc, event = .KEYUP sc
    · obtain ⟨sc, rfl⟩ := hu
      simp only [processEvent, onKeyUp]
      constructor <;> intro h <;> split_ifs <;> exact h
    · by_cases ht : ∃ text, event = .TEXTINPUT text
      · obtain ⟨text, rfl⟩ := ht
        simp only [processEvent, onTextInput]
        constructor
        · intro h
          split_ifs <;> exact h
        · intro h
          split_ifs <;> first | exact h | (show _ + 1 ≤ _; omega)
      · rw [processEvent_Keyboard g event (fun sc rep hh => hd ⟨sc, rep, hh⟩)
          (fun sc hh => hu ⟨sc, hh⟩) (fun text hh => ht ⟨text, hh⟩)]
        exact ⟨id, id⟩

theorem foldl_processEvent_queue_counts (queue : List SDL_Event) (g : Globals)
    (hk : g.CORE.Input.Keyboard.keyPressedQueueCount ≤ MAX_KEY_PRESSED_QUEUE)
    (hc : g.CORE.Input.Keyboard.charPressedQueueCount ≤ MAX_CHAR_PRESSED_QUEUE) :
    (queue.foldl processEvent g).CORE.Input.Keyboard.keyPressedQueueCount
        ≤ MAX_KEY_PRESSED_QUEUE
    ∧ (queue.foldl processEvent g).CORE.Input.Keyboard.charPressedQueueCount
        ≤ MAX_CHAR_PRESSED_QUEUE := by
  induction queue generalizing g with
  | nil => exact ⟨hk, hc⟩
  | cons e es ih =>
    exact ih (processEvent g e) ((processEvent_queue_counts g e).1 hk)
      ((processEvent_queue_counts g e).2 hc)

theorem registerPrevious_queue_counts (numJoysticks : Int) (g : Globals) :
    (registerPrevious numJoysticks g).CORE.Input.Keyboard.keyPressedQueueCount = 0
    ∧ (registerPrevious numJoysticks g).CORE.Input.Keyboard.charPressedQueueCount = 0 := by
  rw [registerPrevious_Keyboard]
  obtain ⟨-, -, -, h4, -, h6⟩ := registerPreviousKeyStates_frame
    { g.CORE.Input.Keyboard with keyPressedQueueCount := 0, charPressedQueueCount := 0 }
  exact ⟨h4, h6⟩

/-- C13: for every state and every event queue, after `PollInputEvents`
`keyPressedQueueCount <= MAX_KEY_PRESSED_QUEUE` and
`charPressedQueueCount <= MAX_CHAR_PRESSED_QUEUE`; a key-down event that
arrives when the key-pressed queue is full leaves the contents and the count of
that queue unchanged and still sets `current[key]` of a mapped key; a
text-input event that arrives when the char-pressed queue is full leaves the
contents and the count of that queue unchanged. -/
theorem pressed_queues_bounded (numJoysticks : Int) (queue : List SDL_Event) (g : Globals) :
    (PollInputEvents numJoysticks queue g).CORE.Input.Keyboard.keyPressedQueueCount
        ≤ MAX_KEY_PRESSED_QUEUE
    ∧ (PollInputEvents numJoysticks queue g).CORE.Input.Keyboard.charPressedQueueCount
        ≤ MAX_CHAR_PRESSED_QUEUE
    ∧ (∀ (s : Globals) (sc : Int) (rep : Bool),
      s.CORE.Input.Keyboard.keyPressedQueueCount = MAX_KEY_PRESSED_QUEUE →
      (processEvent s (.KEYDOWN sc rep)).CORE.Input.Keyboard.keyPressedQueue
          = s.CORE.Input.Keyboard.keyPressedQueue
      ∧ (processEvent s (.KEYDOWN sc rep)).CORE.Input.Keyboard.keyPressedQueueCount
          = s.CORE.Input.Keyboard.keyPressedQueueCount
      ∧ (ConvertScancodeToKey sc ≠ KEY_NULL →
          (processEvent s (.KEYDOWN sc rep)).CORE.Input.Keyboard.currentKeyState
            (ConvertScancodeToKey sc) = 1))
    ∧ (∀ (s : Globals) (text : List Int),
      s.CORE.Input.Keyboard.charPressedQueueCount = MAX_CHAR_PRESSED_QUEUE →
      (processEvent s (.TEXTINPUT text)).CORE.Input.Keyboard.charPressedQueue
          = s.CORE.Input.Keyboard.charPressedQueue
      ∧ (processEvent s (.TEXTINPUT text)).CORE.Input.Keyboard.charPressedQueueCount
          = s.CORE.Input.Keyboard.charPressedQueueCount) := by
  obtain ⟨r1, r2⟩ := registerPrevious_queue_counts numJoysticks g
  obtain ⟨b1, b2⟩ := foldl_processEvent_queue_counts queue (registerPrevious numJoysticks g)
    (by rw [r1]; exact Int.natCast_nonneg _) (by rw [r2]; exact Int.natCast_nonneg _)
  refine ⟨b1, b2, fun s sc rep hfull => ?_, fun s text hfull => ?_⟩
  · have hnot : ¬ (s.CORE.Input.Keyboard.currentKeyState (ConvertScancodeToKey sc) = 0
        ∧ s.CORE.Input.Keyboard.keyPressedQueueCount < MAX_KEY_PRESSED_QUEUE) :=
      fun hh => absurd hh.2 (by rw [hfull]; exact lt_irrefl _)
    refine ⟨?_, ?_, fun hm => ?_⟩
    · simp only [processEvent, onKeyDown, hnot, if_false]
      split_ifs <;> rfl
    · simp only [processEvent, onKeyDown, hnot, if_false]
      split_ifs <;> rfl
    · show (onKeyDown sc rep s).CORE.Input.Keyboard.currentKeyState _ = 1
      rw [onKeyDown_currentKeyState, if_pos hm, Function.update_same]
  · have hnot : ¬ s.CORE.Input.Keyboard.charPressedQueueCount < MAX_CHAR_PRESSED_QUEUE := by
      rw [hfull]; exact lt_irrefl _
    simp only [processEvent, onTextInput, if_neg hnot, and_self]

/-- Witness of C13: a further key-down (scancode 20, key `Q`) and a further
text input on the state whose two queues are full. -/
theorem pressed_queues_bounded_witness :
    (fullQueues.CORE.Input.Keyboard.keyPressedQueueCount = MAX_KEY_PRESSED_QUEUE
      ∧ (processEvent fullQueues (.KEYDOWN 20 false)).CORE.Input.Keyboard.keyPressedQueue
          = fullQueues.CORE.Input.Keyboard.keyPressedQueue
      ∧ (processEvent fullQueues (.KEYDOWN 20 false)).CORE.Input.Keyboard.keyPressedQueueCount
          = fullQueues.CORE.Input.Keyboard.keyPressedQueueCount)
    ∧ (fullQueues.CORE.Input.Keyboard.charPressedQueueCount = MAX_CHAR_PRESSED_QUEUE
      ∧ (processEvent fullQueues (.TEXTINPUT [122])).CORE.Input.Keyboard.charPressedQueueCount
          = fullQueues.CORE.Input.Keyboard.charPressedQueueCount) :=
  ⟨⟨by decide,
      ((pressed_queues_bounded 1 [] zeroGlobals).2.2.1 fullQueues 20 false (by decide)).1,
      ((pressed_queues_bounded 1 [] zeroGlobals).2.2.1 fullQueues 20 false (by decide)).2.1⟩,
    ⟨by decide,
      ((pressed_queues_bounded 1 [] zeroGlobals).2.2.2 fullQueues [122] (by decide)).2⟩⟩

/-- C14, as stated, fails on key-down events (scancode 1 has no mapped key):
an auto-repeat key-down sets `keyRepeatInFrame[KEY_NULL]`, and a key-down
received while the exit key is recorded as down sets `window.shouldClose`. -/
theorem unmapped_key_down_is_not_a_no_op :
    ConvertScancodeToKey 1 = KEY_NULL
    ∧ zeroGlobals.CORE.Input.Keyboard.keyRepeatInFrame KEY_NULL = 0
    ∧ (processEvent zeroGlobals (.KEYDOWN 1 true)).CORE.Input.Keyboard.keyRepeatInFrame
        KEY_NULL = 1
    ∧ exitKeyHeld.CORE.Window.shouldClose = false
    ∧ (processEvent exitKeyHeld (.KEYDOWN 1 false)).CORE.Window.shouldClose = true := by
  decide

/-- C14, amended: for every state, a key-up event whose scancode has no mapped
key is a no-op; a key-down event whose scancode has no mapped key leaves the
keyboard current states and the key-pressed queue (contents and count)
unchanged, leaves the key-repeat flag of every key other than index `KEY_NULL`
unchanged (every flag when the event is not an auto-repeat), and leaves
`window.shouldClose` unchanged unless the exit key is recorded as down, in
which case `window.shouldClose` is set. -/
theorem unmapped_key_events (g : Globals) (sc : Int) (rep : Bool)
    (hsc : ConvertScancodeToKey sc = KEY_NULL) :
    processEvent g (.KEYUP sc) = g
    ∧ (processEvent g (.KEYDOWN sc rep)).CORE.Input.Keyboard.currentKeyState
        = g.CORE.Input.Keyboard.currentKeyState
    ∧ (processEvent g (.KEYDOWN sc rep)).CORE.Input.Keyboard.keyPressedQueue
        = g.CORE.Input.Keyboard.keyPressedQueue
    ∧ (processEvent g (.KEYDOWN sc rep)).CORE.Input.Keyboard.keyPressedQueueCount
        = g.CORE.Input.Keyboard.keyPressedQueueCount
    ∧ (∀ k : Int, k ≠ KEY_NULL →
        (processEvent g (.KEYDOWN sc rep)).CORE.Input.Keyboard.keyRepeatInFrame k
          = g.CORE.Input.Keyboard.keyRepeatInFrame k)
    ∧ (rep = false →
        (processEvent g (.KEYDOWN sc rep)).CORE.Input.Keyboard.keyRepeatInFrame
          = g.CORE.Input.Keyboard.keyRepeatInFrame)
    ∧ (processEvent g (.KEYDOWN sc rep)).CORE.Window.shouldClose
        = (if g.CORE.Input.Keyboard.currentKeyState g.CORE.Input.Keyboard.exitKey ≠ 0 then true
          else g.CORE.Window.shouldClose) := by
  have hn : ¬ ConvertScancodeToKey sc ≠ KEY_NULL := fun h => h hsc
  refine ⟨?_, ?_, ?_, ?_, fun k hk => ?_, fun hr => ?_, ?_⟩
  · simp only [processEvent, onKeyUp, if_neg hn]
  · show (onKeyDown sc rep g).CORE.Input.Keyboard.currentKeyState = _
    rw [onKeyDown_currentKeyState, if_neg hn]
  · simp only [processEvent, onKeyDown, if_neg hn]
    split_ifs <;> rfl
  · simp only [processEvent, onKeyDown, if_neg hn]
    split_ifs <;> rfl
  · simp only [processEvent, onKeyDown, if_neg hn, hsc]
    split_ifs <;> simp [Function.update_noteq hk]
  · subst hr
    simp only [processEvent, onKeyDown, if_neg hn, Bool.false_eq_true, if_false]
    split_ifs <;> rfl
  · simp only [processEvent, onKeyDown, if_neg hn]
    cases rep <;> simp only [Bool.false_eq_true, if_false, if_true] <;> split_ifs <;> rfl

/-- Witness of C14 (amended): scancode 1 on the zero-filled state. -/
theorem unmapped_key_events_witness :
    ConvertScancodeToKey 1 = KEY_NULL
    ∧ processEvent zeroGlobals (.KEYUP 1) = zeroGlobals
    ∧ (processEvent zeroGlobals (.KEYDOWN 1 true)).CORE.Input.Keyboard.currentKeyState
        = zeroGlobals.CORE.Input.Keyboard.currentKeyState :=
  ⟨by decide, (unmapped_key_events zeroGlobals 1 true (by decide)).1,
    (unmapped_key_events zeroGlobals 1 true (by decide)).2.1⟩

/-! ## Exact binary32 values -/

theorem roundHalfEven_intCast (m : Int) : roundHalfEven (m : ℚ) = m := by
  unfold roundHalfEven
  simp

/-- A number `m * 2^k` with a significand below `2^24` and an exponent not
below that of the smallest subnormal is a binary32 value: rounding keeps it. -/
theorem f32_representable (m k : Int) (hm : |m| < 2 ^ 24) (hk : -149 ≤ k) :
    f32 ((m : ℚ) * 2 ^ k) = (m : ℚ) * 2 ^ k := by
  by_cases hm0 : m = 0
  · subst hm0
    simp [f32]
  have h2 : (0 : ℚ) < 2 ^ k := by positivity
  have hq0 : (m : ℚ) * 2 ^ k ≠ 0 := mul_ne_zero (by exact_mod_cast hm0) (ne_of_gt h2)
  have habs : |(m : ℚ) * 2 ^ k| < 2 ^ (24 + k) := by
    rw [abs_mul, abs_of_pos h2, zpow_add₀ (by norm_num : (2 : ℚ) ≠ 0)]
    have : |(m : ℚ)| < 2 ^ (24 : Int) := by
      have : ((|m| : Int) : ℚ) < ((2 ^ 24 : Int) : ℚ) := by exact_mod_cast hm
      rw [Int.cast_abs] at this
      norm_num at this ⊢
      exact this
    exact mul_lt_mul_of_pos_right this h2
  have hlog : Int.log 2 |(m : ℚ) * 2 ^ k| < 24 + k :=
    (Int.lt_zpow_iff_log_lt (by norm_num) (abs_pos.mpr hq0)).mp (by exact_mod_cast habs)
  have hE : f32Exponent ((m : ℚ) * 2 ^ k) - 23 ≤ k := by
    unfold f32Exponent
    have : max (Int.log 2 |(m : ℚ) * 2 ^ k|) (-126) ≤ 23 + k := max_le (by omega) (by omega)
    omega
  unfold f32
  rw [if_neg hq0]
  generalize f32Exponent ((m : ℚ) * 2 ^ k) - 23 = c at hE
  obtain ⟨d, rfl⟩ : ∃ d : Nat, k = c + d := ⟨(k - c).toNat, by omega⟩
  have hdiv : (m : ℚ) * 2 ^ (c + (d : Int)) / 2 ^ c = ((m * 2 ^ d : Int) : ℚ) := by
    rw [zpow_add₀ (by norm_num : (2 : ℚ) ≠ 0)]
    have hc : (2 : ℚ) ^ c ≠ 0 := by positivity
    field_simp
    ring
  rw [hdiv, roundHalfEven_intCast, zpow_add₀ (by norm_num : (2 : ℚ) ≠ 0), zpow_natCast]
  push_cast
  ring

theorem f32_intCast (m : Int) (hm : |m| < 2 ^ 24) : f32 (m : ℚ) = m := by
  have := f32_representable m 0 hm (by norm_num)
  simpa using this


/-! ## Text input -/

/-- C15, as stated, fails: a text-input event whose text encodes the two
codepoints 97 and 98, received with an empty char-pressed queue, appends 97
only: the count becomes 1 and slot 1 does not receive 98. -/
theorem text_input_second_codepoint_dropped :
    zeroGlobals.CORE.Input.Keyboard.charPressedQueueCount = 0
    ∧ (processEvent zeroGlobals (.TEXTINPUT [97, 98])).CORE.Input.Keyboard.charPressedQueueCount
        = 1
    ∧ (processEvent zeroGlobals (.TEXTINPUT [97, 98])).CORE.Input.Keyboard.charPressedQueue 0
        = 97
    ∧ (processEvent zeroGlobals (.TEXTINPUT [97, 98])).CORE.Input.Keyboard.charPressedQueue 1
        ≠ 98 := by
  decide

/-- C15, amended: for every text-input event whose text encodes `n >= 1`
codepoints `c1..cn`, the handler appends the first codepoint `c1`, and nothing
else, to the char-pressed queue when the queue is not full (the count grows by
one and every other slot keeps its content), and leaves the state unchanged
when the queue is full. -/
theorem text_input_appends_first_codepoint (g : Globals) (c1 : Int) (rest : List Int) :
    (g.CORE.Input.Keyboard.charPressedQueueCount < MAX_CHAR_PRESSED_QUEUE →
      (processEvent g (.TEXTINPUT (c1 :: rest))).CORE.Input.Keyboard.charPressedQueue
          g.CORE.Input.Keyboard.charPressedQueueCount = c1
      ∧ (processEvent g (.TEXTINPUT (c1 :: rest))).CORE.Input.Keyboard.charPressedQueueCount
          = g.CORE.Input.Keyboard.charPressedQueueCount + 1
      ∧ ∀ i : Int, i ≠ g.CORE.Input.Keyboard.charPressedQueueCount →
          (processEvent g (.TEXTINPUT (c1 :: rest))).CORE.Input.Keyboard.charPressedQueue i
            = g.CORE.Input.Keyboard.charPressedQueue i)
    ∧ (¬ g.CORE.Input.Keyboard.charPressedQueueCount < MAX_CHAR_PRESSED_QUEUE →
      processEvent g (.TEXTINPUT (c1 :: rest)) = g) := by
  refine ⟨fun h => ?_, fun h => ?_⟩
  · simp only [processEvent, onTextInput, if_pos h, Function.update_same, GetCodepointNext,
      List.headD_cons, true_and]
    exact fun i hi => Function.update_noteq hi _ _
  · simp only [processEvent, onTextInput, if_neg h]

/-- Witness of C15 (amended): the text "ab" typed on the zero-filled state and
on the state whose char-pressed queue is full. -/
theorem text_input_appends_first_codepoint_witness :
    (zeroGlobals.CORE.Input.Keyboard.charPressedQueueCount < MAX_CHAR_PRESSED_QUEUE
      ∧ (processEvent zeroGlobals (.TEXTINPUT (97 :: [98]))).CORE.Input.Keyboard.charPressedQueue
          zeroGlobals.CORE.Input.Keyboard.charPressedQueueCount = 97)
    ∧ (¬ fullQueues.CORE.Input.Keyboard.charPressedQueueCount < MAX_CHAR_PRESSED_QUEUE
      ∧ processEvent fullQueues (.TEXTINPUT (97 :: [98])) = fullQueues) :=
  ⟨⟨by decide, ((text_input_appends_first_codepoint zeroGlobals 97 [98]).1 (by decide)).1⟩,
    ⟨by decide, (text_input_appends_first_codepoint fullQueues 97 [98]).2 (by decide)⟩⟩

/-! ## Mouse wheel -/

/-- Only mouse-wheel events write `currentWheelMove`. -/
theorem processEvent_currentWheelMove (g : Globals) (event : SDL_Event)
    (hw : ∀ x y, event ≠ .MOUSEWHEEL x y) :
    (processEvent g event).CORE.Input.Mouse.currentWheelMove
      = g.CORE.Input.Mouse.currentWheelMove := by
  cases event with
  | QUIT => rfl
  | DROPFILE file =>
    simp only [processEvent, onDropFile]
    split_ifs <;> rfl
  | WINDOWEVENT event data1 data2 => cases event <;> rfl
  | KEYDOWN scancode rep =>
    simp only [processEvent, onKeyDown]
    split_ifs <;> rfl
  | KEYUP scancode =>
    simp only [processEvent, onKeyUp]
    split_ifs <;> rfl
  | TEXTINPUT text =>
    simp only [processEvent, onTextInput]
    split_ifs <;> rfl
  | MOUSEBUTTONDOWN button => rfl
  | MOUSEBUTTONUP button => rfl
  | MOUSEWHEEL x y => exact absurd rfl (hw x y)
  | MOUSEMOTION x y xrel yrel =>
    simp only [processEvent, onMouseMotion]
    split_ifs <;> rfl
  | FINGERDOWN tfinger => rfl
  | FINGERUP tfinger => rfl
  | FINGERMOTION tfinger => rfl
  | JOYDEVICEADDED which opened nameForIndex =>
    simp only [processEvent, onJoyDeviceAdded]
    split_ifs
    · cases opened <;> simp [Function.update_same]
    · rfl
  | JOYDEVICEREMOVED which reopened =>
    simp only [processEvent, onJoyDeviceRemoved]
    split_ifs <;> rfl
  | CONTROLLERBUTTONDOWN which button =>
    simp only [processEvent, onControllerButtonDown]
    split_ifs <;> rfl
  | CONTROLLERBUTTONUP which button =>
    simp only [processEvent, onControllerButtonUp]
    split_ifs <;> rfl
  | CONTROLLERAXISMOTION which axis value =>
    simp only [processEvent, onControllerAxisMotion]
    split_ifs <;> rfl
  | OTHER => rfl

theorem foldl_processEvent_currentWheelMove (queue : List SDL_Event) (g : Globals)
    (hq : ∀ x y, SDL_Event.MOUSEWHEEL x y ∉ queue) :
    (queue.foldl processEvent g).CORE.Input.Mouse.currentWheelMove
      = g.CORE.Input.Mouse.currentWheelMove := by
  induction queue generalizing g with
  | nil => rfl
  | cons e es ih =>
    rw [List.foldl_cons, ih (processEvent g e)
      (fun x y hh => hq x y (List.mem_cons_of_mem _ hh))]
    exact processEvent_currentWheelMove g e
      (fun x y hh => hq x y (by rw [hh]; exact List.mem_cons_self _ _))

theorem registerPrevious_currentWheelMove (numJoysticks : Int) (g : Globals) :
    (registerPrevious numJoysticks g).CORE.Input.Mouse.currentWheelMove = ⟨0, 0⟩ := by
  rw [registerPrevious_Mouse]
  rw [(registerPreviousMouseButtons_frame _).2.2.1]
  cases g.platform.cursorRelative <;> rfl

/-- C16, as stated, fails: after a poll that drains two wheel events with
vertical deltas 1 and 2, `currentWheelMove.y` is 2, not the sum 3. -/
theorem wheel_moves_do_not_accumulate :
    (PollInputEvents 1 [.MOUSEWHEEL 0 1, .MOUSEWHEEL 0 2]
        zeroGlobals).CORE.Input.Mouse.currentWheelMove.y = 2
    ∧ (PollInputEvents 1 [.MOUSEWHEEL 0 1, .MOUSEWHEEL 0 2]
        zeroGlobals).CORE.Input.Mouse.currentWheelMove.y ≠ 1 + 2 := by
  have h : (PollInputEvents 1 [.MOUSEWHEEL 0 1, .MOUSEWHEEL 0 2]
      zeroGlobals).CORE.Input.Mouse.currentWheelMove.y = f32 ((2 : Int) : ℚ) := rfl
  rw [h, f32_intCast 2 (by decide)]
  norm_num

/-- C16, amended: mouse-wheel events do not accumulate within a frame: after a
poll that drains wheel events with deltas `d1..dn`, `currentWheelMove` equals
the last delta `dn` converted to `float` (`dn` itself when both components are
below `2^24` in absolute value), and `(0,0)` when the queue holds no wheel
event. -/
theorem wheel_move_is_last_delta (numJoysticks : Int) (g : Globals)
    (before after queue : List SDL_Event) (x y : Int)
    (hafter : ∀ x' y', SDL_Event.MOUSEWHEEL x' y' ∉ after)
    (hqueue : ∀ x' y', SDL_Event.MOUSEWHEEL x' y' ∉ queue) :
    (PollInputEvents numJoysticks (before ++ .MOUSEWHEEL x y :: after)
        g).CORE.Input.Mouse.currentWheelMove = ⟨f32 x, f32 y⟩
    ∧ (|x| < 2 ^ 24 → |y| < 2 ^ 24 →
      (PollInputEvents numJoysticks (before ++ .MOUSEWHEEL x y :: after)
        g).CORE.Input.Mouse.currentWheelMove = ⟨x, y⟩)
    ∧ (PollInputEvents numJoysticks queue g).CORE.Input.Mouse.currentWheelMove = ⟨0, 0⟩ := by
  have h1 : (PollInputEvents numJoysticks (before ++ .MOUSEWHEEL x y :: after)
      g).CORE.Input.Mouse.currentWheelMove = ⟨f32 x, f32 y⟩ := by
    unfold PollInputEvents
    rw [List.foldl_append, List.foldl_cons, foldl_processEvent_currentWheelMove after _ hafter]
    rfl
  refine ⟨h1, fun hx hy => ?_, ?_⟩
  · rw [h1, f32_intCast x hx, f32_intCast y hy]
  · unfold PollInputEvents
    rw [foldl_processEvent_currentWheelMove queue _ hqueue, registerPrevious_currentWheelMove]

/-- Witness of C16 (amended): two wheel events, and an empty queue. -/
theorem wheel_move_is_last_delta_witness :
    (PollInputEvents 1 ([.MOUSEWHEEL 0 1] ++ .MOUSEWHEEL 0 2 :: [])
        zeroGlobals).CORE.Input.Mouse.currentWheelMove = ⟨f32 (0 : Int), f32 (2 : Int)⟩
    ∧ (PollInputEvents 1 [] zeroGlobals).CORE.Input.Mouse.currentWheelMove = ⟨0, 0⟩ :=
  ⟨(wheel_move_is_last_delta 1 zeroGlobals [.MOUSEWHEEL 0 1] [] [] 0 2 (by simp) (by simp)).1,
    (wheel_move_is_last_delta 1 zeroGlobals [.MOUSEWHEEL 0 1] [] [] 0 2 (by simp) (by simp)).2.2⟩

/-! ## Axis normalisation -/

/-- The axis handler stores the normalised value in the cell of the mapped
axis of the event's slot. -/
theorem onControllerAxisMotion_axisState (which nativeAxis raw : Int) (g : Globals)
    (h : axisSwitch nativeAxis ≥ 0) :
    (onControllerAxisMotion which nativeAxis raw g).CORE.Input.Gamepad.axisState which
        (axisSwitch nativeAxis) = axisValue raw := by
  simp only [onControllerAxisMotion, if_pos h]
  split_ifs <;> simp [update2]

/-- The raw value -32768 is normalised to a value below -1. -/
theorem axisValue_min : axisValue (-32768) < -1 := by
  unfold axisValue
  rw [f32_intCast (-32768) (by decide)]
  have h := f32_of_neg (((-32768 : Int) : ℚ) / 32767) (by norm_num)
  have h2 : ((-32768 : Int) : ℚ) / 32767 - ((-32768 : Int) : ℚ) / 32767 / 2 ^ 24 < -1 := by
    norm_num
  exact lt_of_le_of_lt h h2

/-- Every other raw value of the signed 16-bit range is normalised into
`[-1, 1]`. -/
theorem axisValue_in_range (raw : Int) (h0 : -32767 ≤ raw) (h1 : raw ≤ 32767) :
    -1 ≤ axisValue raw ∧ axisValue raw ≤ 1 := by
  unfold axisValue
  rw [f32_intCast raw (by rw [abs_lt]; constructor <;> omega)]
  have one : f32 1 = 1 := by
    have := f32_intCast 1 (by decide)
    simpa using this
  have mone : f32 (-1) = -1 := by
    have := f32_intCast (-1) (by decide)
    simpa using this
  rcases lt_trichotomy raw 0 with hneg | hz | hpos
  · by_cases hm : raw = -32767
    · subst hm
      norm_num [mone]
    · have l1 : (-32766 : ℚ) ≤ raw := by exact_mod_cast (by omega : (-32766 : Int) ≤ raw)
      have l2 : (raw : ℚ) ≤ -1 := by exact_mod_cast (by omega : raw ≤ -1)
      have hq : (raw : ℚ) / 32767 < 0 := div_neg_of_neg_of_pos (by linarith) (by norm_num)
      have he := f32_error ((raw : ℚ) / 32767)
        (by rw [abs_of_neg hq]; norm_num; linarith)
      rw [abs_le, abs_of_neg hq] at he
      constructor
      · norm_num at he ⊢; linarith [he.1]
      · norm_num at he ⊢; linarith [he.2]
  · subst hz
    norm_num [f32_zero]
  · by_cases hm : raw = 32767
    · subst hm
      norm_num [one]
    · have l1 : (raw : ℚ) ≤ 32766 := by exact_mod_cast (by omega : raw ≤ 32766)
      have l2 : (1 : ℚ) ≤ raw := by exact_mod_cast (by omega : (1 : Int) ≤ raw)
      obtain ⟨b1, b2⟩ := f32_of_pos ((raw : ℚ) / 32767) (by norm_num; linarith)
      constructor
      · norm_num at b1 ⊢; linarith
      · norm_num at b2 ⊢; linarith

/-- C17, the failing input: an axis-motion event on the left stick X axis with
the raw value -32768 stores a value below -1 in `axisState`. -/
theorem axis_state_below_minus_one (g : Globals) (which : Int) :
    (processEvent g (.CONTROLLERAXISMOTION which SDL_CONTROLLER_AXIS_LEFTX
        (-32768))).CORE.Input.Gamepad.axisState which GAMEPAD_AXIS_LEFT_X < -1 := by
  have h := onControllerAxisMotion_axisState which SDL_CONTROLLER_AXIS_LEFTX (-32768) g
    (by decide)
  have e : axisSwitch SDL_CONTROLLER_AXIS_LEFTX = GAMEPAD_AXIS_LEFT_X := by decide
  rw [e] at h
  show (onControllerAxisMotion which SDL_CONTROLLER_AXIS_LEFTX (-32768)
    g).CORE.Input.Gamepad.axisState which GAMEPAD_AXIS_LEFT_X < -1
  rw [h]
  exact axisValue_min

/-! ## Touch re-synchronisation -/

/-- The first loop of `UpdateTouchPointsSDL`, over the reported fingers. -/
theorem touch_loop_fingers (event : SDL_TouchFingerEvent) (screen : Size) (n : Int)
    (t : TouchData) :
    let r := forRange 0 n
      (fun i (a : TouchData) =>
        { a with
          pointId := Function.update a.pointId i (narrowToInt (event.touchFinger i).id),
          position :=
            Function.update a.position i
              ⟨f32 ((event.touchFinger i).x * f32 screen.width),
               f32 ((event.touchFinger i).y * f32 screen.height)⟩,
          currentTouchState := Function.update a.currentTouchState i 1 }) t
    r.pointCount = t.pointCount ∧ r.previousTouchState = t.previousTouchState
    ∧ (∀ j, r.pointId j
        = if 0 ≤ j ∧ j < n then narrowToInt (event.touchFinger j).id else t.pointId j)
    ∧ (∀ j, r.position j
        = if 0 ≤ j ∧ j < n then
            ⟨f32 ((event.touchFinger j).x * f32 screen.width),
             f32 ((event.touchFinger j).y * f32 screen.height)⟩
          else t.position j)
    ∧ ∀ j, r.currentTouchState j = if 0 ≤ j ∧ j < n then 1 else t.currentTouchState j := by
  intro r
  refine ⟨?_, ?_, fun j => ?_, fun j => ?_, fun j => ?_⟩
  · exact forRange_invariant (fun a : TouchData => a.pointCount = t.pointCount) _ _ _ _ rfl
      (fun _ _ h => h)
  · exact forRange_invariant
      (fun a : TouchData => a.previousTouchState = t.previousTouchState) _ _ _ _ rfl
      (fun _ _ h => h)
  · refine forRange_get (fun a : TouchData => a.pointId) (fun i _ => (narrowToInt (event.touchFinger i).id))
      (fun _ => True) _ _ _ _ trivial (fun _ _ _ => trivial) ?_ j
    exact fun _ _ _ => rfl
  · refine forRange_get (fun a : TouchData => a.position)
      (fun i _ => ⟨f32 ((event.touchFinger i).x * f32 screen.width),
        f32 ((event.touchFinger i).y * f32 screen.height)⟩)
      (fun _ => True) _ _ _ _ trivial (fun _ _ _ => trivial) ?_ j
    exact fun _ _ _ => rfl
  · refine forRange_get (fun a : TouchData => a.currentTouchState) (fun _ _ => 1)
      (fun _ => True) _ _ _ _ trivial (fun _ _ _ => trivial) ?_ j
    exact fun _ _ _ => rfl

/-- The second loop of `UpdateTouchPointsSDL`, over the slots from `pointCount`
up to `MAX_TOUCH_POINTS`. -/
theorem touch_loop_clear (lo : Int) (t : TouchData) :
    let r := forRange lo MAX_TOUCH_POINTS
      (fun i (a : TouchData) =>
        { a with currentTouchState := Function.update a.currentTouchState i 0 }) t
    r.pointCount = t.pointCount ∧ r.previousTouchState = t.previousTouchState
    ∧ r.pointId = t.pointId ∧ r.position = t.position
    ∧ ∀ j, r.currentTouchState j
        = if lo ≤ j ∧ j < MAX_TOUCH_POINTS then 0 else t.currentTouchState j := by
  intro r
  refine ⟨?_, ?_, ?_, ?_, fun j => ?_⟩
  · exact forRange_invariant (fun a : TouchData => a.pointCount = t.pointCount) _ _ _ _ rfl
      (fun _ _ h => h)
  · exact forRange_invariant
      (fun a : TouchData => a.previousTouchState = t.previousTouchState) _ _ _ _ rfl
      (fun _ _ h => h)
  · exact forRange_invariant (fun a : TouchData => a.pointId = t.pointId) _ _ _ _ rfl
      (fun _ _ h => h)
  · exact forRange_invariant (fun a : TouchData => a.position = t.position) _ _ _ _ rfl
      (fun _ _ h => h)
  · refine forRange_get (fun a : TouchData => a.currentTouchState) (fun _ _ => 0)
      (fun _ => True) _ _ _ _ trivial (fun _ _ _ => trivial) ?_ j
    exact fun _ _ _ => rfl

/-- Closed form of `UpdateTouchPointsSDL` on the touch section. -/
theorem syncTouchPoints_closed (event : SDL_TouchFingerEvent) (screen : Size) (t : TouchData) :
    (syncTouchPoints event screen t).pointCount = event.numTouchFingers
    ∧ (∀ j, (syncTouchPoints event screen t).pointId j
        = if 0 ≤ j ∧ j < event.numTouchFingers then narrowToInt (event.touchFinger j).id else t.pointId j)
    ∧ (∀ j, (syncTouchPoints event screen t).position j
        = if 0 ≤ j ∧ j < event.numTouchFingers then
            ⟨f32 ((event.touchFinger j).x * f32 screen.width),
             f32 ((event.touchFinger j).y * f32 screen.height)⟩
          else t.position j)
    ∧ ∀ j, (syncTouchPoints event screen t).currentTouchState j
        = if event.numTouchFingers ≤ j ∧ j < MAX_TOUCH_POINTS then 0
          else if 0 ≤ j ∧ j < event.numTouchFingers then 1
          else t.currentTouchState j := by
  obtain ⟨a1, -, a3, a4, a5⟩ := touch_loop_fingers event screen event.numTouchFingers
    { t with pointCount := event.numTouchFingers }
  obtain ⟨b1, -, b3, b4, b5⟩ := touch_loop_clear event.numTouchFingers
    (forRange 0 event.numTouchFingers
      (fun i (a : TouchData) =>
        { a with
          pointId := Function.update a.pointId i (narrowToInt (event.touchFinger i).id),
          position :=
            Function.update a.position i
              ⟨f32 ((event.touchFinger i).x * f32 screen.width),
               f32 ((event.touchFinger i).y * f32 screen.height)⟩,
          currentTouchState := Function.update a.currentTouchState i 1 })
      { t with pointCount := event.numTouchFingers })
  have e : syncTouchPoints event screen t
      = forRange event.numTouchFingers MAX_TOUCH_POINTS
        (fun i (a : TouchData) =>
          { a with currentTouchState := Function.update a.currentTouchState i 0 })
        (forRange 0 event.numTouchFingers
          (fun i (a : TouchData) =>
            { a with
              pointId := Function.update a.pointId i (narrowToInt (event.touchFinger i).id),
              position :=
                Function.update a.position i
                  ⟨f32 ((event.touchFinger i).x * f32 screen.width),
                   f32 ((event.touchFinger i).y * f32 screen.height)⟩,
              currentTouchState := Function.update a.currentTouchState i 1 })
          { t with pointCount := event.numTouchFingers }) := by
    simp only [syncTouchPoints]
    rw [a1]
  rw [e]
  refine ⟨b1.trans a1, fun j => ?_, fun j => ?_, fun j => ?_⟩
  · rw [b3, a3]
  · rw [b4, a4]
  · rw [b5, a5]

/-- C18, as stated, fails: fingers 7 and 8 touch the panel and finger 8 is
lifted; after the re-synchronization against the active set `{7}` slot 1 still
holds the id 8 of the absent finger. -/
theorem stale_point_id_survives_resync :
    oneFinger.numTouchFingers = 1
    ∧ (oneFinger.touchFinger 0).id = 7
    ∧ afterLift.CORE.Input.Touch.pointCount = 1
    ∧ afterLift.CORE.Input.Touch.pointId 0 = 7
    ∧ afterLift.CORE.Input.Touch.pointId 1 = 8 := by
  decide

/-- The narrowing to `int` keeps a value of the 32-bit range. -/
theorem narrowToInt_of_int (v : Int) (h0 : -2147483648 ≤ v) (h1 : v < 2147483648) :
    narrowToInt v = v := by
  unfold narrowToInt
  rw [Int.emod_eq_of_lt (by omega) (by omega)]
  omega

/-- C18, amended: after every touch re-synchronization against a native
active-finger set of size `n <= MAX_TOUCH_POINTS`, `pointCount = n`, slot
`i < n` holds the id of the `i`-th active finger narrowed to `int` (the id
itself when it lies in the 32-bit range) and is active, and every slot `i`
with `n <= i < MAX_TOUCH_POINTS` is inactive (`currentTouchState` 0) while its
`pointId` keeps the value it had before the re-synchronization; no cell
outside the slots `0 .. MAX_TOUCH_POINTS-1` is written. -/
theorem touch_resync_slots (event : SDL_TouchFingerEvent) (g : Globals) (n : Nat)
    (hn : event.numTouchFingers = n) (hmax : n ≤ MAX_TOUCH_POINTS) :
    (UpdateTouchPointsSDL event g).CORE.Input.Touch.pointCount = n
    ∧ (∀ i : Nat, i < n →
      (UpdateTouchPointsSDL event g).CORE.Input.Touch.pointId (i : Int)
          = narrowToInt (event.touchFinger (i : Int)).id
      ∧ (-2147483648 ≤ (event.touchFinger (i : Int)).id
          → (event.touchFinger (i : Int)).id < 2147483648
          → (UpdateTouchPointsSDL event g).CORE.Input.Touch.pointId (i : Int)
              = (event.touchFinger (i : Int)).id)
      ∧ (UpdateTouchPointsSDL event g).CORE.Input.Touch.currentTouchState (i : Int) = 1)
    ∧ (∀ i : Nat, n ≤ i → i < MAX_TOUCH_POINTS →
      (UpdateTouchPointsSDL event g).CORE.Input.Touch.currentTouchState (i : Int) = 0
      ∧ (UpdateTouchPointsSDL event g).CORE.Input.Touch.pointId (i : Int)
          = g.CORE.Input.Touch.pointId (i : Int))
    ∧ (∀ j : Int, ¬ (0 ≤ j ∧ j < MAX_TOUCH_POINTS) →
      (UpdateTouchPointsSDL event g).CORE.Input.Touch.pointId j
          = g.CORE.Input.Touch.pointId j
      ∧ (UpdateTouchPointsSDL event g).CORE.Input.Touch.currentTouchState j
          = g.CORE.Input.Touch.currentTouchState j) := by
  obtain ⟨c1, c2, -, c4⟩ := syncTouchPoints_closed event g.CORE.Window.screen g.CORE.Input.Touch
  show (syncTouchPoints event g.CORE.Window.screen g.CORE.Input.Touch).pointCount = n ∧ _
  have hM : (n : Int) ≤ MAX_TOUCH_POINTS := by exact_mod_cast hmax
  refine ⟨c1.trans hn, fun i hi => ?_, fun i h1 h2 => ?_, fun j hj => ?_⟩
  · have hin : (0 : Int) ≤ (i : Int) ∧ (i : Int) < event.numTouchFingers := by omega
    have hout : ¬ (event.numTouchFingers ≤ (i : Int) ∧ (i : Int) < MAX_TOUCH_POINTS) := by
      omega
    have hid := (c2 i).trans (if_pos hin)
    exact ⟨hid, fun h0 h1 => hid.trans (narrowToInt_of_int _ h0 h1),
      (c4 i).trans ((if_neg hout).trans (if_pos hin))⟩
  · have hin : ¬ ((0 : Int) ≤ (i : Int) ∧ (i : Int) < event.numTouchFingers) := by omega
    have hout : event.numTouchFingers ≤ (i : Int) ∧ (i : Int) < MAX_TOUCH_POINTS := by
      omega
    exact ⟨(c4 i).trans (if_pos hout), (c2 i).trans (if_neg hin)⟩
  · have hin : ¬ ((0 : Int) ≤ j ∧ j < event.numTouchFingers) :=
      fun hh => hj ⟨hh.1, by omega⟩
    have hout : ¬ (event.numTouchFingers ≤ j ∧ j < MAX_TOUCH_POINTS) :=
      fun hh => hj ⟨by omega, hh.2⟩
    exact ⟨(c2 j).trans (if_neg hin), (c4 j).trans ((if_neg hout).trans (if_neg hin))⟩

/-- Witness of C18 (amended): finger 7 alone, re-synchronized on the state in
which fingers 7 and 8 were down. -/
theorem touch_resync_slots_witness :
    oneFinger.numTouchFingers = ((1 : Nat) : Int)
    ∧ 1 ≤ MAX_TOUCH_POINTS
    ∧ (UpdateTouchPointsSDL oneFinger
        (processEvent vitaScreen (.FINGERDOWN twoFingers))).CORE.Input.Touch.pointCount
        = ((1 : Nat) : Int) :=
  ⟨rfl, by decide,
    (touch_resync_slots oneFinger (processEvent vitaScreen (.FINGERDOWN twoFingers)) 1 rfl
      (by decide)).1⟩

theorem f32_natCast (m : Nat) (hm : m < 2 ^ 24) : f32 ((m : Nat) : ℚ) = m := by
  have := f32_intCast (m : Int) (by rw [abs_lt]; constructor <;> omega)
  simpa using this

/-- C19, as stated, fails: fingers 7 and 8 touch the 960 x 544 panel, finger 8
at its centre, and finger 8 is lifted; after the re-synchronization
`pointCount` is 1 and slot 1 is inactive, but its position is still
`(480, 272)`, not `(0, 0)`. -/
theorem inactive_slot_keeps_position :
    afterLift.CORE.Input.Touch.pointCount = 1
    ∧ afterLift.CORE.Input.Touch.currentTouchState 1 = 0
    ∧ afterLift.CORE.Input.Touch.position 1 = ⟨480, 272⟩
    ∧ (⟨480, 272⟩ : Vector2) ≠ ⟨0, 0⟩ := by
  refine ⟨by decide, by decide, ?_, ?_⟩
  · have h : afterLift.CORE.Input.Touch.position 1
        = ⟨f32 ((1 / 2 : ℚ) * f32 ((960 : Nat) : ℚ)), f32 ((1 / 2 : ℚ) * f32 ((544 : Nat) : ℚ))⟩ := by
      show (syncTouchPoints oneFinger _ (syncTouchPoints twoFingers _ _)).position 1 = _
      rw [(syncTouchPoints_closed _ _ _).2.2.1 1, if_neg (by decide),
        (syncTouchPoints_closed _ _ _).2.2.1 1, if_pos (by decide)]
      rfl
    rw [h, f32_natCast 960 (by norm_num), f32_natCast 544 (by norm_num)]
    have e1 : (1 / 2 : ℚ) * ((960 : Nat) : ℚ) = ((480 : Nat) : ℚ) := by norm_num
    have e2 : (1 / 2 : ℚ) * ((544 : Nat) : ℚ) = ((272 : Nat) : ℚ) := by norm_num
    rw [e1, e2, f32_natCast 480 (by norm_num), f32_natCast 272 (by norm_num)]
    norm_num
  · intro h
    have := congrArg Vector2.x h
    norm_num at this

/-- C19, amended: after every touch re-synchronization against a reported
finger count `0 <= pointCount <= MAX_TOUCH_POINTS`, each slot
`0 <= i < pointCount` has `currentTouchState` 1 and the position
`(finger.x * screen.width, finger.y * screen.height)` computed in `float`
arithmetic, and each slot `i` with `pointCount <= i < MAX_TOUCH_POINTS` has
`currentTouchState` 0 and keeps the position it had before the
re-synchronization; no cell outside the slots `0 .. MAX_TOUCH_POINTS-1` is
written. -/
theorem touch_resync_positions (event : SDL_TouchFingerEvent) (g : Globals) (i : Int)
    (hmin : 0 ≤ event.numTouchFingers) (hmax : event.numTouchFingers ≤ MAX_TOUCH_POINTS) :
    (0 ≤ i → i < (UpdateTouchPointsSDL event g).CORE.Input.Touch.pointCount →
      (UpdateTouchPointsSDL event g).CORE.Input.Touch.currentTouchState i = 1
      ∧ (UpdateTouchPointsSDL event g).CORE.Input.Touch.position i
          = ⟨f32 ((event.touchFinger i).x * f32 g.CORE.Window.screen.width),
             f32 ((event.touchFinger i).y * f32 g.CORE.Window.screen.height)⟩)
    ∧ ((UpdateTouchPointsSDL event g).CORE.Input.Touch.pointCount ≤ i → i < MAX_TOUCH_POINTS →
      (UpdateTouchPointsSDL event g).CORE.Input.Touch.currentTouchState i = 0
      ∧ (UpdateTouchPointsSDL event g).CORE.Input.Touch.position i
          = g.CORE.Input.Touch.position i)
    ∧ (¬ (0 ≤ i ∧ i < MAX_TOUCH_POINTS) →
      (UpdateTouchPointsSDL event g).CORE.Input.Touch.currentTouchState i
          = g.CORE.Input.Touch.currentTouchState i
      ∧ (UpdateTouchPointsSDL event g).CORE.Input.Touch.position i
          = g.CORE.Input.Touch.position i) := by
  obtain ⟨c1, -, c3, c4⟩ := syncTouchPoints_closed event g.CORE.Window.screen g.CORE.Input.Touch
  show (_ → _ < (syncTouchPoints event g.CORE.Window.screen g.CORE.Input.Touch).pointCount → _)
    ∧ ((syncTouchPoints event g.CORE.Window.screen g.CORE.Input.Touch).pointCount ≤ _ → _)
    ∧ _
  rw [c1]
  refine ⟨fun h0 h1 => ?_, fun h0 h1 => ?_, fun hi => ?_⟩
  · have hin : (0 : Int) ≤ i ∧ i < event.numTouchFingers := ⟨h0, h1⟩
    have hout : ¬ (event.numTouchFingers ≤ i ∧ i < MAX_TOUCH_POINTS) := by omega
    exact ⟨(c4 i).trans ((if_neg hout).trans (if_pos hin)), (c3 i).trans (if_pos hin)⟩
  · have hin : ¬ ((0 : Int) ≤ i ∧ i < event.numTouchFingers) := by omega
    exact ⟨(c4 i).trans (if_pos ⟨h0, h1⟩), (c3 i).trans (if_neg hin)⟩
  · have hin : ¬ ((0 : Int) ≤ i ∧ i < event.numTouchFingers) :=
      fun hh => hi ⟨hh.1, by omega⟩
    have hout : ¬ (event.numTouchFingers ≤ i ∧ i < MAX_TOUCH_POINTS) :=
      fun hh => hi ⟨by omega, hh.2⟩
    exact ⟨(c4 i).trans ((if_neg hout).trans (if_neg hin)), (c3 i).trans (if_neg hin)⟩

/-- Witness of C19 (amended): slots 0 and 1 after finger 8 is lifted. -/
theorem touch_resync_positions_witness :
    (UpdateTouchPointsSDL oneFinger
        (processEvent vitaScreen (.FINGERDOWN twoFingers))).CORE.Input.Touch.currentTouchState 0
        = 1
    ∧ (UpdateTouchPointsSDL oneFinger
        (processEvent vitaScreen (.FINGERDOWN twoFingers))).CORE.Input.Touch.position 1
        = (processEvent vitaScreen (.FINGERDOWN twoFingers)).CORE.Input.Touch.position 1 :=
  ⟨((touch_resync_positions oneFinger (processEvent vitaScreen (.FINGERDOWN twoFingers)) 0
      (by decide) (by decide)).1 (by decide) (by decide)).1,
    ((touch_resync_positions oneFinger (processEvent vitaScreen (.FINGERDOWN twoFingers)) 1
      (by decide) (by decide)).2.1 (by decide) (by decide)).2⟩

/-! ## Per-frame transient fields -/

theorem KeyboardData.eq_of_fields (a b : KeyboardData) (h1 : a.exitKey = b.exitKey)
    (h2 : a.currentKeyState = b.currentKeyState) (h3 : a.previousKeyState = b.previousKeyState)
    (h4 : a.keyRepeatInFrame = b.keyRepeatInFrame) (h5 : a.keyPressedQueue = b.keyPressedQueue)
    (h6 : a.keyPressedQueueCount = b.keyPressedQueueCount)
    (h7 : a.charPressedQueue = b.charPressedQueue)
    (h8 : a.charPressedQueueCount = b.charPressedQueueCount) : a = b := by
  cases a
  cases b
  simp only [KeyboardData.mk.injEq]
  exact ⟨h1, h2, h3, h4, h5, h6, h7, h8⟩

theorem Globals.eq_of_sections (a b : Globals) (hw : a.CORE.Window = b.CORE.Window)
    (hk : a.CORE.Input.Keyboard = b.CORE.Input.Keyboard)
    (hm : a.CORE.Input.Mouse = b.CORE.Input.Mouse)
    (ht : a.CORE.Input.Touch = b.CORE.Input.Touch)
    (hg : a.CORE.Input.Gamepad = b.CORE.Input.Gamepad)
    (hp : a.platform = b.platform) : a = b := by
  obtain ⟨⟨aw, ⟨ak, am, at', ag⟩⟩, ap⟩ := a
  obtain ⟨⟨bw, ⟨bk, bm, bt, bg⟩⟩, bp⟩ := b
  simp only at hw hk hm ht hg hp
  subst hw hk hm ht hg hp
  rfl

theorem registerPrevious_Window (numJoysticks : Int) (g : Globals) :
    (registerPrevious numJoysticks g).CORE.Window
      = { g.CORE.Window with resizedLastFrame := false }
    ∧ (registerPrevious numJoysticks g).platform = g.platform := by
  unfold registerPrevious
  cases h : g.platform.cursorRelative <;> simp [h]

/-- The state after the registration step does not depend on the values that
the per-frame transient fields had before it. -/
theorem registerPrevious_forgets_transients (numJoysticks : Int) (g : Globals) (c1 c2 : Int)
    (w : Vector2) (r : Int → Nat) :
    registerPrevious numJoysticks
        { g with
          CORE.Input.Keyboard.keyPressedQueueCount := c1,
          CORE.Input.Keyboard.charPressedQueueCount := c2,
          CORE.Input.Mouse.currentWheelMove := w,
          CORE.Input.Keyboard.keyRepeatInFrame :=
            fun i => if 0 ≤ i ∧ i < MAX_KEYBOARD_KEYS then r i
              else g.CORE.Input.Keyboard.keyRepeatInFrame i }
      = registerPrevious numJoysticks g := by
  apply Globals.eq_of_sections
  · rw [(registerPrevious_Window _ _).1, (registerPrevious_Window _ _).1]
  · rw [registerPrevious_Keyboard, registerPrevious_Keyboard]
    obtain ⟨a1, a2, a3, a4, a5, a6⟩ := registerPreviousKeyStates_frame
      { g.CORE.Input.Keyboard with keyPressedQueueCount := 0, charPressedQueueCount := 0 }
    obtain ⟨b1, b2, b3, b4, b5, b6⟩ := registerPreviousKeyStates_frame
      { ({ g with
          CORE.Input.Keyboard.keyPressedQueueCount := c1,
          CORE.Input.Keyboard.charPressedQueueCount := c2,
          CORE.Input.Mouse.currentWheelMove := w,
          CORE.Input.Keyboard.keyRepeatInFrame :=
            fun i => if 0 ≤ i ∧ i < MAX_KEYBOARD_KEYS then r i
              else g.CORE.Input.Keyboard.keyRepeatInFrame i } : Globals).CORE.Input.Keyboard with
        keyPressedQueueCount := 0, charPressedQueueCount := 0 }
    apply KeyboardData.eq_of_fields
    · rw [a1, b1]
    · rw [a2, b2]
    · funext j
      rw [registerPreviousKeyStates_previous, registerPreviousKeyStates_previous]
    · funext j
      rw [registerPreviousKeyStates_repeat, registerPreviousKeyStates_repeat]
      by_cases hj : 0 ≤ j ∧ j < MAX_KEYBOARD_KEYS
      · rw [if_pos hj, if_pos hj]
      · rw [if_neg hj, if_neg hj]
        exact if_neg hj
    · rw [a3, b3]
    · rw [a4, b4]
    · rw [a5, b5]
    · rw [a6, b6]
  · rw [registerPrevious_Mouse, registerPrevious_Mouse]
  · rw [registerPrevious_Touch, registerPrevious_Touch]
  · rw [registerPrevious_Gamepad, registerPrevious_Gamepad]
  · rw [(registerPrevious_Window _ _).2, (registerPrevious_Window _ _).2]

/-- C20: the per-frame transient fields do not survive a poll: for every state,
after `PollInputEvents` with an empty event queue `keyPressedQueueCount = 0`,
`charPressedQueueCount = 0`, `currentWheelMove = (0,0)` and
`keyRepeatInFrame[i] = 0` for every `i < MAX_KEYBOARD_KEYS`; and for any event
queue the state after the poll, these fields included, is the same whatever
values these fields had before the poll. -/
theorem transient_fields_reset (numJoysticks : Int) (queue : List SDL_Event) (g : Globals)
    (c1 c2 : Int) (w : Vector2) (r : Int → Nat) :
    (PollInputEvents numJoysticks [] g).CORE.Input.Keyboard.keyPressedQueueCount = 0
    ∧ (PollInputEvents numJoysticks [] g).CORE.Input.Keyboard.charPressedQueueCount = 0
    ∧ (PollInputEvents numJoysticks [] g).CORE.Input.Mouse.currentWheelMove = ⟨0, 0⟩
    ∧ (∀ i : Fin MAX_KEYBOARD_KEYS,
        (PollInputEvents numJoysticks [] g).CORE.Input.Keyboard.keyRepeatInFrame (i : Nat) = 0)
    ∧ PollInputEvents numJoysticks queue
        { g with
          CORE.Input.Keyboard.keyPressedQueueCount := c1,
          CORE.Input.Keyboard.charPressedQueueCount := c2,
          CORE.Input.Mouse.currentWheelMove := w,
          CORE.Input.Keyboard.keyRepeatInFrame :=
            fun i => if 0 ≤ i ∧ i < MAX_KEYBOARD_KEYS then r i
              else g.CORE.Input.Keyboard.keyRepeatInFrame i }
      = PollInputEvents numJoysticks queue g := by
  obtain ⟨r1, r2⟩ := registerPrevious_queue_counts numJoysticks g
  refine ⟨r1, r2, registerPrevious_currentWheelMove numJoysticks g, fun i => ?_, ?_⟩
  · have hi : (0 : Int) ≤ ((i : Nat) : Int) ∧ ((i : Nat) : Int) < MAX_KEYBOARD_KEYS :=
      ⟨by omega, by exact_mod_cast i.isLt⟩
    have e : PollInputEvents numJoysticks [] g = registerPrevious numJoysticks g := rfl
    rw [e, registerPrevious_Keyboard, registerPreviousKeyStates_repeat, if_pos hi]
  · unfold PollInputEvents
    rw [registerPrevious_forgets_transients]

/-! ## Mouse position -/

/-- No event handler assigns `platform.cursorRelative` (a handle stored past
the end of `platform.gamepad` is the matter of `storesInBounds`). -/
theorem processEvent_cursorRelative (g : Globals) (event : SDL_Event) :
    (processEvent g event).platform.cursorRelative = g.platform.cursorRelative := by
  cases event with
  | QUIT => rfl
  | DROPFILE file =>
    simp only [processEvent, onDropFile]
    split_ifs <;> rfl
  | WINDOWEVENT event data1 data2 => cases event <;> rfl
  | KEYDOWN scancode rep =>
    simp only [processEvent, onKeyDown]
    split_ifs <;> rfl
  | KEYUP scancode =>
    simp only [processEvent, onKeyUp]
    split_ifs <;> rfl
  | TEXTINPUT text =>
    simp only [processEvent, onTextInput]
    split_ifs <;> rfl
  | MOUSEBUTTONDOWN button => rfl
  | MOUSEBUTTONUP button => rfl
  | MOUSEWHEEL x y => rfl
  | MOUSEMOTION x y xrel yrel =>
    simp only [processEvent, onMouseMotion]
    split_ifs <;> rfl
  | FINGERDOWN tfinger => rfl
  | FINGERUP tfinger => rfl
  | FINGERMOTION tfinger => rfl
  | JOYDEVICEADDED which opened nameForIndex =>
    simp only [processEvent, onJoyDeviceAdded]
    split_ifs
    · cases opened <;> simp [Function.update_same]
    · rfl
  | JOYDEVICEREMOVED which reopened =>
    simp only [processEvent, onJoyDeviceRemoved]
    split_ifs <;> rfl
  | CONTROLLERBUTTONDOWN which button =>
    simp only [processEvent, onControllerButtonDown]
    split_ifs <;> rfl
  | CONTROLLERBUTTONUP which button =>
    simp only [processEvent, onControllerButtonUp]
    split_ifs <;> rfl
  | CONTROLLERAXISMOTION which axis value =>
    simp only [processEvent, onControllerAxisMotion]
    split_ifs <;> rfl
  | OTHER => rfl

theorem foldl_processEvent_cursorRelative (queue : List SDL_Event) (g : Globals) :
    (queue.foldl processEvent g).platform.cursorRelative = g.platform.cursorRelative := by
  induction queue generalizing g with
  | nil => rfl
  | cons e es ih => rw [List.foldl_cons, ih, processEvent_cursorRelative]

/-- Only mouse-motion events write the two mouse positions. -/
theorem processEvent_positions (g : Globals) (event : SDL_Event)
    (hm : ∀ x y xrel yrel, event ≠ .MOUSEMOTION x y xrel yrel) :
    (processEvent g event).CORE.Input.Mouse.currentPosition
        = g.CORE.Input.Mouse.currentPosition
    ∧ (processEvent g event).CORE.Input.Mouse.previousPosition
        = g.CORE.Input.Mouse.previousPosition := by
  cases event with
  | QUIT => exact ⟨rfl, rfl⟩
  | DROPFILE file =>
    simp only [processEvent, onDropFile]
    split_ifs <;> exact ⟨rfl, rfl⟩
  | WINDOWEVENT event data1 data2 => cases event <;> exact ⟨rfl, rfl⟩
  | KEYDOWN scancode rep =>
    simp only [processEvent, onKeyDown]
    split_ifs <;> exact ⟨rfl, rfl⟩
  | KEYUP scancode =>
    simp only [processEvent, onKeyUp]
    split_ifs <;> exact ⟨rfl, rfl⟩
  | TEXTINPUT text =>
    simp only [processEvent, onTextInput]
    split_ifs <;> exact ⟨rfl, rfl⟩
  | MOUSEBUTTONDOWN button => exact ⟨rfl, rfl⟩
  | MOUSEBUTTONUP button => exact ⟨rfl, rfl⟩
  | MOUSEWHEEL x y => exact ⟨rfl, rfl⟩
  | MOUSEMOTION x y xrel yrel => exact absurd rfl (hm x y xrel yrel)
  | FINGERDOWN tfinger => exact ⟨rfl, rfl⟩
  | FINGERUP tfinger => exact ⟨rfl, rfl⟩
  | FINGERMOTION tfinger => exact ⟨rfl, rfl⟩
  | JOYDEVICEADDED which opened nameForIndex =>
    simp only [processEvent, onJoyDeviceAdded]
    split_ifs
    · cases opened <;> simp [Function.update_same]
    · exact ⟨rfl, rfl⟩
  | JOYDEVICEREMOVED which reopened =>
    simp only [processEvent, onJoyDeviceRemoved]
    split_ifs <;> exact ⟨rfl, rfl⟩
  | CONTROLLERBUTTONDOWN which button =>
    simp only [processEvent, onControllerButtonDown]
    split_ifs <;> exact ⟨rfl, rfl⟩
  | CONTROLLERBUTTONUP which button =>
    simp only [processEvent, onControllerButtonUp]
    split_ifs <;> exact ⟨rfl, rfl⟩
  | CONTROLLERAXISMOTION which axis value =>
    simp only [processEvent, onControllerAxisMotion]
    split_ifs <;> exact ⟨rfl, rfl⟩
  | OTHER => exact ⟨rfl, rfl⟩

theorem foldl_processEvent_positions (queue : List SDL_Event) (g : Globals)
    (hq : ∀ x y xrel yrel, SDL_Event.MOUSEMOTION x y xrel yrel ∉ queue) :
    (queue.foldl processEvent g).CORE.Input.Mouse.currentPosition
        = g.CORE.Input.Mouse.currentPosition
    ∧ (queue.foldl processEvent g).CORE.Input.Mouse.previousPosition
        = g.CORE.Input.Mouse.previousPosition := by
  induction queue generalizing g with
  | nil => exact ⟨rfl, rfl⟩
  | cons e es ih =>
    have h1 := ih (processEvent g e)
      (fun x y xrel yrel hh => hq x y xrel yrel (List.mem_cons_of_mem _ hh))
    have h2 := processEvent_positions g e
      (fun x y xrel yrel hh => hq x y xrel yrel (by rw [hh]; exact List.mem_cons_self _ _))
    rw [List.foldl_cons, h1.1, h1.2]
    exact h2

/-- In absolute mode no event writes `previousPosition`. -/
theorem foldl_processEvent_previousPosition (queue : List SDL_Event) (g : Globals)
    (habs : g.platform.cursorRelative = false) :
    (queue.foldl processEvent g).CORE.Input.Mouse.previousPosition
        = g.CORE.Input.Mouse.previousPosition := by
  induction queue generalizing g with
  | nil => rfl
  | cons e es ih =>
    rw [List.foldl_cons, ih _ (by rw [processEvent_cursorRelative]; exact habs)]
    by_cases hm : ∃ x y xrel yrel, e = .MOUSEMOTION x y xrel yrel
    · obtain ⟨x, y, xrel, yrel, rfl⟩ := hm
      simp only [processEvent, onMouseMotion, habs]
      rfl
    · exact (processEvent_positions g e
        (fun x y xrel yrel hh => hm ⟨x, y, xrel, yrel, hh⟩)).2

/-- The mouse positions after the registration step of a poll. -/
theorem registerPrevious_positions (numJoysticks : Int) (g : Globals) :
    (registerPrevious numJoysticks g).CORE.Input.Mouse.currentPosition
        = (if g.platform.cursorRelative then ⟨0, 0⟩ else g.CORE.Input.Mouse.currentPosition)
    ∧ (registerPrevious numJoysticks g).CORE.Input.Mouse.previousPosition
        = (if g.platform.cursorRelative then g.CORE.Input.Mouse.previousPosition
            else g.CORE.Input.Mouse.currentPosition)
    ∧ (registerPrevious numJoysticks g).platform.cursorRelative = g.platform.cursorRelative := by
  rw [registerPrevious_Mouse, (registerPrevious_Window numJoysticks g).2]
  rw [(registerPreviousMouseButtons_frame _).1, (registerPreviousMouseButtons_frame _).2.1]
  cases g.platform.cursorRelative <;> exact ⟨rfl, rfl, rfl⟩

/-- C21, as stated, fails: after the cursor is locked while `previousPosition`
still holds the absolute position (100, 200), a poll of a frame without any
motion event leaves `currentPosition = (0,0)` and `previousPosition =
(100, 200)`, so the delta is (-100, -200) and not (0,0). -/
theorem relative_idle_frame_delta_not_zero :
    lockedAfterMove.platform.cursorRelative = true
    ∧ (PollInputEvents 0 [] lockedAfterMove).CORE.Input.Mouse.currentPosition.x
        - (PollInputEvents 0 [] lockedAfterMove).CORE.Input.Mouse.previousPosition.x = -100
    ∧ (PollInputEvents 0 [] lockedAfterMove).CORE.Input.Mouse.currentPosition.y
        - (PollInputEvents 0 [] lockedAfterMove).CORE.Input.Mouse.previousPosition.y = -200
    ∧ (PollInputEvents 0 [] lockedAfterMove).CORE.Input.Mouse.currentPosition.x
        - (PollInputEvents 0 [] lockedAfterMove).CORE.Input.Mouse.previousPosition.x ≠ 0 := by
  have hc : (PollInputEvents 0 [] lockedAfterMove).CORE.Input.Mouse.currentPosition
      = ⟨0, 0⟩ := rfl
  have hp : (PollInputEvents 0 [] lockedAfterMove).CORE.Input.Mouse.previousPosition
      = ⟨f32 ((100 : Int) : ℚ), f32 ((200 : Int) : ℚ)⟩ := rfl
  rw [hc, hp, f32_intCast 100 (by decide), f32_intCast 200 (by decide)]
  refine ⟨rfl, ?_, ?_, ?_⟩ <;> norm_num

/-! ## Closing the window -/

/-- No event handler writes the exit key, and none clears `shouldClose`. -/
theorem processEvent_exitKey_shouldClose (g : Globals) (event : SDL_Event) :
    (processEvent g event).CORE.Input.Keyboard.exitKey = g.CORE.Input.Keyboard.exitKey
    ∧ (g.CORE.Window.shouldClose = true →
        (processEvent g event).CORE.Window.shouldClose = true) := by
  cases event with
  | QUIT => exact ⟨rfl, fun _ => rfl⟩
  | DROPFILE file =>
    simp only [processEvent, onDropFile]
    split_ifs <;> exact ⟨rfl, fun h => h⟩
  | WINDOWEVENT event data1 data2 => cases event <;> exact ⟨rfl, fun h => h⟩
  | KEYDOWN scancode rep =>
    simp only [processEvent, onKeyDown]
    split_ifs <;> first | exact ⟨rfl, fun h => h⟩ | exact ⟨rfl, fun _ => rfl⟩
  | KEYUP scancode =>
    simp only [processEvent, onKeyUp]
    split_ifs <;> exact ⟨rfl, fun h => h⟩
  | TEXTINPUT text =>
    simp only [processEvent, onTextInput]
    split_ifs <;> exact ⟨rfl, fun h => h⟩
  | MOUSEBUTTONDOWN button => exact ⟨rfl, fun h => h⟩
  | MOUSEBUTTONUP button => exact ⟨rfl, fun h => h⟩
  | MOUSEWHEEL x y => exact ⟨rfl, fun h => h⟩
  | MOUSEMOTION x y xrel yrel =>
    simp only [processEvent, onMouseMotion]
    split_ifs <;> exact ⟨rfl, fun h => h⟩
  | FINGERDOWN tfinger => exact ⟨rfl, fun h => h⟩
  | FINGERUP tfinger => exact ⟨rfl, fun h => h⟩
  | FINGERMOTION tfinger => exact ⟨rfl, fun h => h⟩
  | JOYDEVICEADDED which opened nameForIndex =>
    simp only [processEvent, onJoyDeviceAdded]
    split_ifs
    · cases opened <;> simp [Function.update_same]
    · exact ⟨rfl, fun h => h⟩
  | JOYDEVICEREMOVED which reopened =>
    simp only [processEvent, onJoyDeviceRemoved]
    split_ifs <;> exact ⟨rfl, fun h => h⟩
  | CONTROLLERBUTTONDOWN which button =>
    simp only [processEvent, onControllerButtonDown]
    split_ifs <;> exact ⟨rfl, fun h => h⟩
  | CONTROLLERBUTTONUP which button =>
    simp only [processEvent, onControllerButtonUp]
    split_ifs <;> exact ⟨rfl, fun h => h⟩
  | CONTROLLERAXISMOTION which axis value =>
    simp only [processEvent, onControllerAxisMotion]
    split_ifs <;> exact ⟨rfl, fun h => h⟩
  | OTHER => exact ⟨rfl, fun h => h⟩

theorem foldl_processEvent_exitKey_shouldClose (queue : List SDL_Event) (g : Globals) :
    (queue.foldl processEvent g).CORE.Input.Keyboard.exitKey = g.CORE.Input.Keyboard.exitKey
    ∧ (g.CORE.Window.shouldClose = true →
        (queue.foldl processEvent g).CORE.Window.shouldClose = true) := by
  induction queue generalizing g with
  | nil => exact ⟨rfl, fun h => h⟩
  | cons e es ih =>
    rw [List.foldl_cons]
    exact ⟨(ih _).1.trans (processEvent_exitKey_shouldClose g e).1,
      fun h => (ih _).2 ((processEvent_exitKey_shouldClose g e).2 h)⟩

/-- A key-down event for the scancode mapped to the exit key requests the
close, when the exit key is not `KEY_NULL`. -/
theorem onKeyDown_exit_key (sc : Int) (rep : Bool) (g : Globals)
    (hk : ConvertScancodeToKey sc = g.CORE.Input.Keyboard.exitKey)
    (hn : g.CORE.Input.Keyboard.exitKey ≠ KEY_NULL) :
    (onKeyDown sc rep g).CORE.Window.shouldClose = true := by
  have hcur : ∀ m : Globals, m.CORE.Input.Keyboard.exitKey = g.CORE.Input.Keyboard.exitKey →
      m.CORE.Input.Keyboard.currentKeyState (g.CORE.Input.Keyboard.exitKey) = 1 →
      (if m.CORE.Input.Keyboard.currentKeyState m.CORE.Input.Keyboard.exitKey ≠ 0 then
        ({ m with CORE.Window.shouldClose := true } : Globals)
      else m).CORE.Window.shouldClose = true := by
    intro m h1 h2
    rw [h1, h2, if_pos (by decide)]
  unfold onKeyDown
  simp only [hk, if_pos hn]
  apply hcur
  · split_ifs <;> rfl
  · split_ifs <;> simp [Function.update_same]

theorem registerPrevious_exitKey (numJoysticks : Int) (g : Globals) :
    (registerPrevious numJoysticks g).CORE.Input.Keyboard.exitKey
      = g.CORE.Input.Keyboard.exitKey := by
  rw [registerPrevious_Keyboard, (registerPreviousKeyStates_frame _).1]

/-- C22: after a poll whose event queue contains a quit event, or a key-down
event for the scancode mapped to the configured exit key (exit key not
`KEY_NULL`), `window.shouldClose` is true; and `WindowShouldClose` returns
`shouldClose` when the window is ready and true when it is not ready. -/
theorem shouldClose_after_quit_or_exit_key (numJoysticks : Int) (queue : List SDL_Event)
    (g s : Globals)
    (h : SDL_Event.QUIT ∈ queue
      ∨ ∃ sc rep, SDL_Event.KEYDOWN sc rep ∈ queue
          ∧ ConvertScancodeToKey sc = g.CORE.Input.Keyboard.exitKey
          ∧ g.CORE.Input.Keyboard.exitKey ≠ KEY_NULL) :
    (PollInputEvents numJoysticks queue g).CORE.Window.shouldClose = true
    ∧ (s.CORE.Window.ready = true → WindowShouldClose s = s.CORE.Window.shouldClose)
    ∧ (s.CORE.Window.ready = false → WindowShouldClose s = true) := by
  refine ⟨?_, fun hr => ?_, fun hr => ?_⟩
  · unfold PollInputEvents
    rcases h with h | ⟨sc, rep, hmem, hk, hn⟩
    · obtain ⟨before, after, rfl⟩ := List.append_of_mem h
      rw [List.foldl_append, List.foldl_cons]
      exact (foldl_processEvent_exitKey_shouldClose after _).2 rfl
    · obtain ⟨before, after, rfl⟩ := List.append_of_mem hmem
      rw [List.foldl_append, List.foldl_cons]
      apply (foldl_processEvent_exitKey_shouldClose after _).2
      have hx : (before.foldl processEvent (registerPrevious numJoysticks g)
          ).CORE.Input.Keyboard.exitKey = g.CORE.Input.Keyboard.exitKey := by
        rw [(foldl_processEvent_exitKey_shouldClose before _).1, registerPrevious_exitKey]
      exact onKeyDown_exit_key sc rep _ (by rw [hx]; exact hk) (by rw [hx]; exact hn)
  · unfold WindowShouldClose
    rw [if_pos hr]
  · unfold WindowShouldClose
    rw [if_neg (by rw [hr]; decide)]

/-- Witness of C22: a quit event polled in the zero state, and a key-down of
scancode 20 (`Q`) polled in a state whose exit key is `KEY_Q`. -/
theorem shouldClose_after_quit_or_exit_key_witness :
    (PollInputEvents 0 [.QUIT] zeroGlobals).CORE.Window.shouldClose = true
    ∧ (PollInputEvents 0 [.KEYDOWN 20 false] exitKeyHeld).CORE.Window.shouldClose = true
    ∧ WindowShouldClose zeroGlobals = true :=
  ⟨(shouldClose_after_quit_or_exit_key 0 [.QUIT] zeroGlobals zeroGlobals
      (Or.inl (List.mem_singleton.mpr rfl))).1,
    (shouldClose_after_quit_or_exit_key 0 [.KEYDOWN 20 false] exitKeyHeld zeroGlobals
      (Or.inr ⟨20, false, List.mem_singleton.mpr rfl, by decide, by decide⟩)).1,
    (shouldClose_after_quit_or_exit_key 0 [.QUIT] zeroGlobals zeroGlobals
      (Or.inl (List.mem_singleton.mpr rfl))).2.2 rfl⟩

/-! ## Window resize -/

/-- Only resized/size-changed window events write the resize flag and the
window sizes, and no handler clears the flag. -/
theorem processEvent_sizes (g : Globals) (event : SDL_Event) :
    (g.CORE.Window.resizedLastFrame = true →
      (processEvent g event).CORE.Window.resizedLastFrame = true)
    ∧ ((∀ w h, event ≠ .WINDOWEVENT .RESIZED w h ∧ event ≠ .WINDOWEVENT .SIZE_CHANGED w h) →
      (processEvent g event).CORE.Window.resizedLastFrame = g.CORE.Window.resizedLastFrame
      ∧ (processEvent g event).CORE.Window.screen = g.CORE.Window.screen
      ∧ (processEvent g event).CORE.Window.render = g.CORE.Window.render
      ∧ (processEvent g event).CORE.Window.currentFbo = g.CORE.Window.currentFbo) := by
  cases event with
  | QUIT => exact ⟨fun h => h, fun _ => ⟨rfl, rfl, rfl, rfl⟩⟩
  | DROPFILE file =>
    simp only [processEvent, onDropFile]
    split_ifs <;> exact ⟨fun h => h, fun _ => ⟨rfl, rfl, rfl, rfl⟩⟩
  | WINDOWEVENT event data1 data2 =>
    cases event with
    | RESIZED => exact ⟨fun _ => rfl, fun hn => absurd rfl (hn data1 data2).1⟩
    | SIZE_CHANGED => exact ⟨fun _ => rfl, fun hn => absurd rfl (hn data1 data2).2⟩
    | ENTER => exact ⟨fun h => h, fun _ => ⟨rfl, rfl, rfl, rfl⟩⟩
    | LEAVE => exact ⟨fun h => h, fun _ => ⟨rfl, rfl, rfl, rfl⟩⟩
    | OTHER => exact ⟨fun h => h, fun _ => ⟨rfl, rfl, rfl, rfl⟩⟩
  | KEYDOWN scancode rep =>
    simp only [processEvent, onKeyDown]
    split_ifs <;> exact ⟨fun h => h, fun _ => ⟨rfl, rfl, rfl, rfl⟩⟩
  | KEYUP scancode =>
    simp only [processEvent, onKeyUp]
    split_ifs <;> exact ⟨fun h => h, fun _ => ⟨rfl, rfl, rfl, rfl⟩⟩
  | TEXTINPUT text =>
    simp only [processEvent, onTextInput]
    split_ifs <;> exact ⟨fun h => h, fun _ => ⟨rfl, rfl, rfl, rfl⟩⟩
  | MOUSEBUTTONDOWN button => exact ⟨fun h => h, fun _ => ⟨rfl, rfl, rfl, rfl⟩⟩
  | MOUSEBUTTONUP button => exact ⟨fun h => h, fun _ => ⟨rfl, rfl, rfl, rfl⟩⟩
  | MOUSEWHEEL x y => exact ⟨fun h => h, fun _ => ⟨rfl, rfl, rfl, rfl⟩⟩
  | MOUSEMOTION x y xrel yrel =>
    simp only [processEvent, onMouseMotion]
    split_ifs <;> exact ⟨fun h => h, fun _ => ⟨rfl, rfl, rfl, rfl⟩⟩
  | FINGERDOWN tfinger => exact ⟨fun h => h, fun _ => ⟨rfl, rfl, rfl, rfl⟩⟩
  | FINGERUP tfinger => exact ⟨fun h => h, fun _ => ⟨rfl, rfl, rfl, rfl⟩⟩
  | FINGERMOTION tfinger => exact ⟨fun h => h, fun _ => ⟨rfl, rfl, rfl, rfl⟩⟩
  | JOYDEVICEADDED which opened nameForIndex =>
    simp only [processEvent, onJoyDeviceAdded]
    split_ifs
    · cases opened <;> simp [Function.update_same]
    · exact ⟨fun h => h, fun _ => ⟨rfl, rfl, rfl, rfl⟩⟩
  | JOYDEVICEREMOVED which reopened =>
    simp only [processEvent, onJoyDeviceRemoved]
    split_ifs <;> exact ⟨fun h => h, fun _ => ⟨rfl, rfl, rfl, rfl⟩⟩
  | CONTROLLERBUTTONDOWN which button =>
    simp only [processEvent, onControllerButtonDown]
    split_ifs <;> exact ⟨fun h => h, fun _ => ⟨rfl, rfl, rfl, rfl⟩⟩
  | CONTROLLERBUTTONUP which button =>
    simp only [processEvent, onControllerButtonUp]
    split_ifs <;> exact ⟨fun h => h, fun _ => ⟨rfl, rfl, rfl, rfl⟩⟩
  | CONTROLLERAXISMOTION which axis value =>
    simp only [processEvent, onControllerAxisMotion]
    split_ifs <;> exact ⟨fun h => h, fun _ => ⟨rfl, rfl, rfl, rfl⟩⟩
  | OTHER => exact ⟨fun h => h, fun _ => ⟨rfl, rfl, rfl, rfl⟩⟩

theorem foldl_processEvent_resized (queue : List SDL_Event) (g : Globals)
    (h : g.CORE.Window.resizedLastFrame = true) :
    (queue.foldl processEvent g).CORE.Window.resizedLastFrame = true := by
  induction queue generalizing g with
  | nil => exact h
  | cons e es ih =>
    rw [List.foldl_cons]
    exact ih _ ((processEvent_sizes g e).1 h)

theorem foldl_processEvent_sizes (queue : List SDL_Event) (g : Globals)
    (hq : ∀ w h, SDL_Event.WINDOWEVENT .RESIZED w h ∉ queue
      ∧ SDL_Event.WINDOWEVENT .SIZE_CHANGED w h ∉ queue) :
    (queue.foldl processEvent g).CORE.Window.resizedLastFrame = g.CORE.Window.resizedLastFrame
    ∧ (queue.foldl processEvent g).CORE.Window.screen = g.CORE.Window.screen
    ∧ (queue.foldl processEvent g).CORE.Window.render = g.CORE.Window.render
    ∧ (queue.foldl processEvent g).CORE.Window.currentFbo = g.CORE.Window.currentFbo := by
  induction queue generalizing g with
  | nil => exact ⟨rfl, rfl, rfl, rfl⟩
  | cons e es ih =>
    obtain ⟨a1, a2, a3, a4⟩ := ih (processEvent g e)
      (fun w h => ⟨fun hh => (hq w h).1 (List.mem_cons_of_mem _ hh),
        fun hh => (hq w h).2 (List.mem_cons_of_mem _ hh)⟩)
    obtain ⟨b1, b2, b3, b4⟩ := (processEvent_sizes g e).2
      (fun w h => ⟨fun hh => (hq w h).1 (by rw [hh]; exact List.mem_cons_self _ _),
        fun hh => (hq w h).2 (by rw [hh]; exact List.mem_cons_self _ _)⟩)
    rw [List.foldl_cons, a1, a2, a3, a4]
    exact ⟨b1, b2, b3, b4⟩

/-- The window section right after a resized/size-changed event. -/
theorem onWindowEvent_resize (id : SDL_WindowEventID) (w h : Int) (g : Globals)
    (hid : id = .RESIZED ∨ id = .SIZE_CHANGED) :
    (onWindowEvent id w h g).CORE.Window.resizedLastFrame = true
    ∧ (onWindowEvent id w h g).CORE.Window.screen = ⟨toUnsigned w, toUnsigned h⟩
    ∧ (onWindowEvent id w h g).CORE.Window.render = ⟨toUnsigned w, toUnsigned h⟩
    ∧ (onWindowEvent id w h g).CORE.Window.currentFbo = ⟨toUnsigned w, toUnsigned h⟩ := by
  rcases hid with rfl | rfl <;> exact ⟨rfl, rfl, rfl, rfl⟩

theorem toUnsigned_of_nonneg (v : Int) (h0 : 0 ≤ v) (h1 : v < 2 ^ 31) :
    ((toUnsigned v : Nat) : Int) = v := by
  unfold toUnsigned
  rw [Int.emod_eq_of_lt h0 (by omega)]
  omega

/-- C23: after `PollInputEvents`, `window.resizedLastFrame` is true exactly
when the drained queue contained at least one window resized/size-changed
event; in that case the screen, render and current-framebuffer width and
height all equal the width and height carried by the last such event (stored
as `unsigned int`, the carried values themselves when they are not negative),
and otherwise they are unchanged. -/
theorem resize_tracking (numJoysticks : Int) (g : Globals)
    (before after queue : List SDL_Event) (id : SDL_WindowEventID) (w h : Int)
    (hid : id = .RESIZED ∨ id = .SIZE_CHANGED)
    (hafter : ∀ w' h', SDL_Event.WINDOWEVENT .RESIZED w' h' ∉ after
      ∧ SDL_Event.WINDOWEVENT .SIZE_CHANGED w' h' ∉ after) :
    ((PollInputEvents numJoysticks queue g).CORE.Window.resizedLastFrame = true
      ↔ ∃ w' h', SDL_Event.WINDOWEVENT .RESIZED w' h' ∈ queue
          ∨ SDL_Event.WINDOWEVENT .SIZE_CHANGED w' h' ∈ queue)
    ∧ ((PollInputEvents numJoysticks (before ++ .WINDOWEVENT id w h :: after)
          g).CORE.Window.screen = ⟨toUnsigned w, toUnsigned h⟩
      ∧ (PollInputEvents numJoysticks (before ++ .WINDOWEVENT id w h :: after)
          g).CORE.Window.render = ⟨toUnsigned w, toUnsigned h⟩
      ∧ (PollInputEvents numJoysticks (before ++ .WINDOWEVENT id w h :: after)
          g).CORE.Window.currentFbo = ⟨toUnsigned w, toUnsigned h⟩)
    ∧ (0 ≤ w → w < 2 ^ 31 → 0 ≤ h → h < 2 ^ 31 →
        ((toUnsigned w : Nat) : Int) = w ∧ ((toUnsigned h : Nat) : Int) = h)
    ∧ ((∀ w' h', SDL_Event.WINDOWEVENT .RESIZED w' h' ∉ queue
          ∧ SDL_Event.WINDOWEVENT .SIZE_CHANGED w' h' ∉ queue) →
        (PollInputEvents numJoysticks queue g).CORE.Window.screen = g.CORE.Window.screen
        ∧ (PollInputEvents numJoysticks queue g).CORE.Window.render = g.CORE.Window.render
        ∧ (PollInputEvents numJoysticks queue g).CORE.Window.currentFbo
            = g.CORE.Window.currentFbo) := by
  have hreg := (registerPrevious_Window numJoysticks g).1
  refine ⟨⟨fun ht => ?_, fun hex => ?_⟩, ?_, fun hw0 hw1 hh0 hh1 =>
    ⟨toUnsigned_of_nonneg w hw0 hw1, toUnsigned_of_nonneg h hh0 hh1⟩, fun hq => ?_⟩
  · by_contra hno
    have hq : ∀ w' h', SDL_Event.WINDOWEVENT .RESIZED w' h' ∉ queue
        ∧ SDL_Event.WINDOWEVENT .SIZE_CHANGED w' h' ∉ queue :=
      fun w' h' => ⟨fun hh => hno ⟨w', h', Or.inl hh⟩, fun hh => hno ⟨w', h', Or.inr hh⟩⟩
    unfold PollInputEvents at ht
    rw [(foldl_processEvent_sizes queue _ hq).1, hreg] at ht
    exact Bool.false_ne_true ht
  · obtain ⟨w', h', hmem⟩ := hex
    unfold PollInputEvents
    rcases hmem with hmem | hmem
    · obtain ⟨s, t, rfl⟩ := List.append_of_mem hmem
      rw [List.foldl_append, List.foldl_cons]
      exact foldl_processEvent_resized t _ rfl
    · obtain ⟨s, t, rfl⟩ := List.append_of_mem hmem
      rw [List.foldl_append, List.foldl_cons]
      exact foldl_processEvent_resized t _ rfl
  · obtain ⟨-, c2, c3, c4⟩ := onWindowEvent_resize id w h
      (before.foldl processEvent (registerPrevious numJoysticks g)) hid
    obtain ⟨-, a2, a3, a4⟩ := foldl_processEvent_sizes after
      (processEvent (before.foldl processEvent (registerPrevious numJoysticks g))
        (.WINDOWEVENT id w h)) hafter
    unfold PollInputEvents
    rw [List.foldl_append, List.foldl_cons, a2, a3, a4]
    exact ⟨c2, c3, c4⟩
  · obtain ⟨-, a2, a3, a4⟩ := foldl_processEvent_sizes queue
      (registerPrevious numJoysticks g) hq
    unfold PollInputEvents
    rw [a2, a3, a4, hreg]
    exact ⟨rfl, rfl, rfl⟩

/-- Witness of C23: a frame in which the window is resized to 480 x 272 and
then to 960 x 544. -/
theorem resize_tracking_witness :
    (PollInputEvents 0 ([.WINDOWEVENT .RESIZED 480 272] ++ .WINDOWEVENT .SIZE_CHANGED 960 544
        :: [.QUIT]) zeroGlobals).CORE.Window.screen = ⟨toUnsigned 960, toUnsigned 544⟩
    ∧ ((toUnsigned 960 : Nat) : Int) = 960 :=
  ⟨(resize_tracking 0 zeroGlobals [.WINDOWEVENT .RESIZED 480 272] [.QUIT] [] .SIZE_CHANGED
      960 544 (Or.inr rfl) (by simp)).2.1.1,
    ((resize_tracking 0 zeroGlobals [.WINDOWEVENT .RESIZED 480 272] [.QUIT] [] .SIZE_CHANGED
      960 544 (Or.inr rfl) (by simp)).2.2.1 (by decide) (by decide) (by decide) (by decide)).1⟩

/-! ## Failure of the platform initialisation -/

/-- The sections of `CORE` are untouched when `InitPlatform` fails. -/
theorem InitPlatform_failure (n : InitAnswers) (g : Globals)
    (h : n.initResult < 0 ∨ n.createdWindow = none ∨ n.createdContext = none) :
    (InitPlatform n g).1 = -1 ∧ (InitPlatform n g).2.CORE = g.CORE := by
  unfold InitPlatform
  by_cases h0 : n.initResult < 0
  · rw [if_pos h0]
    exact ⟨rfl, rfl⟩
  · have hn : ¬ (n.createdWindow ≠ none ∧ n.createdContext ≠ none) := by
      rcases h with h | h | h
      · exact absurd h h0
      · exact fun hh => hh.1 h
      · exact fun hh => hh.2 h
    rw [if_neg h0]
    simp only
    rw [if_neg hn]
    exact ⟨rfl, rfl⟩

/-- C24: `InitPlatform` returns -1 when the native subsystem initialisation
fails or when window or GL-context creation returns null, and in every such
case `window.ready` and every gamepad ready flag keep their prior values; it
returns 0 otherwise, and only with `window.ready = true` and the display size
960 x 544. -/
theorem InitPlatform_result (n : InitAnswers) (g : Globals) :
    ((InitPlatform n g).1
        = if n.initResult < 0 ∨ n.createdWindow = none ∨ n.createdContext = none then -1
          else 0)
    ∧ ((n.initResult < 0 ∨ n.createdWindow = none ∨ n.createdContext = none) →
        (InitPlatform n g).1 = -1
        ∧ (InitPlatform n g).2.CORE.Window.ready = g.CORE.Window.ready
        ∧ ∀ i, (InitPlatform n g).2.CORE.Input.Gamepad.ready i = g.CORE.Input.Gamepad.ready i)
    ∧ ((InitPlatform n g).1 = 0 →
        (InitPlatform n g).2.CORE.Window.ready = true
        ∧ (InitPlatform n g).2.CORE.Window.display = ⟨960, 544⟩) := by
  have hok : ¬ (n.initResult < 0 ∨ n.createdWindow = none ∨ n.createdContext = none) →
      (InitPlatform n g).1 = 0
      ∧ (InitPlatform n g).2.CORE.Window.ready = true
      ∧ (InitPlatform n g).2.CORE.Window.display = ⟨960, 544⟩ := by
    intro hf
    have h0 : 0 ≤ n.initResult := by
      by_contra hh
      exact hf (Or.inl (by omega))
    have hw : n.createdWindow ≠ none := fun hh => hf (Or.inr (Or.inl hh))
    have hc : n.createdContext ≠ none := fun hh => hf (Or.inr (Or.inr hh))
    rw [InitPlatform_success n g h0 hw hc]
    refine ⟨rfl, ?_, ?_⟩
    · show (initGamepads n _).CORE.Window.ready = true
      rw [(initGamepads_frame n _).1]
    · show (initGamepads n _).CORE.Window.display = ⟨960, 544⟩
      rw [(initGamepads_frame n _).1]
  refine ⟨?_, fun hf => ?_, fun hr => ?_⟩
  · by_cases hf : n.initResult < 0 ∨ n.createdWindow = none ∨ n.createdContext = none
    · rw [if_pos hf]
      exact (InitPlatform_failure n g hf).1
    · rw [if_neg hf]
      exact (hok hf).1
  · obtain ⟨h1, h2⟩ := InitPlatform_failure n g hf
    refine ⟨h1, by rw [h2], fun i => by rw [h2]⟩
  · by_cases hf : n.initResult < 0 ∨ n.createdWindow = none ∨ n.createdContext = none
    · rw [(InitPlatform_failure n g hf).1] at hr
      exact absurd hr (by decide)
    · exact (hok hf).2

/-- Witness of C24: a failed `SDL_Init` in the zero state, where no flag is
ready afterwards, and a successful initialisation with one controller. -/
theorem InitPlatform_result_witness :
    ((InitPlatform { oneControllerInit with initResult := -1 } zeroGlobals).1 = -1
      ∧ (InitPlatform { oneControllerInit with initResult := -1 }
          zeroGlobals).2.CORE.Window.ready = false
      ∧ ∀ i, (InitPlatform { oneControllerInit with initResult := -1 }
          zeroGlobals).2.CORE.Input.Gamepad.ready i = false)
    ∧ (InitPlatform oneControllerInit zeroGlobals).2.CORE.Window.display = ⟨960, 544⟩ :=
  ⟨(InitPlatform_result { oneControllerInit with initResult := -1 } zeroGlobals).2.1
      (Or.inl (by decide)),
    ((InitPlatform_result oneControllerInit zeroGlobals).2.2 rfl).2⟩

/-! ## Order of the key-pressed queue -/

/-- The keyboard section after a key-down event of a mapped key. -/
theorem onKeyDown_mapped (sc : Int) (rep : Bool) (g : Globals)
    (hK : ConvertScancodeToKey sc ≠ KEY_NULL) :
    (onKeyDown sc rep g).CORE.Input.Keyboard.keyPressedQueue
        = (if g.CORE.Input.Keyboard.currentKeyState (ConvertScancodeToKey sc) = 0
              ∧ g.CORE.Input.Keyboard.keyPressedQueueCount < MAX_KEY_PRESSED_QUEUE then
            Function.update g.CORE.Input.Keyboard.keyPressedQueue
              g.CORE.Input.Keyboard.keyPressedQueueCount (ConvertScancodeToKey sc)
          else g.CORE.Input.Keyboard.keyPressedQueue)
    ∧ (onKeyDown sc rep g).CORE.Input.Keyboard.keyPressedQueueCount
        = (if g.CORE.Input.Keyboard.currentKeyState (ConvertScancodeToKey sc) = 0
              ∧ g.CORE.Input.Keyboard.keyPressedQueueCount < MAX_KEY_PRESSED_QUEUE then
            g.CORE.Input.Keyboard.keyPressedQueueCount + 1
          else g.CORE.Input.Keyboard.keyPressedQueueCount)
    ∧ (onKeyDown sc rep g).CORE.Input.Keyboard.currentKeyState
        = Function.update g.CORE.Input.Keyboard.currentKeyState (ConvertScancodeToKey sc) 1
    ∧ (onKeyDown sc rep g).CORE.Input.Keyboard.keyRepeatInFrame
        = (if rep then
            Function.update g.CORE.Input.Keyboard.keyRepeatInFrame (ConvertScancodeToKey sc) 1
          else g.CORE.Input.Keyboard.keyRepeatInFrame) := by
  simp only [onKeyDown, if_pos hK]
  split_ifs <;> exact ⟨rfl, rfl, rfl, rfl⟩

/-- Key-down events of distinct mapped keys that are up fill the key-pressed
queue in event order, from the current count on. -/
theorem foldl_keydowns (evs : List (Int × Bool)) (g : Globals)
    (hmapped : ∀ e ∈ evs, ConvertScancodeToKey e.1 ≠ KEY_NULL)
    (hnodup : (evs.map (fun e => ConvertScancodeToKey e.1)).Nodup)
    (hup : ∀ e ∈ evs, g.CORE.Input.Keyboard.currentKeyState (ConvertScancodeToKey e.1) = 0)
    (hroom : g.CORE.Input.Keyboard.keyPressedQueueCount + evs.length
      ≤ MAX_KEY_PRESSED_QUEUE) :
    ((evs.map (fun e => SDL_Event.KEYDOWN e.1 e.2)).foldl processEvent
        g).CORE.Input.Keyboard.keyPressedQueueCount
      = g.CORE.Input.Keyboard.keyPressedQueueCount + evs.length
    ∧ (∀ i : Nat, i < evs.length →
        ((evs.map (fun e => SDL_Event.KEYDOWN e.1 e.2)).foldl processEvent
          g).CORE.Input.Keyboard.keyPressedQueue
            (g.CORE.Input.Keyboard.keyPressedQueueCount + (i : Int))
          = (evs.map (fun e => ConvertScancodeToKey e.1)).getD i KEY_NULL)
    ∧ (∀ j : Int, j < g.CORE.Input.Keyboard.keyPressedQueueCount →
        ((evs.map (fun e => SDL_Event.KEYDOWN e.1 e.2)).foldl processEvent
          g).CORE.Input.Keyboard.keyPressedQueue j
          = g.CORE.Input.Keyboard.keyPressedQueue j) := by
  induction evs generalizing g with
  | nil =>
    refine ⟨?_, fun i hi => absurd hi (by simp), fun j _ => rfl⟩
    simp
  | cons e es ih =>
    have hKe := hmapped e (List.mem_cons_self _ _)
    have hup0 := hup e (List.mem_cons_self _ _)
    have hlen : ((e :: es).length : Int) = (es.length : Int) + 1 := by
      rw [List.length_cons]
      push_cast
      rfl
    rw [hlen] at hroom
    have hcond : g.CORE.Input.Keyboard.currentKeyState (ConvertScancodeToKey e.1) = 0
        ∧ g.CORE.Input.Keyboard.keyPressedQueueCount < MAX_KEY_PRESSED_QUEUE :=
      ⟨hup0, by omega⟩
    obtain ⟨q1, q2, q3, -⟩ := onKeyDown_mapped e.1 e.2 g hKe
    rw [if_pos hcond] at q1 q2
    rw [List.map_cons, List.nodup_cons] at hnodup
    have hstep : processEvent g (.KEYDOWN e.1 e.2) = onKeyDown e.1 e.2 g := rfl
    obtain ⟨r1, r2, r3⟩ := ih (onKeyDown e.1 e.2 g)
      (fun e' he' => hmapped e' (List.mem_cons_of_mem _ he'))
      hnodup.2
      (fun e' he' => by
        have hne : ConvertScancodeToKey e'.1 ≠ ConvertScancodeToKey e.1 := by
          intro hh
          exact hnodup.1 (List.mem_map.mpr ⟨e', he', hh⟩)
        rw [q3, Function.update_noteq hne]
        exact hup e' (List.mem_cons_of_mem _ he'))
      (by rw [q2]; omega)
    rw [q2] at r1 r2 r3
    rw [List.map_cons, List.foldl_cons, hstep]
    refine ⟨by rw [r1, hlen]; ring, fun i hi => ?_, fun j hj => ?_⟩
    · cases i with
      | zero =>
        have e0 : g.CORE.Input.Keyboard.keyPressedQueueCount + ((0 : Nat) : Int)
            = g.CORE.Input.Keyboard.keyPressedQueueCount := by
          push_cast
          ring
        rw [e0, r3 _ (by omega), q1, Function.update_same]
        rfl
      | succ k =>
        have hk : k < es.length := by
          rw [List.length_cons] at hi
          omega
        have e1 : g.CORE.Input.Keyboard.keyPressedQueueCount + ((k + 1 : Nat) : Int)
            = g.CORE.Input.Keyboard.keyPressedQueueCount + 1 + (k : Int) := by
          push_cast
          ring
        rw [e1, r2 k hk, List.map_cons, List.getD_cons_succ]
    · rw [r3 j (by omega), q1, Function.update_noteq (by omega)]

/-- C25: for a key-down event of mapped key `K`: `K` is appended at the tail of
the key-pressed queue exactly when `current[K]` was 0 before the event and the
queue is not full, `current[K]` is 1 afterwards in every case, and
`keyRepeatInFrame[K]` is set when the event is an auto-repeat; hence after a
poll draining key-downs for distinct previously-up keys `k1..kn` (`n <= 16`)
the queue holds `k1..kn` in event order; and a key-up for `K` only clears
`current[K]`, leaving every other key's state unchanged. -/
theorem key_down_fills_queue_in_order (numJoysticks : Int) (g : Globals) (sc : Int)
    (rep : Bool) (evs : List (Int × Bool))
    (hK : ConvertScancodeToKey sc ≠ KEY_NULL)
    (hmapped : ∀ e ∈ evs, ConvertScancodeToKey e.1 ≠ KEY_NULL)
    (hnodup : (evs.map (fun e => ConvertScancodeToKey e.1)).Nodup)
    (hup : ∀ e ∈ evs, g.CORE.Input.Keyboard.currentKeyState (ConvertScancodeToKey e.1) = 0)
    (hlen : evs.length ≤ MAX_KEY_PRESSED_QUEUE) :
    ((processEvent g (.KEYDOWN sc rep)).CORE.Input.Keyboard.keyPressedQueue
        = (if g.CORE.Input.Keyboard.currentKeyState (ConvertScancodeToKey sc) = 0
              ∧ g.CORE.Input.Keyboard.keyPressedQueueCount < MAX_KEY_PRESSED_QUEUE then
            Function.update g.CORE.Input.Keyboard.keyPressedQueue
              g.CORE.Input.Keyboard.keyPressedQueueCount (ConvertScancodeToKey sc)
          else g.CORE.Input.Keyboard.keyPressedQueue)
      ∧ (processEvent g (.KEYDOWN sc rep)).CORE.Input.Keyboard.keyPressedQueueCount
        = (if g.CORE.Input.Keyboard.currentKeyState (ConvertScancodeToKey sc) = 0
              ∧ g.CORE.Input.Keyboard.keyPressedQueueCount < MAX_KEY_PRESSED_QUEUE then
            g.CORE.Input.Keyboard.keyPressedQueueCount + 1
          else g.CORE.Input.Keyboard.keyPressedQueueCount)
      ∧ (processEvent g (.KEYDOWN sc rep)).CORE.Input.Keyboard.currentKeyState
          (ConvertScancodeToKey sc) = 1
      ∧ (rep = true →
        (processEvent g (.KEYDOWN sc rep)).CORE.Input.Keyboard.keyRepeatInFrame
          (ConvertScancodeToKey sc) = 1))
    ∧ ((PollInputEvents numJoysticks (evs.map (fun e => SDL_Event.KEYDOWN e.1 e.2))
          g).CORE.Input.Keyboard.keyPressedQueueCount = evs.length
      ∧ ∀ i : Nat, i < evs.length →
        (PollInputEvents numJoysticks (evs.map (fun e => SDL_Event.KEYDOWN e.1 e.2))
          g).CORE.Input.Keyboard.keyPressedQueue i
          = (evs.map (fun e => ConvertScancodeToKey e.1)).getD i KEY_NULL)
    ∧ (processEvent g (.KEYUP sc)
        = { g with
            CORE.Input.Keyboard.currentKeyState :=
              Function.update g.CORE.Input.Keyboard.currentKeyState
                (ConvertScancodeToKey sc) 0 }
      ∧ (processEvent g (.KEYUP sc)).CORE.Input.Keyboard.currentKeyState
          (ConvertScancodeToKey sc) = 0
      ∧ ∀ j, j ≠ ConvertScancodeToKey sc →
        (processEvent g (.KEYUP sc)).CORE.Input.Keyboard.currentKeyState j
          = g.CORE.Input.Keyboard.currentKeyState j) := by
  have hdown : processEvent g (.KEYDOWN sc rep) = onKeyDown sc rep g := rfl
  have hkup : processEvent g (.KEYUP sc)
      = { g with
          CORE.Input.Keyboard.currentKeyState :=
            Function.update g.CORE.Input.Keyboard.currentKeyState
              (ConvertScancodeToKey sc) 0 } := by
    show onKeyUp sc g = _
    unfold onKeyUp
    rw [if_pos hK]
  obtain ⟨q1, q2, q3, q4⟩ := onKeyDown_mapped sc rep g hK
  refine ⟨⟨by rw [hdown]; exact q1, by rw [hdown]; exact q2, ?_, fun hr => ?_⟩, ?_,
    hkup, ?_, fun j hj => ?_⟩
  · rw [hdown, q3, Function.update_same]
  · rw [hdown, q4, if_pos hr, Function.update_same]
  · obtain ⟨c1, -⟩ := registerPrevious_queue_counts numJoysticks g
    obtain ⟨r1, r2, -⟩ := foldl_keydowns evs (registerPrevious numJoysticks g) hmapped hnodup
      (fun e he => by rw [registerPrevious_currentKeyState]; exact hup e he)
      (by rw [c1]; simpa using hlen)
    rw [c1] at r1 r2
    unfold PollInputEvents
    refine ⟨by rw [r1, zero_add], fun i hi => ?_⟩
    have := r2 i hi
    rw [zero_add] at this
    exact this
  · rw [hkup]
    exact Function.update_same _ _ _
  · rw [hkup]
    exact Function.update_noteq hj _ _

set_option maxRecDepth 100000 in
/-- Witness of C25: in the zero state, a poll that drains key-downs of the
scancodes 4, 5 and 6 (keys `A`, `B`, `C`), the last one an auto-repeat. -/
theorem key_down_fills_queue_in_order_witness :
    (PollInputEvents 0 [.KEYDOWN 4 false, .KEYDOWN 5 false, .KEYDOWN 6 true]
        zeroGlobals).CORE.Input.Keyboard.keyPressedQueueCount = 3
    ∧ ∀ i : Nat, i < 3 →
      (PollInputEvents 0 [.KEYDOWN 4 false, .KEYDOWN 5 false, .KEYDOWN 6 true]
        zeroGlobals).CORE.Input.Keyboard.keyPressedQueue i
        = [KEY_A, KEY_B, KEY_C].getD i KEY_NULL :=
  (key_down_fills_queue_in_order 0 zeroGlobals 4 true [(4, false), (5, false), (6, true)]
    (by decide) (by decide) (by decide) (fun _ _ => rfl) (by decide)).2.1

/-! ## The two controller button switches -/

/-- Native buttons outside `0..14` fall through the switch of the button-down
handler. -/
theorem buttonDownSwitch_unmapped (b : Int) (h : b < 0 ∨ 15 ≤ b) : buttonDownSwitch b = -1 := by
  have hne : ∀ c : Int, 0 ≤ c → c < 15 → b ≠ c := by
    intro c h0 h1
    omega
  unfold buttonDownSwitch
  rw [if_neg (hne SDL_CONTROLLER_BUTTON_Y (by decide) (by decide)),
    if_neg (hne SDL_CONTROLLER_BUTTON_B (by decide) (by decide)),
    if_neg (hne SDL_CONTROLLER_BUTTON_A (by decide) (by decide)),
    if_neg (hne SDL_CONTROLLER_BUTTON_X (by decide) (by decide)),
    if_neg (hne SDL_CONTROLLER_BUTTON_LEFTSHOULDER (by decide) (by decide)),
    if_neg (hne SDL_CONTROLLER_BUTTON_RIGHTSHOULDER (by decide) (by decide)),
    if_neg (hne SDL_CONTROLLER_BUTTON_BACK (by decide) (by decide)),
    if_neg (hne SDL_CONTROLLER_BUTTON_GUIDE (by decide) (by decide)),
    if_neg (hne SDL_CONTROLLER_BUTTON_START (by decide) (by decide)),
    if_neg (hne SDL_CONTROLLER_BUTTON_DPAD_UP (by decide) (by decide)),
    if_neg (hne SDL_CONTROLLER_BUTTON_DPAD_RIGHT (by decide) (by decide)),
    if_neg (hne SDL_CONTROLLER_BUTTON_DPAD_DOWN (by decide) (by decide)),
    if_neg (hne SDL_CONTROLLER_BUTTON_DPAD_LEFT (by decide) (by decide)),
    if_neg (hne SDL_CONTROLLER_BUTTON_LEFTSTICK (by decide) (by decide)),
    if_neg (hne SDL_CONTROLLER_BUTTON_RIGHTSTICK (by decide) (by decide))]

/-- The fifteen native buttons `0..14` are mapped to normalised buttons
`1..17`. -/
theorem buttonDownSwitch_mapped (b : Int) (h0 : 0 ≤ b) (h1 : b < 15) :
    1 ≤ buttonDownSwitch b ∧ buttonDownSwitch b ≤ 17 := by
  interval_cases b <;> decide

theorem buttonDownSwitch_injective (a b : Int) (ha0 : 0 ≤ a) (ha1 : a < 15) (hb0 : 0 ≤ b)
    (hb1 : b < 15) (h : buttonDownSwitch a = buttonDownSwitch b) : a = b := by
  interval_cases a <;> interval_cases b <;> first | rfl | exact absurd h (by decide)

theorem buttonSwitches_eq : buttonDownSwitch = buttonUpSwitch := rfl

/-- The button states after a mapped button-down followed by the button-up of
the same native button. -/
theorem button_down_up_state (which b : Int) (g : Globals) (h0 : 0 ≤ b) (h1 : b < 15) :
    (onControllerButtonUp which b
        (onControllerButtonDown which b g)).CORE.Input.Gamepad.currentButtonState
      = update2 (update2 g.CORE.Input.Gamepad.currentButtonState which (buttonDownSwitch b) 1)
          which (buttonDownSwitch b) 0 := by
  have hB : buttonDownSwitch b ≥ 0 := by
    have := (buttonDownSwitch_mapped b h0 h1).1
    omega
  have hU : buttonUpSwitch b ≥ 0 := hB
  have e1 : onControllerButtonDown which b g
      = { g with
          CORE.Input.Gamepad.currentButtonState :=
            update2 g.CORE.Input.Gamepad.currentButtonState which (buttonDownSwitch b) 1,
          CORE.Input.Gamepad.lastButtonPressed := buttonDownSwitch b } := by
    unfold onControllerButtonDown
    simp only
    rw [if_pos hB]
  rw [e1]
  unfold onControllerButtonUp
  simp only
  rw [if_pos hU]
  rfl

/-- C26: the native-to-normalised controller button mapping used by the
button-down handler and the one used by the button-up handler are the same
function, it is injective on the 15 mapped native buttons, and native buttons
outside it leave all state unchanged; consequently, for every mapped native
button and every slot, a button-down followed by a button-up of the same native
button leaves `currentButtonState` of that slot with that button released and
every other button unchanged. -/
theorem button_switches_agree (which : Int) (g : Globals) :
    buttonDownSwitch = buttonUpSwitch
    ∧ (∀ a b : Int, 0 ≤ a → a < 15 → 0 ≤ b → b < 15 →
        buttonDownSwitch a = buttonDownSwitch b → a = b)
    ∧ (∀ b : Int, b < 0 ∨ 15 ≤ b →
        processEvent g (.CONTROLLERBUTTONDOWN which b) = g
        ∧ processEvent g (.CONTROLLERBUTTONUP which b) = g)
    ∧ (∀ b : Int, 0 ≤ b → b < 15 →
        (processEvent (processEvent g (.CONTROLLERBUTTONDOWN which b))
            (.CONTROLLERBUTTONUP which b)).CORE.Input.Gamepad.currentButtonState which
              (buttonDownSwitch b) = 0
        ∧ (∀ k, k ≠ buttonDownSwitch b →
          (processEvent (processEvent g (.CONTROLLERBUTTONDOWN which b))
              (.CONTROLLERBUTTONUP which b)).CORE.Input.Gamepad.currentButtonState which k
            = g.CORE.Input.Gamepad.currentButtonState which k)
        ∧ ∀ w, w ≠ which →
          (processEvent (processEvent g (.CONTROLLERBUTTONDOWN which b))
              (.CONTROLLERBUTTONUP which b)).CORE.Input.Gamepad.currentButtonState w
            = g.CORE.Input.Gamepad.currentButtonState w) := by
  refine ⟨rfl, fun a b ha0 ha1 hb0 hb1 h => buttonDownSwitch_injective a b ha0 ha1 hb0 hb1 h,
    fun b hb => ?_, fun b h0 h1 => ?_⟩
  · have hD : ¬ buttonDownSwitch b ≥ 0 := by
      rw [buttonDownSwitch_unmapped b hb]
      decide
    have hU : ¬ buttonUpSwitch b ≥ 0 := hD
    constructor
    · show onControllerButtonDown which b g = g
      unfold onControllerButtonDown
      simp only
      rw [if_neg hD]
    · show onControllerButtonUp which b g = g
      unfold onControllerButtonUp
      simp only
      rw [if_neg hU]
  · have e : processEvent (processEvent g (.CONTROLLERBUTTONDOWN which b))
        (.CONTROLLERBUTTONUP which b)
        = onControllerButtonUp which b (onControllerButtonDown which b g) := rfl
    rw [e, button_down_up_state which b g h0 h1]
    refine ⟨?_, fun k hk => ?_, fun w hw => ?_⟩
    · simp [update2, Function.update_same]
    · simp [update2, Function.update_same, Function.update_noteq hk]
    · simp [update2, Function.update_noteq hw]

/-- Witness of C26: button A of slot 0 goes down and up in the zero state, and
the unmapped native button 15 goes down. -/
theorem button_switches_agree_witness :
    (processEvent (processEvent zeroGlobals (.CONTROLLERBUTTONDOWN 0 SDL_CONTROLLER_BUTTON_A))
        (.CONTROLLERBUTTONUP 0 SDL_CONTROLLER_BUTTON_A)).CORE.Input.Gamepad.currentButtonState 0
          GAMEPAD_BUTTON_RIGHT_FACE_DOWN = 0
    ∧ processEvent zeroGlobals (.CONTROLLERBUTTONDOWN 0 15) = zeroGlobals :=
  ⟨((button_switches_agree 0 zeroGlobals).2.2.2 SDL_CONTROLLER_BUTTON_A
      (by decide) (by decide)).1,
    ((button_switches_agree 0 zeroGlobals).2.2.1 15 (Or.inr (by decide))).1⟩

/-! ## Range of the scancode conversion -/

/-- The key-down and key-up handlers write the keyboard state arrays only at
the converted key. -/
theorem key_handlers_write_at_key (sc : Int) (rep : Bool) (g : Globals) (j : Int)
    (hj : j ≠ ConvertScancodeToKey sc) :
    (onKeyDown sc rep g).CORE.Input.Keyboard.currentKeyState j
        = g.CORE.Input.Keyboard.currentKeyState j
    ∧ (onKeyDown sc rep g).CORE.Input.Keyboard.keyRepeatInFrame j
        = g.CORE.Input.Keyboard.keyRepeatInFrame j
    ∧ (onKeyUp sc g).CORE.Input.Keyboard.currentKeyState j
        = g.CORE.Input.Keyboard.currentKeyState j := by
  refine ⟨?_, ?_, ?_⟩
  · rw [onKeyDown_currentKeyState]
    split_ifs
    · exact Function.update_noteq hj _ _
    · rfl
  · simp only [onKeyDown]
    split_ifs <;> first | rfl | exact Function.update_noteq hj _ _
  · rw [onKeyUp_currentKeyState]
    split_ifs
    · exact Function.update_noteq hj _ _
    · rfl

/-- C27: `ConvertScancodeToKey` is total: for every scancode outside `0..231`
it returns `KEY_NULL`, for every scancode inside it returns the table entry
(the table has exactly 232 entries), and every key it can return is smaller
than `MAX_KEYBOARD_KEYS`, so the keyboard state arrays indexed by the result in
the key-down and key-up handlers are never indexed out of range: the handlers
leave every cell outside `0..MAX_KEYBOARD_KEYS-1` as it was. -/
theorem ConvertScancodeToKey_total_in_range (sc : Int) (rep : Bool) (g : Globals) :
    mapScancodeToKey.length = 232
    ∧ (¬ (0 ≤ sc ∧ sc < 232) → ConvertScancodeToKey sc = KEY_NULL)
    ∧ (0 ≤ sc ∧ sc < 232 → mapScancodeToKey[sc.toNat]? = some (ConvertScancodeToKey sc))
    ∧ (0 ≤ ConvertScancodeToKey sc ∧ ConvertScancodeToKey sc < MAX_KEYBOARD_KEYS)
    ∧ (∀ j : Int, ¬ (0 ≤ j ∧ j < MAX_KEYBOARD_KEYS) →
        (processEvent g (.KEYDOWN sc rep)).CORE.Input.Keyboard.currentKeyState j
          = g.CORE.Input.Keyboard.currentKeyState j
        ∧ (processEvent g (.KEYDOWN sc rep)).CORE.Input.Keyboard.keyRepeatInFrame j
          = g.CORE.Input.Keyboard.keyRepeatInFrame j
        ∧ (processEvent g (.KEYUP sc)).CORE.Input.Keyboard.currentKeyState j
          = g.CORE.Input.Keyboard.currentKeyState j) := by
  have hr := ConvertScancodeToKey_range sc
  refine ⟨rfl, fun h => ?_, fun h => ?_, hr, fun j hj => ?_⟩
  · have h' : ¬ (0 ≤ sc ∧ sc < (SCANCODE_MAPPED_NUM : Int)) := h
    unfold ConvertScancodeToKey
    rw [if_neg h']
  · have hlen : sc.toNat < mapScancodeToKey.length := by
      have hl : mapScancodeToKey.length = 232 := rfl
      rw [hl]
      omega
    have h' : 0 ≤ sc ∧ sc < (SCANCODE_MAPPED_NUM : Int) := h
    unfold ConvertScancodeToKey
    rw [if_pos h', List.getD_eq_getElem _ _ hlen, List.getElem?_eq_getElem hlen]
  · exact key_handlers_write_at_key sc rep g j (fun hh => hj (by rw [hh]; exact hr))

set_option maxRecDepth 100000 in
/-- Witness of C27: scancode 4 is inside the table and maps to `KEY_A`;
scancode 232 is outside. -/
theorem ConvertScancodeToKey_total_in_range_witness :
    mapScancodeToKey[(4 : Int).toNat]? = some (ConvertScancodeToKey 4)
    ∧ ConvertScancodeToKey 232 = KEY_NULL :=
  ⟨(ConvertScancodeToKey_total_in_range 4 false zeroGlobals).2.2.1 (by decide),
    (ConvertScancodeToKey_total_in_range 232 false zeroGlobals).2.1 (by decide)⟩

/-! ## Indices into the native controller handle array -/

/-- C28 fails on the code: `platform.gamepad` is declared with one entry, yet
device index 1, which is below `MAX_GAMEPADS`, is used as an index into it: the
enumeration loop of `InitPlatform` with two connected controllers and the
attach handler for device 1 both store a handle in `platform.gamepad[1]`, and
the detach handler overwrites that entry again. -/
theorem gamepad_handle_stored_beyond_declared_length :
    (1 : Int) < MAX_GAMEPADS ∧ ¬ ((1 : Int) < PLATFORM_GAMEPAD_LENGTH)
    ∧ zeroGlobals.platform.gamepad 1 = none
    ∧ (InitPlatform twoControllersInit zeroGlobals).2.platform.gamepad 1 = some ⟨1, 6⟩
    ∧ (processEvent zeroGlobals
        (.JOYDEVICEADDED 1 (some ⟨1, 6⟩) [80, 83, 86])).platform.gamepad 1 = some ⟨1, 6⟩
    ∧ (processEvent
        (processEvent zeroGlobals (.JOYDEVICEADDED 1 (some ⟨1, 6⟩) [80, 83, 86]))
        (.JOYDEVICEREMOVED 1 (some ⟨0, 6⟩))).platform.gamepad 1 = some ⟨0, 6⟩ := by
  refine ⟨by decide, by decide, rfl, ?_, ?_, ?_⟩
  · rfl
  · rfl
  · rfl

/-! ## Range of the touch slots written by a re-synchronisation -/

/-- C29 fails on the code: when the native query reports eleven fingers,
`UpdateTouchPointsSDL` leaves `pointCount = 11`, above `MAX_TOUCH_POINTS`, and
its first loop, which is bounded by the reported count alone, writes `pointId`
and `currentTouchState` at index 10, past the end of the arrays; the second
loop of the same function is bounded by `MAX_TOUCH_POINTS`. -/
theorem touch_count_not_clamped :
    ¬ ((10 : Int) < MAX_TOUCH_POINTS)
    ∧ (UpdateTouchPointsSDL elevenFingers zeroGlobals).CORE.Input.Touch.pointCount = 11
    ∧ ¬ ((UpdateTouchPointsSDL elevenFingers zeroGlobals).CORE.Input.Touch.pointCount
          ≤ MAX_TOUCH_POINTS)
    ∧ zeroGlobals.CORE.Input.Touch.pointId 10 = 0
    ∧ (UpdateTouchPointsSDL elevenFingers zeroGlobals).CORE.Input.Touch.pointId 10 = 10
    ∧ zeroGlobals.CORE.Input.Touch.currentTouchState 10 = 0
    ∧ (UpdateTouchPointsSDL elevenFingers zeroGlobals).CORE.Input.Touch.currentTouchState 10
        = 1 := by
  obtain ⟨h1, h2, -, h4⟩ := syncTouchPoints_closed elevenFingers
    zeroGlobals.CORE.Window.screen zeroGlobals.CORE.Input.Touch
  have e : (UpdateTouchPointsSDL elevenFingers zeroGlobals).CORE.Input.Touch
      = syncTouchPoints elevenFingers zeroGlobals.CORE.Window.screen
          zeroGlobals.CORE.Input.Touch := rfl
  rw [e, h1, h2 10, h4 10]
  refine ⟨by decide, rfl, by decide, rfl, ?_, rfl, ?_⟩
  · rw [if_pos (by decide)]
    rfl
  · rw [if_neg (by decide), if_pos (by decide)]

/-- For a reported finger count `0 <= n <= MAX_TOUCH_POINTS`,
`UpdateTouchPointsSDL` writes `pointId`, `position` and `currentTouchState`
only at indices below `MAX_TOUCH_POINTS`, and leaves `pointCount = n`. -/
theorem touch_resync_within_slots (event : SDL_TouchFingerEvent) (g : Globals)
    (h0 : 0 ≤ event.numTouchFingers) (h1 : event.numTouchFingers ≤ MAX_TOUCH_POINTS) :
    (∀ j : Int, ¬ (0 ≤ j ∧ j < MAX_TOUCH_POINTS) →
      (UpdateTouchPointsSDL event g).CORE.Input.Touch.pointId j
          = g.CORE.Input.Touch.pointId j
      ∧ (UpdateTouchPointsSDL event g).CORE.Input.Touch.position j
          = g.CORE.Input.Touch.position j
      ∧ (UpdateTouchPointsSDL event g).CORE.Input.Touch.currentTouchState j
          = g.CORE.Input.Touch.currentTouchState j)
    ∧ (UpdateTouchPointsSDL event g).CORE.Input.Touch.pointCount = event.numTouchFingers
    ∧ (UpdateTouchPointsSDL event g).CORE.Input.Touch.pointCount ≤ MAX_TOUCH_POINTS := by
  obtain ⟨c1, c2, c3, c4⟩ := syncTouchPoints_closed event g.CORE.Window.screen
    g.CORE.Input.Touch
  have e : (UpdateTouchPointsSDL event g).CORE.Input.Touch
      = syncTouchPoints event g.CORE.Window.screen g.CORE.Input.Touch := rfl
  rw [e]
  refine ⟨fun j hj => ?_, c1, by rw [c1]; exact h1⟩
  have n1 : ¬ (0 ≤ j ∧ j < event.numTouchFingers) := fun hh => hj ⟨hh.1, by omega⟩
  have n2 : ¬ (event.numTouchFingers ≤ j ∧ j < MAX_TOUCH_POINTS) :=
    fun hh => hj ⟨by omega, hh.2⟩
  rw [c2 j, c3 j, c4 j, if_neg n1, if_neg n1, if_neg n2, if_neg n1]
  exact ⟨rfl, rfl, rfl⟩

/-! ## Device identifiers used as slot indices -/

theorem axisValue_max : axisValue 32767 = 1 := by
  unfold axisValue
  rw [f32_intCast 32767 (by decide)]
  have e : ((32767 : Int) : ℚ) / 32767 = ((1 : Int) : ℚ) := by norm_num
  rw [e, f32_intCast 1 (by decide)]
  norm_num

/-- An attach event whose device index is not below `MAX_GAMEPADS` leaves the
state unchanged. -/
theorem onJoyDeviceAdded_out_of_range (jid : Int) (opened : Option SDL_GameController)
    (nameForIndex : CString) (g : Globals) (h : (MAX_GAMEPADS : Int) ≤ jid) :
    onJoyDeviceAdded jid opened nameForIndex g = g := by
  unfold onJoyDeviceAdded
  rw [if_neg (fun hh => by omega)]

/-- C30 fails on the code: the button and axis handlers use the device
identifier of the event as slot index without testing it against
`MAX_GAMEPADS`.  In the zero state a button-down, a button-up after it, and an
axis motion carrying the identifier 7 write `currentButtonState[7]`,
`lastButtonPressed` and `axisState[7]`; only an attach event with that
identifier leaves the state unchanged. -/
theorem controller_event_slot_unchecked :
    ¬ ((7 : Int) < MAX_GAMEPADS)
    ∧ zeroGlobals.CORE.Input.Gamepad.currentButtonState 7 GAMEPAD_BUTTON_RIGHT_FACE_DOWN = 0
    ∧ (processEvent zeroGlobals
        (.CONTROLLERBUTTONDOWN 7 SDL_CONTROLLER_BUTTON_A)).CORE.Input.Gamepad.currentButtonState
          7 GAMEPAD_BUTTON_RIGHT_FACE_DOWN = 1
    ∧ (processEvent zeroGlobals
        (.CONTROLLERBUTTONDOWN 7 SDL_CONTROLLER_BUTTON_A)).CORE.Input.Gamepad.lastButtonPressed
          = GAMEPAD_BUTTON_RIGHT_FACE_DOWN
    ∧ (processEvent
        (processEvent zeroGlobals (.CONTROLLERBUTTONDOWN 7 SDL_CONTROLLER_BUTTON_A))
        (.CONTROLLERBUTTONUP 7 SDL_CONTROLLER_BUTTON_A)).CORE.Input.Gamepad.currentButtonState
          7 GAMEPAD_BUTTON_RIGHT_FACE_DOWN = 0
    ∧ zeroGlobals.CORE.Input.Gamepad.axisState 7 GAMEPAD_AXIS_LEFT_X = 0
    ∧ (processEvent zeroGlobals
        (.CONTROLLERAXISMOTION 7 SDL_CONTROLLER_AXIS_LEFTX 32767)).CORE.Input.Gamepad.axisState
          7 GAMEPAD_AXIS_LEFT_X = 1
    ∧ processEvent zeroGlobals (.JOYDEVICEADDED 7 (some ⟨7, 6⟩) [80, 83, 86]) = zeroGlobals := by
  refine ⟨by decide, rfl, rfl, rfl, rfl, rfl, ?_, ?_⟩
  · have h := onControllerAxisMotion_axisState 7 SDL_CONTROLLER_AXIS_LEFTX 32767 zeroGlobals
      (by decide)
    have e : axisSwitch SDL_CONTROLLER_AXIS_LEFTX = GAMEPAD_AXIS_LEFT_X := by decide
    rw [e] at h
    show (onControllerAxisMotion 7 SDL_CONTROLLER_AXIS_LEFTX 32767
      zeroGlobals).CORE.Input.Gamepad.axisState 7 GAMEPAD_AXIS_LEFT_X = 1
    rw [h]
    exact axisValue_max
  · exact onJoyDeviceAdded_out_of_range 7 (some ⟨7, 6⟩) [80, 83, 86] zeroGlobals (by decide)

/-! ## Stores of a poll and the declared lengths -/

/-- The handler of an event that `storesInBounds` accepts writes no cell
outside the declared length of `platform.gamepad`, of the touch arrays, of
`Mouse.currentButtonState` and of the per-slot gamepad arrays. -/
theorem processEvent_stores_in_bounds (g : Globals) (event : SDL_Event)
    (hb : storesInBounds event = true) :
    (∀ j : Int, ¬ (0 ≤ j ∧ j < PLATFORM_GAMEPAD_LENGTH) →
      (processEvent g event).platform.gamepad j = g.platform.gamepad j)
    ∧ (∀ j : Int, ¬ (0 ≤ j ∧ j < MAX_TOUCH_POINTS) →
      (processEvent g event).CORE.Input.Touch.pointId j = g.CORE.Input.Touch.pointId j
      ∧ (processEvent g event).CORE.Input.Touch.position j = g.CORE.Input.Touch.position j
      ∧ (processEvent g event).CORE.Input.Touch.currentTouchState j
          = g.CORE.Input.Touch.currentTouchState j)
    ∧ (∀ j : Int, ¬ (0 ≤ j ∧ j < MAX_MOUSE_BUTTONS) →
      (processEvent g event).CORE.Input.Mouse.currentButtonState j
          = g.CORE.Input.Mouse.currentButtonState j)
    ∧ (∀ s : Int, ¬ (0 ≤ s ∧ s < MAX_GAMEPADS) →
      (processEvent g event).CORE.Input.Gamepad.ready s = g.CORE.Input.Gamepad.ready s
      ∧ (processEvent g event).CORE.Input.Gamepad.name s = g.CORE.Input.Gamepad.name s
      ∧ (processEvent g event).CORE.Input.Gamepad.axisCount s
          = g.CORE.Input.Gamepad.axisCount s
      ∧ (processEvent g event).CORE.Input.Gamepad.currentButtonState s
          = g.CORE.Input.Gamepad.currentButtonState s
      ∧ (processEvent g event).CORE.Input.Gamepad.axisState s
          = g.CORE.Input.Gamepad.axisState s) := by
  have triv : ∀ m : Globals, m.platform.gamepad = g.platform.gamepad →
      m.CORE.Input.Touch.pointId = g.CORE.Input.Touch.pointId →
      m.CORE.Input.Touch.position = g.CORE.Input.Touch.position →
      m.CORE.Input.Touch.currentTouchState = g.CORE.Input.Touch.currentTouchState →
      m.CORE.Input.Mouse.currentButtonState = g.CORE.Input.Mouse.currentButtonState →
      m.CORE.Input.Gamepad.ready = g.CORE.Input.Gamepad.ready →
      m.CORE.Input.Gamepad.name = g.CORE.Input.Gamepad.name →
      m.CORE.Input.Gamepad.axisCount = g.CORE.Input.Gamepad.axisCount →
      m.CORE.Input.Gamepad.currentButtonState = g.CORE.Input.Gamepad.currentButtonState →
      m.CORE.Input.Gamepad.axisState = g.CORE.Input.Gamepad.axisState →
      (∀ j : Int, ¬ (0 ≤ j ∧ j < PLATFORM_GAMEPAD_LENGTH) →
        m.platform.gamepad j = g.platform.gamepad j)
      ∧ (∀ j : Int, ¬ (0 ≤ j ∧ j < MAX_TOUCH_POINTS) →
        m.CORE.Input.Touch.pointId j = g.CORE.Input.Touch.pointId j
        ∧ m.CORE.Input.Touch.position j = g.CORE.Input.Touch.position j
        ∧ m.CORE.Input.Touch.currentTouchState j = g.CORE.Input.Touch.currentTouchState j)
      ∧ (∀ j : Int, ¬ (0 ≤ j ∧ j < MAX_MOUSE_BUTTONS) →
        m.CORE.Input.Mouse.currentButtonState j = g.CORE.Input.Mouse.currentButtonState j)
      ∧ (∀ s : Int, ¬ (0 ≤ s ∧ s < MAX_GAMEPADS) →
        m.CORE.Input.Gamepad.ready s = g.CORE.Input.Gamepad.ready s
        ∧ m.CORE.Input.Gamepad.name s = g.CORE.Input.Gamepad.name s
        ∧ m.CORE.Input.Gamepad.axisCount s = g.CORE.Input.Gamepad.axisCount s
        ∧ m.CORE.Input.Gamepad.currentButtonState s
            = g.CORE.Input.Gamepad.currentButtonState s
        ∧ m.CORE.Input.Gamepad.axisState s = g.CORE.Input.Gamepad.axisState s) := by
    intro m h1 h2 h3 h4 h5 h6 h7 h8 h9 h10
    rw [h1, h2, h3, h4, h5, h6, h7, h8, h9, h10]
    exact ⟨fun _ _ => rfl, fun _ _ => ⟨rfl, rfl, rfl⟩, fun _ _ => rfl,
      fun _ _ => ⟨rfl, rfl, rfl, rfl, rfl⟩⟩
  cases event with
  | QUIT => exact triv _ rfl rfl rfl rfl rfl rfl rfl rfl rfl rfl
  | DROPFILE file =>
    simp only [processEvent, onDropFile]
    split_ifs <;> exact triv _ rfl rfl rfl rfl rfl rfl rfl rfl rfl rfl
  | WINDOWEVENT event data1 data2 =>
    cases event <;> exact triv _ rfl rfl rfl rfl rfl rfl rfl rfl rfl rfl
  | KEYDOWN scancode rep =>
    simp only [processEvent, onKeyDown]
    split_ifs <;> exact triv _ rfl rfl rfl rfl rfl rfl rfl rfl rfl rfl
  | KEYUP scancode =>
    simp only [processEvent, onKeyUp]
    split_ifs <;> exact triv _ rfl rfl rfl rfl rfl rfl rfl rfl rfl rfl
  | TEXTINPUT text =>
    simp only [processEvent, onTextInput]
    split_ifs <;> exact triv _ rfl rfl rfl rfl rfl rfl rfl rfl rfl rfl
  | MOUSEBUTTONDOWN button =>
    have hb' : 0 ≤ remapMouseButton (button - 1)
        ∧ remapMouseButton (button - 1) < MAX_MOUSE_BUTTONS
        ∧ remapMouseButton (button - 1) < MAX_TOUCH_POINTS := of_decide_eq_true hb
    refine ⟨fun _ _ => rfl, fun j hj => ⟨rfl, rfl, ?_⟩, fun j hj => ?_,
      fun _ _ => ⟨rfl, rfl, rfl, rfl, rfl⟩⟩
    · exact Function.update_noteq (fun hh => hj (by rw [hh]; exact ⟨hb'.1, hb'.2.2⟩)) _ _
    · exact Function.update_noteq (fun hh => hj (by rw [hh]; exact ⟨hb'.1, hb'.2.1⟩)) _ _
  | MOUSEBUTTONUP button =>
    have hb' : 0 ≤ remapMouseButton (button - 1)
        ∧ remapMouseButton (button - 1) < MAX_MOUSE_BUTTONS
        ∧ remapMouseButton (button - 1) < MAX_TOUCH_POINTS := of_decide_eq_true hb
    refine ⟨fun _ _ => rfl, fun j hj => ⟨rfl, rfl, ?_⟩, fun j hj => ?_,
      fun _ _ => ⟨rfl, rfl, rfl, rfl, rfl⟩⟩
    · exact Function.update_noteq (fun hh => hj (by rw [hh]; exact ⟨hb'.1, hb'.2.2⟩)) _ _
    · exact Function.update_noteq (fun hh => hj (by rw [hh]; exact ⟨hb'.1, hb'.2.1⟩)) _ _
  | MOUSEWHEEL x y => exact triv _ rfl rfl rfl rfl rfl rfl rfl rfl rfl rfl
  | MOUSEMOTION x y xrel yrel =>
    simp only [processEvent, onMouseMotion]
    split_ifs <;> exact triv _ rfl rfl rfl rfl rfl rfl rfl rfl rfl rfl
  | FINGERDOWN tfinger =>
    have hb' : 0 ≤ tfinger.numTouchFingers ∧ tfinger.numTouchFingers ≤ MAX_TOUCH_POINTS :=
      of_decide_eq_true hb
    exact ⟨fun _ _ => rfl,
      fun j hj => (touch_resync_within_slots tfinger g hb'.1 hb'.2).1 j hj,
      fun _ _ => rfl, fun _ _ => ⟨rfl, rfl, rfl, rfl, rfl⟩⟩
  | FINGERUP tfinger =>
    have hb' : 0 ≤ tfinger.numTouchFingers ∧ tfinger.numTouchFingers ≤ MAX_TOUCH_POINTS :=
      of_decide_eq_true hb
    exact ⟨fun _ _ => rfl,
      fun j hj => (touch_resync_within_slots tfinger g hb'.1 hb'.2).1 j hj,
      fun _ _ => rfl, fun _ _ => ⟨rfl, rfl, rfl, rfl, rfl⟩⟩
  | FINGERMOTION tfinger =>
    have hb' : 0 ≤ tfinger.numTouchFingers ∧ tfinger.numTouchFingers ≤ MAX_TOUCH_POINTS :=
      of_decide_eq_true hb
    exact ⟨fun _ _ => rfl,
      fun j hj => (touch_resync_within_slots tfinger g hb'.1 hb'.2).1 j hj,
      fun _ _ => rfl, fun _ _ => ⟨rfl, rfl, rfl, rfl, rfl⟩⟩
  | JOYDEVICEADDED which opened nameForIndex =>
    have hb' : (0 ≤ which ∧ which < PLATFORM_GAMEPAD_LENGTH) ∨ (MAX_GAMEPADS : Int) ≤ which :=
      of_decide_eq_true hb
    show _ ∧ _
    have e : processEvent g (.JOYDEVICEADDED which opened nameForIndex)
        = onJoyDeviceAdded which opened nameForIndex g := rfl
    rw [e]
    by_cases hguard : g.CORE.Input.Gamepad.ready which = false ∧ which < MAX_GAMEPADS
    · have hw : 0 ≤ which ∧ which < PLATFORM_GAMEPAD_LENGTH := by
        rcases hb' with h | h
        · exact h
        · exact absurd hguard.2 (by omega)
      have hw4 : 0 ≤ which ∧ which < (MAX_GAMEPADS : Int) :=
        ⟨hw.1, lt_of_lt_of_le hw.2 (by decide)⟩
      have n1 : ∀ j : Int, ¬ (0 ≤ j ∧ j < PLATFORM_GAMEPAD_LENGTH) → j ≠ which :=
        fun j hj hh => hj (by rw [hh]; exact hw)
      have n4 : ∀ s : Int, ¬ (0 ≤ s ∧ s < MAX_GAMEPADS) → s ≠ which :=
        fun s hs hh => hs (by rw [hh]; exact hw4)
      cases opened with
      | none =>
        have e1 : onJoyDeviceAdded which none nameForIndex g
            = { g with platform.gamepad := Function.update g.platform.gamepad which none } := by
          unfold onJoyDeviceAdded
          rw [if_pos hguard]
          simp only [Function.update_same]
        rw [e1]
        exact ⟨fun j hj => Function.update_noteq (n1 j hj) _ _, fun _ _ => ⟨rfl, rfl, rfl⟩,
          fun _ _ => rfl, fun _ _ => ⟨rfl, rfl, rfl, rfl, rfl⟩⟩
      | some h =>
        have e1 := onJoyDeviceAdded_opened g which h nameForIndex hguard.1 hguard.2
        have e2 : (onJoyDeviceAdded which (some h) nameForIndex g).platform.gamepad
            = Function.update g.platform.gamepad which (some h) := by
          unfold onJoyDeviceAdded
          rw [if_pos hguard]
          simp only [Function.update_same]
        have e3 : (onJoyDeviceAdded which (some h) nameForIndex g).CORE.Input.Touch
            = g.CORE.Input.Touch := by
          unfold onJoyDeviceAdded
          rw [if_pos hguard]
          simp only [Function.update_same]
        have e4 : (onJoyDeviceAdded which (some h) nameForIndex g).CORE.Input.Mouse
            = g.CORE.Input.Mouse := by
          unfold onJoyDeviceAdded
          rw [if_pos hguard]
          simp only [Function.update_same]
        rw [e1, e2, e3, e4]
        refine ⟨fun j hj => Function.update_noteq (n1 j hj) _ _, fun _ _ => ⟨rfl, rfl, rfl⟩,
          fun _ _ => rfl, fun s hs => ⟨?_, ?_, ?_, rfl, ?_⟩⟩
        · exact Function.update_noteq (n4 s hs) _ _
        · exact Function.update_noteq (n4 s hs) _ _
        · exact Function.update_noteq (n4 s hs) _ _
        · show update2 (update2 _ _ _ _) _ _ _ s = _
          simp only [update2]
          rw [Function.update_noteq (n4 s hs), Function.update_noteq (n4 s hs)]
    · have e1 : onJoyDeviceAdded which opened nameForIndex g = g := by
        unfold onJoyDeviceAdded
        rw [if_neg hguard]
      rw [e1]
      exact triv _ rfl rfl rfl rfl rfl rfl rfl rfl rfl rfl
  | JOYDEVICEREMOVED which reopened =>
    have hw : 0 ≤ which ∧ which < PLATFORM_GAMEPAD_LENGTH := of_decide_eq_true hb
    have hw4 : 0 ≤ which ∧ which < (MAX_GAMEPADS : Int) :=
      ⟨hw.1, lt_of_lt_of_le hw.2 (by decide)⟩
    have n1 : ∀ j : Int, ¬ (0 ≤ j ∧ j < PLATFORM_GAMEPAD_LENGTH) → j ≠ which :=
      fun j hj hh => hj (by rw [hh]; exact hw)
    have n4 : ∀ s : Int, ¬ (0 ≤ s ∧ s < MAX_GAMEPADS) → s ≠ which :=
      fun s hs hh => hs (by rw [hh]; exact hw4)
    simp only [processEvent, onJoyDeviceRemoved]
    split_ifs
    · refine ⟨fun j hj => Function.update_noteq (n1 j hj) _ _, fun _ _ => ⟨rfl, rfl, rfl⟩,
        fun _ _ => rfl, fun s hs => ⟨?_, ?_, rfl, rfl, rfl⟩⟩
      · exact Function.update_noteq (n4 s hs) _ _
      · exact Function.update_noteq (n4 s hs) _ _
    · exact triv _ rfl rfl rfl rfl rfl rfl rfl rfl rfl rfl
  | CONTROLLERBUTTONDOWN which button =>
    have hb' : buttonDownSwitch button < 0 ∨ (0 ≤ which ∧ which < MAX_GAMEPADS) :=
      of_decide_eq_true hb
    simp only [processEvent, onControllerButtonDown]
    split_ifs with hm
    · have hw : 0 ≤ which ∧ which < (MAX_GAMEPADS : Int) := by
        rcases hb' with h | h
        · omega
        · exact h
      refine ⟨fun _ _ => rfl, fun _ _ => ⟨rfl, rfl, rfl⟩, fun _ _ => rfl,
        fun s hs => ⟨rfl, rfl, rfl, ?_, rfl⟩⟩
      exact Function.update_noteq (fun hh => hs (by rw [hh]; exact hw)) _ _
    · exact triv _ rfl rfl rfl rfl rfl rfl rfl rfl rfl rfl
  | CONTROLLERBUTTONUP which button =>
    have hb' : buttonUpSwitch button < 0 ∨ (0 ≤ which ∧ which < MAX_GAMEPADS) :=
      of_decide_eq_true hb
    by_cases hm : buttonUpSwitch button ≥ 0
    · have hw : 0 ≤ which ∧ which < (MAX_GAMEPADS : Int) := by
        rcases hb' with h | h
        · omega
        · exact h
      have e : processEvent g (.CONTROLLERBUTTONUP which button)
          = { g with
              CORE.Input.Gamepad.currentButtonState :=
                update2 g.CORE.Input.Gamepad.currentButtonState which (buttonUpSwitch button) 0,
              CORE.Input.Gamepad.lastButtonPressed :=
                if g.CORE.Input.Gamepad.lastButtonPressed = buttonUpSwitch button then 0
                else g.CORE.Input.Gamepad.lastButtonPressed } := by
        show onControllerButtonUp which button g = _
        unfold onControllerButtonUp
        simp only
        rw [if_pos hm]
      rw [e]
      refine ⟨fun _ _ => rfl, fun _ _ => ⟨rfl, rfl, rfl⟩, fun _ _ => rfl,
        fun s hs => ⟨rfl, rfl, rfl, ?_, rfl⟩⟩
      exact Function.update_noteq (fun hh => hs (by rw [hh]; exact hw)) _ _
    · have e : processEvent g (.CONTROLLERBUTTONUP which button) = g := by
        show onControllerButtonUp which button g = _
        unfold onControllerButtonUp
        simp only
        rw [if_neg hm]
      rw [e]
      exact triv _ rfl rfl rfl rfl rfl rfl rfl rfl rfl rfl
  | CONTROLLERAXISMOTION which axis value =>
    have hb' : axisSwitch axis < 0 ∨ (0 ≤ which ∧ which < MAX_GAMEPADS) :=
      of_decide_eq_true hb
    simp only [processEvent, onControllerAxisMotion]
    split_ifs with hm
    all_goals first
      | exact triv _ rfl rfl rfl rfl rfl rfl rfl rfl rfl rfl
      | (have hw : 0 ≤ which ∧ which < (MAX_GAMEPADS : Int) := by
          rcases hb' with h | h
          · omega
          · exact h
         refine ⟨fun _ _ => rfl, fun _ _ => ⟨rfl, rfl, rfl⟩, fun _ _ => rfl,
           fun s hs => ⟨rfl, rfl, rfl, ?_, ?_⟩⟩
         all_goals first
           | rfl
           | exact Function.update_noteq (fun hh => hs (by rw [hh]; exact hw)) _ _)
  | OTHER => exact triv _ rfl rfl rfl rfl rfl rfl rfl rfl rfl rfl

theorem foldl_processEvent_stores_in_bounds (queue : List SDL_Event) (g : Globals)
    (hb : ∀ e ∈ queue, storesInBounds e = true) :
    (∀ j : Int, ¬ (0 ≤ j ∧ j < PLATFORM_GAMEPAD_LENGTH) →
      (queue.foldl processEvent g).platform.gamepad j = g.platform.gamepad j)
    ∧ (∀ j : Int, ¬ (0 ≤ j ∧ j < MAX_TOUCH_POINTS) →
      (queue.foldl processEvent g).CORE.Input.Touch.pointId j = g.CORE.Input.Touch.pointId j
      ∧ (queue.foldl processEvent g).CORE.Input.Touch.position j = g.CORE.Input.Touch.position j
      ∧ (queue.foldl processEvent g).CORE.Input.Touch.currentTouchState j
          = g.CORE.Input.Touch.currentTouchState j)
    ∧ (∀ j : Int, ¬ (0 ≤ j ∧ j < MAX_MOUSE_BUTTONS) →
      (queue.foldl processEvent g).CORE.Input.Mouse.currentButtonState j
          = g.CORE.Input.Mouse.currentButtonState j)
    ∧ (∀ s : Int, ¬ (0 ≤ s ∧ s < MAX_GAMEPADS) →
      (queue.foldl processEvent g).CORE.Input.Gamepad.ready s = g.CORE.Input.Gamepad.ready s
      ∧ (queue.foldl processEvent g).CORE.Input.Gamepad.name s = g.CORE.Input.Gamepad.name s
      ∧ (queue.foldl processEvent g).CORE.Input.Gamepad.axisCount s
          = g.CORE.Input.Gamepad.axisCount s
      ∧ (queue.foldl processEvent g).CORE.Input.Gamepad.currentButtonState s
          = g.CORE.Input.Gamepad.currentButtonState s
      ∧ (queue.foldl processEvent g).CORE.Input.Gamepad.axisState s
          = g.CORE.Input.Gamepad.axisState s) := by
  induction queue generalizing g with
  | nil =>
    exact ⟨fun _ _ => rfl, fun _ _ => ⟨rfl, rfl, rfl⟩, fun _ _ => rfl,
      fun _ _ => ⟨rfl, rfl, rfl, rfl, rfl⟩⟩
  | cons e es ih =>
    obtain ⟨a1, a2, a3, a4⟩ := ih (processEvent g e)
      (fun e' he' => hb e' (List.mem_cons_of_mem _ he'))
    obtain ⟨b1, b2, b3, b4⟩ := processEvent_stores_in_bounds g e
      (hb e (List.mem_cons_self _ _))
    rw [List.foldl_cons]
    refine ⟨fun j hj => (a1 j hj).trans (b1 j hj), fun j hj => ?_,
      fun j hj => (a3 j hj).trans (b3 j hj), fun s hs => ?_⟩
    · obtain ⟨x1, x2, x3⟩ := a2 j hj
      obtain ⟨y1, y2, y3⟩ := b2 j hj
      exact ⟨x1.trans y1, x2.trans y2, x3.trans y3⟩
    · obtain ⟨x1, x2, x3, x4, x5⟩ := a4 s hs
      obtain ⟨y1, y2, y3, y4, y5⟩ := b4 s hs
      exact ⟨x1.trans y1, x2.trans y2, x3.trans y3, x4.trans y4, x5.trans y5⟩

/-- A poll that drains a queue of events accepted by `storesInBounds` writes no
cell outside the declared length of `platform.gamepad`, of the touch arrays, of
`Mouse.currentButtonState` and of the per-slot gamepad arrays. -/
theorem PollInputEvents_stores_in_bounds (numJoysticks : Int) (queue : List SDL_Event)
    (g : Globals) (hb : ∀ e ∈ queue, storesInBounds e = true) :
    (∀ j : Int, ¬ (0 ≤ j ∧ j < PLATFORM_GAMEPAD_LENGTH) →
      (PollInputEvents numJoysticks queue g).platform.gamepad j = g.platform.gamepad j)
    ∧ (∀ j : Int, ¬ (0 ≤ j ∧ j < MAX_TOUCH_POINTS) →
      (PollInputEvents numJoysticks queue g).CORE.Input.Touch.pointId j = g.CORE.Input.Touch.pointId j
      ∧ (PollInputEvents numJoysticks queue g).CORE.Input.Touch.position j = g.CORE.Input.Touch.position j
      ∧ (PollInputEvents numJoysticks queue g).CORE.Input.Touch.currentTouchState j
          = g.CORE.Input.Touch.currentTouchState j)
    ∧ (∀ j : Int, ¬ (0 ≤ j ∧ j < MAX_MOUSE_BUTTONS) →
      (PollInputEvents numJoysticks queue g).CORE.Input.Mouse.currentButtonState j
          = g.CORE.Input.Mouse.currentButtonState j)
    ∧ (∀ s : Int, ¬ (0 ≤ s ∧ s < MAX_GAMEPADS) →
      (PollInputEvents numJoysticks queue g).CORE.Input.Gamepad.ready s = g.CORE.Input.Gamepad.ready s
      ∧ (PollInputEvents numJoysticks queue g).CORE.Input.Gamepad.name s = g.CORE.Input.Gamepad.name s
      ∧ (PollInputEvents numJoysticks queue g).CORE.Input.Gamepad.axisCount s
          = g.CORE.Input.Gamepad.axisCount s
      ∧ (PollInputEvents numJoysticks queue g).CORE.Input.Gamepad.currentButtonState s
          = g.CORE.Input.Gamepad.currentButtonState s
      ∧ (PollInputEvents numJoysticks queue g).CORE.Input.Gamepad.axisState s
          = g.CORE.Input.Gamepad.axisState s) := by
  obtain ⟨a1, a2, a3, a4⟩ := foldl_processEvent_stores_in_bounds queue
    (registerPrevious numJoysticks g) hb
  have hp := (registerPrevious_Window numJoysticks g).2
  have ht := registerPrevious_Touch numJoysticks g
  obtain ⟨-, t2, t3, t4⟩ := registerPreviousTouchStates_frame g.CORE.Input.Touch
  have hm : (registerPrevious numJoysticks g).CORE.Input.Mouse.currentButtonState
      = g.CORE.Input.Mouse.currentButtonState := by
    rw [registerPrevious_Mouse, (registerPreviousMouseButtons_frame _).2.2.2.2.2]
    cases g.platform.cursorRelative <;> rfl
  have hg := registerPrevious_Gamepad numJoysticks g
  obtain ⟨-, g2, g3, g4, g5, g6⟩ := registerPreviousGamepadButtons_frame numJoysticks
    g.CORE.Input.Gamepad
  unfold PollInputEvents
  refine ⟨fun j hj => ?_, fun j hj => ?_, fun j hj => ?_, fun s hs => ?_⟩
  · rw [a1 j hj, hp]
  · obtain ⟨x1, x2, x3⟩ := a2 j hj
    rw [x1, x2, x3, ht, t2, t3, t4]
    exact ⟨rfl, rfl, rfl⟩
  · rw [a3 j hj, hm]
  · obtain ⟨x1, x2, x3, x4, x5⟩ := a4 s hs
    rw [x1, x2, x3, x4, x5, hg, g2, g3, g4, g5, g6]
    exact ⟨rfl, rfl, rfl, rfl, rfl⟩

/-! ## Registration of the previous states and stores past an array -/

/-- For every state and every drained queue of events that `storesInBounds`
accepts (the empty queue included), after `PollInputEvents` each cell of
`previousKeyState`, `Mouse.previousButtonState` and
`Touch.previousTouchState`, over the whole declared length of the array, holds
what the corresponding `current` array held in that cell immediately before the
call, and no cell past the end of the mouse and touch `current` arrays is
written. -/
theorem PollInputEvents_previous_is_old_current (numJoysticks : Int)
    (queue : List SDL_Event) (g : Globals) (hb : ∀ e ∈ queue, storesInBounds e = true) :
    (∀ i : Fin MAX_KEYBOARD_KEYS,
      (PollInputEvents numJoysticks queue g).CORE.Input.Keyboard.previousKeyState (i : Nat)
        = g.CORE.Input.Keyboard.currentKeyState (i : Nat))
    ∧ (∀ i : Fin MAX_MOUSE_BUTTONS,
      (PollInputEvents numJoysticks queue g).CORE.Input.Mouse.previousButtonState (i : Nat)
        = g.CORE.Input.Mouse.currentButtonState (i : Nat))
    ∧ (∀ i : Fin MAX_TOUCH_POINTS,
      (PollInputEvents numJoysticks queue g).CORE.Input.Touch.previousTouchState (i : Nat)
        = g.CORE.Input.Touch.currentTouchState (i : Nat))
    ∧ (∀ j : Int, ¬ (0 ≤ j ∧ j < MAX_MOUSE_BUTTONS) →
      (PollInputEvents numJoysticks queue g).CORE.Input.Mouse.currentButtonState j
        = g.CORE.Input.Mouse.currentButtonState j)
    ∧ (∀ j : Int, ¬ (0 ≤ j ∧ j < MAX_TOUCH_POINTS) →
      (PollInputEvents numJoysticks queue g).CORE.Input.Touch.currentTouchState j
        = g.CORE.Input.Touch.currentTouchState j) := by
  obtain ⟨-, f2, f3, -⟩ := PollInputEvents_stores_in_bounds numJoysticks queue g hb
  have hprev : (∀ i : Fin MAX_KEYBOARD_KEYS,
        (PollInputEvents numJoysticks queue g).CORE.Input.Keyboard.previousKeyState (i : Nat)
          = g.CORE.Input.Keyboard.currentKeyState (i : Nat))
      ∧ (∀ i : Fin MAX_MOUSE_BUTTONS,
        (PollInputEvents numJoysticks queue g).CORE.Input.Mouse.previousButtonState (i : Nat)
          = g.CORE.Input.Mouse.currentButtonState (i : Nat))
      ∧ (∀ i : Fin MAX_TOUCH_POINTS,
        (PollInputEvents numJoysticks queue g).CORE.Input.Touch.previousTouchState (i : Nat)
          = g.CORE.Input.Touch.currentTouchState (i : Nat)) := by
    obtain ⟨hk, hm, ht, -⟩ := foldl_processEvent_previous queue
      (registerPrevious numJoysticks g)
    unfold PollInputEvents
    rw [hk, hm, ht, registerPrevious_Keyboard, registerPrevious_Mouse, registerPrevious_Touch]
    refine ⟨fun i => ?_, fun i => ?_, fun i => ?_⟩
    · have hi : (0 : Int) ≤ ((i : Nat) : Int) ∧ ((i : Nat) : Int) < MAX_KEYBOARD_KEYS :=
        ⟨by omega, by exact_mod_cast i.isLt⟩
      rw [registerPreviousKeyStates_previous, if_pos hi]
    · have hi : (0 : Int) ≤ ((i : Nat) : Int) ∧ ((i : Nat) : Int) < MAX_MOUSE_BUTTONS :=
        ⟨by omega, by exact_mod_cast i.isLt⟩
      rw [registerPreviousMouseButtons_previous, if_pos hi]
      cases g.platform.cursorRelative <;> rfl
    · have hi : (0 : Int) ≤ ((i : Nat) : Int) ∧ ((i : Nat) : Int) < MAX_TOUCH_POINTS :=
        ⟨by omega, by exact_mod_cast i.isLt⟩
      rw [registerPreviousTouchStates_previous, if_pos hi]
  exact ⟨hprev.1, hprev.2.1, hprev.2.2, f3, fun j hj => (f2 j hj).2.2⟩

/-- C4, amended: for every state, every answer of `SDL_NumJoysticks()` and
every queue of events that store inside the declared arrays
(`storesInBounds`), for every slot `s < MAX_GAMEPADS` and button
`k < MAX_GAMEPAD_BUTTONS`: when `s < SDL_NumJoysticks()` and `ready[s]` held
before the call, `previousButtonState[s][k]` after `PollInputEvents` equals
`currentButtonState[s][k]` as it stood before the call; otherwise
`previousButtonState[s][k]` keeps the value it had before the call.  No row
past the `MAX_GAMEPADS` slots of `currentButtonState` is written. -/
theorem PollInputEvents_gamepad_previous (numJoysticks : Int) (queue : List SDL_Event)
    (g : Globals) (s : Fin MAX_GAMEPADS) (k : Fin MAX_GAMEPAD_BUTTONS)
    (hb : ∀ e ∈ queue, storesInBounds e = true) :
    (PollInputEvents numJoysticks queue g).CORE.Input.Gamepad.previousButtonState
        (s : Nat) (k : Nat)
      = (if ((s : Nat) : Int) < numJoysticks ∧ g.CORE.Input.Gamepad.ready (s : Nat) = true
        then g.CORE.Input.Gamepad.currentButtonState (s : Nat) (k : Nat)
        else g.CORE.Input.Gamepad.previousButtonState (s : Nat) (k : Nat))
    ∧ (∀ r : Int, ¬ (0 ≤ r ∧ r < MAX_GAMEPADS) →
      (PollInputEvents numJoysticks queue g).CORE.Input.Gamepad.currentButtonState r
        = g.CORE.Input.Gamepad.currentButtonState r) := by
  obtain ⟨-, -, -, f4⟩ := PollInputEvents_stores_in_bounds numJoysticks queue g hb
  refine ⟨?_, fun r hr => (f4 r hr).2.2.2.1⟩
  obtain ⟨-, -, -, hp⟩ := foldl_processEvent_previous queue (registerPrevious numJoysticks g)
  unfold PollInputEvents
  rw [hp, registerPrevious_Gamepad, registerPreviousGamepadButtons_previous]
  have hs : ((s : Nat) : Int) < MAX_GAMEPADS := by exact_mod_cast s.isLt
  have hk : (0 : Int) ≤ ((k : Nat) : Int) ∧ ((k : Nat) : Int) < MAX_GAMEPAD_BUTTONS :=
    ⟨by omega, by exact_mod_cast k.isLt⟩
  by_cases h : ((s : Nat) : Int) < numJoysticks ∧ g.CORE.Input.Gamepad.ready (s : Nat) = true
  · have h' : (0 ≤ ((s : Nat) : Int) ∧ ((s : Nat) : Int) < min numJoysticks MAX_GAMEPADS)
        ∧ g.CORE.Input.Gamepad.ready (s : Nat) = true
        ∧ 0 ≤ ((k : Nat) : Int) ∧ ((k : Nat) : Int) < MAX_GAMEPAD_BUTTONS :=
      ⟨⟨by omega, lt_min h.1 hs⟩, h.2, hk⟩
    rw [if_pos h, if_pos h']
  · have h' : ¬ ((0 ≤ ((s : Nat) : Int) ∧ ((s : Nat) : Int) < min numJoysticks MAX_GAMEPADS)
        ∧ g.CORE.Input.Gamepad.ready (s : Nat) = true
        ∧ 0 ≤ ((k : Nat) : Int) ∧ ((k : Nat) : Int) < MAX_GAMEPAD_BUTTONS) :=
      fun hh => h ⟨lt_of_lt_of_le hh.1.2 (min_le_left _ _), hh.2.1⟩
    rw [if_neg h, if_neg h']

/-- Witness of C4 (amended): the poll of a button-down event of slot 0 in the
zero state, where slot 0 is not ready: the previous state of the button keeps
its value 0. -/
theorem PollInputEvents_gamepad_previous_witness :
    (∀ e ∈ [SDL_Event.CONTROLLERBUTTONDOWN 0 SDL_CONTROLLER_BUTTON_A], storesInBounds e = true)
    ∧ (PollInputEvents 1 [.CONTROLLERBUTTONDOWN 0 SDL_CONTROLLER_BUTTON_A]
        zeroGlobals).CORE.Input.Gamepad.previousButtonState 0 7 = 0
    ∧ ∀ r : Int, ¬ (0 ≤ r ∧ r < MAX_GAMEPADS) →
      (PollInputEvents 1 [.CONTROLLERBUTTONDOWN 0 SDL_CONTROLLER_BUTTON_A]
        zeroGlobals).CORE.Input.Gamepad.currentButtonState r
        = zeroGlobals.CORE.Input.Gamepad.currentButtonState r :=
  ⟨by decide,
    (PollInputEvents_gamepad_previous 1 [.CONTROLLERBUTTONDOWN 0 SDL_CONTROLLER_BUTTON_A]
      zeroGlobals ⟨0, by decide⟩ ⟨7, by decide⟩ (by decide)).1.trans rfl,
    (PollInputEvents_gamepad_previous 1 [.CONTROLLERBUTTONDOWN 0 SDL_CONTROLLER_BUTTON_A]
      zeroGlobals ⟨0, by decide⟩ ⟨7, by decide⟩ (by decide)).2⟩

/-- C21, amended: mouse position after a poll that drains events which store
inside the declared arrays (`storesInBounds`; then no handle is stored past the
end of `platform.gamepad`, behind which `cursorRelative` lies).  In absolute
mode
`previousPosition` equals the `currentPosition` held before the poll and
`currentPosition` equals the `(x, y)` of the last motion event converted to
`float` (the integers themselves below `2^24` in absolute value), unchanged if
the frame had none.  In relative mode `currentPosition` equals the
`(xrel, yrel)` of the last motion event with `previousPosition = (0,0)`; when
the frame had no motion event `currentPosition` is `(0,0)` and
`previousPosition` is left as it was, so the delta is `(0,0)` if
`previousPosition` was `(0,0)` before the poll. -/
theorem mouse_position_after_poll (numJoysticks : Int) (g : Globals)
    (before after queue : List SDL_Event) (x y xrel yrel : Int)
    (hafter : ∀ a b c d, SDL_Event.MOUSEMOTION a b c d ∉ after)
    (hqueue : ∀ a b c d, SDL_Event.MOUSEMOTION a b c d ∉ queue)
    (hb : ∀ e ∈ before ++ after, storesInBounds e = true)
    (hbqueue : ∀ e ∈ queue, storesInBounds e = true) :
    (g.platform.cursorRelative = false →
      (PollInputEvents numJoysticks (before ++ .MOUSEMOTION x y xrel yrel :: after)
          g).CORE.Input.Mouse.previousPosition = g.CORE.Input.Mouse.currentPosition
      ∧ (PollInputEvents numJoysticks (before ++ .MOUSEMOTION x y xrel yrel :: after)
          g).CORE.Input.Mouse.currentPosition = ⟨f32 x, f32 y⟩
      ∧ (|x| < 2 ^ 24 → |y| < 2 ^ 24 →
        (PollInputEvents numJoysticks (before ++ .MOUSEMOTION x y xrel yrel :: after)
          g).CORE.Input.Mouse.currentPosition = ⟨x, y⟩)
      ∧ (PollInputEvents numJoysticks queue g).CORE.Input.Mouse.previousPosition
          = g.CORE.Input.Mouse.currentPosition
      ∧ (PollInputEvents numJoysticks queue g).CORE.Input.Mouse.currentPosition
          = g.CORE.Input.Mouse.currentPosition)
    ∧ (g.platform.cursorRelative = true →
      (PollInputEvents numJoysticks (before ++ .MOUSEMOTION x y xrel yrel :: after)
          g).CORE.Input.Mouse.currentPosition = ⟨f32 xrel, f32 yrel⟩
      ∧ (|xrel| < 2 ^ 24 → |yrel| < 2 ^ 24 →
        (PollInputEvents numJoysticks (before ++ .MOUSEMOTION x y xrel yrel :: after)
          g).CORE.Input.Mouse.currentPosition = ⟨xrel, yrel⟩)
      ∧ (PollInputEvents numJoysticks (before ++ .MOUSEMOTION x y xrel yrel :: after)
          g).CORE.Input.Mouse.previousPosition = ⟨0, 0⟩
      ∧ (PollInputEvents numJoysticks queue g).CORE.Input.Mouse.currentPosition = ⟨0, 0⟩
      ∧ (PollInputEvents numJoysticks queue g).CORE.Input.Mouse.previousPosition
          = g.CORE.Input.Mouse.previousPosition
      ∧ (g.CORE.Input.Mouse.previousPosition = ⟨0, 0⟩ →
        (PollInputEvents numJoysticks queue g).CORE.Input.Mouse.currentPosition.x
          - (PollInputEvents numJoysticks queue g).CORE.Input.Mouse.previousPosition.x = 0
        ∧ (PollInputEvents numJoysticks queue g).CORE.Input.Mouse.currentPosition.y
          - (PollInputEvents numJoysticks queue g).CORE.Input.Mouse.previousPosition.y = 0))
    ∧ (∀ j : Int, ¬ (0 ≤ j ∧ j < PLATFORM_GAMEPAD_LENGTH) →
      (PollInputEvents numJoysticks (before ++ .MOUSEMOTION x y xrel yrel :: after)
          g).platform.gamepad j = g.platform.gamepad j
      ∧ (PollInputEvents numJoysticks queue g).platform.gamepad j = g.platform.gamepad j) := by
  have hball : ∀ e ∈ before ++ .MOUSEMOTION x y xrel yrel :: after, storesInBounds e = true := by
    intro e he
    rcases List.mem_append.mp he with h | h
    · exact hb e (List.mem_append.mpr (Or.inl h))
    · rcases List.mem_cons.mp h with h | h
      · rw [h]
        rfl
      · exact hb e (List.mem_append.mpr (Or.inr h))
  have hframe : ∀ j : Int, ¬ (0 ≤ j ∧ j < PLATFORM_GAMEPAD_LENGTH) →
      (PollInputEvents numJoysticks (before ++ .MOUSEMOTION x y xrel yrel :: after)
          g).platform.gamepad j = g.platform.gamepad j
      ∧ (PollInputEvents numJoysticks queue g).platform.gamepad j = g.platform.gamepad j :=
    fun j hj => ⟨(PollInputEvents_stores_in_bounds numJoysticks _ g hball).1 j hj,
      (PollInputEvents_stores_in_bounds numJoysticks queue g hbqueue).1 j hj⟩
  obtain ⟨r1, r2, r3⟩ := registerPrevious_positions numJoysticks g
  have hq := foldl_processEvent_positions queue (registerPrevious numJoysticks g) hqueue
  have hmid : ∀ m : Globals,
      ((after.foldl processEvent (processEvent m (.MOUSEMOTION x y xrel yrel))
          ).CORE.Input.Mouse.currentPosition
        = (onMouseMotion x y xrel yrel m).CORE.Input.Mouse.currentPosition)
      ∧ ((after.foldl processEvent (processEvent m (.MOUSEMOTION x y xrel yrel))
          ).CORE.Input.Mouse.previousPosition
        = (onMouseMotion x y xrel yrel m).CORE.Input.Mouse.previousPosition) :=
    fun m => foldl_processEvent_positions after _ hafter
  have hrel : (before.foldl processEvent (registerPrevious numJoysticks g)
      ).platform.cursorRelative = g.platform.cursorRelative := by
    rw [foldl_processEvent_cursorRelative, r3]
  refine ⟨?_, ?_, hframe⟩
  · intro habs
    have h1 : (PollInputEvents numJoysticks (before ++ .MOUSEMOTION x y xrel yrel :: after)
        g).CORE.Input.Mouse.currentPosition = ⟨f32 x, f32 y⟩ := by
      unfold PollInputEvents
      rw [List.foldl_append, List.foldl_cons, (hmid _).1]
      simp only [onMouseMotion, hrel, habs]
      rfl
    refine ⟨?_, h1, fun hx hy => ?_, ?_, ?_⟩
    · unfold PollInputEvents
      rw [foldl_processEvent_previousPosition _ _ (by rw [r3]; exact habs), r2, habs]
      rfl
    · rw [h1, f32_intCast x hx, f32_intCast y hy]
    · unfold PollInputEvents
      rw [hq.2, r2, habs]
      rfl
    · unfold PollInputEvents
      rw [hq.1, r1, habs]
      rfl
  · intro hlock
    have h1 : (PollInputEvents numJoysticks (before ++ .MOUSEMOTION x y xrel yrel :: after)
        g).CORE.Input.Mouse.currentPosition = ⟨f32 xrel, f32 yrel⟩ := by
      unfold PollInputEvents
      rw [List.foldl_append, List.foldl_cons, (hmid _).1]
      simp only [onMouseMotion, hrel, hlock]
      rfl
    have h4 : (PollInputEvents numJoysticks queue g).CORE.Input.Mouse.currentPosition
        = ⟨0, 0⟩ := by
      unfold PollInputEvents
      rw [hq.1, r1, hlock]
      rfl
    have h5 : (PollInputEvents numJoysticks queue g).CORE.Input.Mouse.previousPosition
        = g.CORE.Input.Mouse.previousPosition := by
      unfold PollInputEvents
      rw [hq.2, r2, hlock]
      rfl
    refine ⟨h1, fun hx hy => ?_, ?_, h4, h5, fun h0 => ?_⟩
    · rw [h1, f32_intCast xrel hx, f32_intCast yrel hy]
    · unfold PollInputEvents
      rw [List.foldl_append, List.foldl_cons, (hmid _).2]
      simp only [onMouseMotion, hrel, hlock]
      rfl
    · rw [h4, h5, h0]
      exact ⟨sub_self _, sub_self _⟩

/-- Witness of C21 (amended): in absolute mode from the zero state, a frame in
which controller 0 is attached before the mouse moves to (3, 4); and an idle
frame after the cursor was locked in the zero state. -/
theorem mouse_position_after_poll_witness :
    (PollInputEvents 0 ([.JOYDEVICEADDED 0 (some ⟨0, 6⟩) [80, 83, 86]]
        ++ .MOUSEMOTION 3 4 1 1 :: [])
        zeroGlobals).CORE.Input.Mouse.currentPosition = ⟨f32 (3 : Int), f32 (4 : Int)⟩
    ∧ (PollInputEvents 0 [] (DisableCursor zeroGlobals)).CORE.Input.Mouse.currentPosition
        = ⟨0, 0⟩ :=
  ⟨((mouse_position_after_poll 0 zeroGlobals [.JOYDEVICEADDED 0 (some ⟨0, 6⟩) [80, 83, 86]]
      [] [] 3 4 1 1 (by simp) (by simp) (by decide) (by simp)).1 rfl).2.1,
    ((mouse_position_after_poll 0 (DisableCursor zeroGlobals) [] [] [] 3 4 1 1
      (by simp) (by simp) (by simp) (by simp)).2.1 rfl).2.2.2.1⟩

end RcoreVita
